import Mathlib

/-!
# Open-state engine of the NFSv4.1 client daemon

A shallow embedding of `daemon/open.c` and of the recently-deleted pointer ring
of `daemon/daemon_debug.c`:

* `nfs41_open_stateid_arg`   (open.c 230-271), the stateid selector;
* `map_disposition_2_nfsopen` (open.c 480-527), disposition to OPEN arguments;
* `map_access_2_allowdeny`    (open.c 529-570), access mask / share mode to
  share_access / share_deny;
* `open_for_attributes`       (open.c 448-478);
* `create_open_state`, `nfs41_open_state_ref`, `nfs41_open_state_deref`
  (open.c 39-95, 179-217), creation and reference counting of the open state;
* `handle_close`, `do_nfs41_close` (open.c 1144-1222), the CLOSE driver;
* `cancel_open`               (open.c 1075-1117);
* `handle_open` and its helpers (open.c 294-361, 572-606, 608-1030), the OPEN
  driver;
* `debug_ptr_was_recently_deleted`, `debug_ptr_add_recently_deleted`
  (daemon_debug.c 991-1025).

C integers are natural numbers (`ULONG`, `uint32_t`) or integers (`int`); the
increment of the 32-bit `LONG` reference count wraps (`long_wrap`);
output parameters (`uint32_t *create`, ...) are a record that is passed in
with the caller's current values and returned with the values after the call,
so a parameter the callee never writes keeps the value it had on entry.  The
drivers are functions of the answers of their collaborators and return the
trace of the calls they made.
-/

namespace Nfs41

/-! ## Constants

The numeric constants come from headers that are not part of the translated
sources (the Windows SDK and `nfs41_const.h` / `nfs41_ops.h`); they are given
their values from those headers and from the error catalogue of the
specification. -/

/-- Windows create dispositions (`FILE_SUPERSEDE` .. `FILE_OVERWRITE_IF`). -/
abbrev FILE_SUPERSEDE : Nat := 0
abbrev FILE_OPEN : Nat := 1
abbrev FILE_CREATE : Nat := 2
abbrev FILE_OPEN_IF : Nat := 3
abbrev FILE_OVERWRITE : Nat := 4
abbrev FILE_OVERWRITE_IF : Nat := 5

/-- Windows access rights tested by the mapper. -/
abbrev FILE_READ_DATA : Nat := 0x0001
abbrev FILE_WRITE_DATA : Nat := 0x0002
abbrev FILE_APPEND_DATA : Nat := 0x0004
abbrev FILE_EXECUTE : Nat := 0x0020
abbrev FILE_WRITE_ATTRIBUTES : Nat := 0x0100

/-- Windows share-mode bits. -/
abbrev FILE_SHARE_READ : Nat := 0x1
abbrev FILE_SHARE_WRITE : Nat := 0x2
abbrev FILE_SHARE_DELETE : Nat := 0x4

/-- Windows status codes (specification, error catalogue: 2 and 80). -/
abbrev NO_ERROR : Int := 0
abbrev ERROR_FILE_NOT_FOUND : Nat := 2
abbrev ERROR_FILE_EXISTS : Nat := 80

/-- NFSv4 status `NFS4ERR_NOENT` (RFC 5661). -/
abbrev NFS4ERR_NOENT : Int := 2

/-- NFSv4 `opentype4`. -/
abbrev OPEN4_NOCREATE : Nat := 0
abbrev OPEN4_CREATE : Nat := 1

/-- NFSv4 `createmode4`. -/
abbrev UNCHECKED4 : Nat := 0
abbrev GUARDED4 : Nat := 1
abbrev EXCLUSIVE4 : Nat := 2
abbrev EXCLUSIVE4_1 : Nat := 3

/-- NFSv4 share_access / share_deny values. -/
abbrev OPEN4_SHARE_ACCESS_READ : Nat := 0x0001
abbrev OPEN4_SHARE_ACCESS_WRITE : Nat := 0x0002
abbrev OPEN4_SHARE_ACCESS_BOTH : Nat := 0x0003
abbrev OPEN4_SHARE_ACCESS_WANT_NO_DELEG : Nat := 0x0400
abbrev OPEN4_SHARE_DENY_NONE : Nat := 0x0000
abbrev OPEN4_SHARE_DENY_READ : Nat := 0x0001
abbrev OPEN4_SHARE_DENY_WRITE : Nat := 0x0002
abbrev OPEN4_SHARE_DENY_BOTH : Nat := 0x0003

/-- The six create dispositions the kernel can send. -/
def dispositions : List Nat :=
  [FILE_SUPERSEDE, FILE_OPEN, FILE_CREATE, FILE_OPEN_IF, FILE_OVERWRITE, FILE_OVERWRITE_IF]

/-! ## Disposition mapper -/

/-- The three output parameters of `map_disposition_2_nfsopen`
(`uint32_t *create`, `*createhowmode`, `*last_error`). -/
structure nfsopen_out where
  create : Nat
  createhowmode : Nat
  last_error : Nat
  deriving DecidableEq

/-- The two assignments `if (persistent) *createhowmode = GUARDED4;
else *createhowmode = EXCLUSIVE4_1;` (open.c 490-491 and 498-499). -/
def set_createhowmode (persistent : Nat) (o : nfsopen_out) : nfsopen_out :=
  if persistent ≠ 0 then { o with createhowmode := GUARDED4 }
  else { o with createhowmode := EXCLUSIVE4_1 }

/-- `map_disposition_2_nfsopen` (open.c 480-527).  Returns the status and the
output parameters after the call; `o` holds them as they were on entry. -/
def map_disposition_2_nfsopen (disposition : Nat) (in_status : Int) (persistent : Nat)
    (o : nfsopen_out) : Int × nfsopen_out :=
  if disposition = FILE_SUPERSEDE then
    let o1 := if in_status = NFS4ERR_NOENT then
        { o with last_error := ERROR_FILE_NOT_FOUND } else o
    let o2 := { o1 with create := OPEN4_CREATE }
    (NO_ERROR, set_createhowmode persistent o2)
  else if disposition = FILE_CREATE then
    if in_status = 0 then
      ((ERROR_FILE_EXISTS : Nat), o)
    else
      (NO_ERROR, set_createhowmode persistent { o with create := OPEN4_CREATE })
  else if disposition = FILE_OPEN then
    if in_status = NFS4ERR_NOENT then
      ((ERROR_FILE_NOT_FOUND : Nat), o)
    else
      (NO_ERROR, { o with create := OPEN4_NOCREATE })
  else if disposition = FILE_OPEN_IF then
    if in_status = NFS4ERR_NOENT then
      (NO_ERROR, { o with create := OPEN4_CREATE, last_error := ERROR_FILE_NOT_FOUND })
    else
      (NO_ERROR, { o with create := OPEN4_NOCREATE })
  else if disposition = FILE_OVERWRITE then
    let status : Int := if in_status = NFS4ERR_NOENT then (ERROR_FILE_NOT_FOUND : Nat)
      else NO_ERROR
    (status, { o with create := OPEN4_CREATE })
  else if disposition = FILE_OVERWRITE_IF then
    let o1 := if in_status = NFS4ERR_NOENT then
        { o with last_error := ERROR_FILE_NOT_FOUND } else o
    (NO_ERROR, { o1 with create := OPEN4_CREATE })
  else
    (NO_ERROR, o)

/-! ## Access / share-mode mapper -/

/-- The two output parameters of `map_access_2_allowdeny` (`uint32_t *allow`,
`uint32_t *deny`; the caller passes `&state->share_access` and
`&state->share_deny`). -/
structure allowdeny_out where
  allow : Nat
  deny : Nat
  deriving DecidableEq

/-- The C truth value of `mask & bits`. -/
def has_any (mask bits : Nat) : Prop := mask &&& bits ≠ 0

instance has_any_decidable (mask bits : Nat) : Decidable (has_any mask bits) := by
  unfold has_any; exact inferInstance

/-- `map_access_2_allowdeny` (open.c 529-570), with
`FIX_ALLOW_DENY_WIN2NFS_CONVERSION` defined as it is at line 552. -/
def map_access_2_allowdeny (access_mask access_mode disposition : Nat)
    (o : allowdeny_out) : allowdeny_out :=
  let o1 :=
    if has_any access_mask (FILE_WRITE_DATA ||| FILE_APPEND_DATA ||| FILE_WRITE_ATTRIBUTES) ∧
        has_any access_mask (FILE_READ_DATA ||| FILE_EXECUTE) then
      { o with allow := OPEN4_SHARE_ACCESS_BOTH }
    else if has_any access_mask (FILE_READ_DATA ||| FILE_EXECUTE) then
      { o with allow := OPEN4_SHARE_ACCESS_READ }
    else if has_any access_mask
        (FILE_WRITE_DATA ||| FILE_APPEND_DATA ||| FILE_WRITE_ATTRIBUTES) then
      { o with allow := OPEN4_SHARE_ACCESS_WRITE }
    else o
  let o2 :=
    if (disposition = FILE_CREATE ∨ disposition = FILE_OPEN_IF ∨
          disposition = FILE_OVERWRITE_IF ∨ disposition = FILE_SUPERSEDE ∨
          disposition = FILE_OVERWRITE) ∧
        ¬ has_any access_mask (FILE_WRITE_DATA ||| FILE_APPEND_DATA |||
          FILE_WRITE_ATTRIBUTES ||| FILE_READ_DATA ||| FILE_EXECUTE) then
      { o1 with allow := OPEN4_SHARE_ACCESS_READ ||| OPEN4_SHARE_ACCESS_WANT_NO_DELEG }
    else o1
  if has_any access_mode FILE_SHARE_READ ∧ has_any access_mode FILE_SHARE_WRITE then
    { o2 with deny := OPEN4_SHARE_DENY_NONE }
  else if has_any access_mode FILE_SHARE_READ then
    { o2 with deny := OPEN4_SHARE_DENY_WRITE }
  else if has_any access_mode FILE_SHARE_WRITE then
    { o2 with deny := OPEN4_SHARE_DENY_READ }
  else
    { o2 with deny := OPEN4_SHARE_DENY_BOTH }

/-- The mask requests a read-shaped right (`FILE_READ_DATA` or `FILE_EXECUTE`). -/
def read_shaped (access_mask : Nat) : Prop :=
  has_any access_mask FILE_READ_DATA ∨ has_any access_mask FILE_EXECUTE

/-- The mask requests a write-shaped right (`FILE_WRITE_DATA`,
`FILE_APPEND_DATA` or `FILE_WRITE_ATTRIBUTES`). -/
def write_shaped (access_mask : Nat) : Prop :=
  has_any access_mask FILE_WRITE_DATA ∨ has_any access_mask FILE_APPEND_DATA ∨
    has_any access_mask FILE_WRITE_ATTRIBUTES

instance read_shaped_decidable (m : Nat) : Decidable (read_shaped m) := by
  unfold read_shaped; exact inferInstance

instance write_shaped_decidable (m : Nat) : Decidable (write_shaped m) := by
  unfold write_shaped; exact inferInstance

/-- The dispositions that may create a file, as tested at open.c 545-547. -/
def creating_dispositions : List Nat :=
  [FILE_CREATE, FILE_OPEN_IF, FILE_OVERWRITE_IF, FILE_SUPERSEDE, FILE_OVERWRITE]

/-! ## Stateid selector -/

/-- Modelled from the spec: `enum stateid_type` is declared in `nfs41_ops.h`,
which is not among the translated sources; the selector produces the four
kinds `OPEN`, `LOCK`, `DELEG_FILE` and `SPECIAL`. -/
inductive stateid_type where
  | STATEID_OPEN
  | STATEID_LOCK
  | STATEID_DELEG_FILE
  | STATEID_DELEG_DIR
  | STATEID_LAYOUT
  | STATEID_SPECIAL
  deriving DecidableEq

/-- Modelled from the spec: `enum delegation_status` is declared in
`delegation.h`, which is not among the translated sources; a delegation is
either GRANTED or recalled (being returned, or returned). -/
inductive delegation_status where
  | DELEGATION_GRANTED
  | DELEGATION_RETURNING
  | DELEGATION_RETURNED
  deriving DecidableEq

/-- Length of the opaque part of a stateid (`nfs41_const.h`). -/
abbrev NFS4_STATEID_OTHER : Nat := 12

/-- A stateid: 32-bit sequence id and opaque bytes. -/
structure stateid4 where
  seqid : Nat
  other : List Nat
  deriving DecidableEq

/-- Modelled from the spec: `stateid4_cpy` is an inline helper of a header
that is not among the translated sources; it copies the stateid. -/
def stateid4_cpy (src : stateid4) : stateid4 := src

/-- Modelled from the spec: `stateid4_clear` is an inline helper of a header
that is not among the translated sources; it yields the all-zero stateid. -/
def stateid4_clear : stateid4 :=
  { seqid := 0, other := List.replicate NFS4_STATEID_OTHER 0 }

/-- The part of `open_delegation4` the selector reads. -/
structure open_delegation4 where
  stateid : stateid4
  deriving DecidableEq

/-- The part of `nfs41_delegation_state` the selector reads. -/
structure nfs41_delegation_state where
  state : open_delegation4
  status : delegation_status
  deriving DecidableEq

/-- Member `delegation` of the open state: `state` is the optional handle
(`NULL` is `none`). -/
structure open_state_delegation where
  state : Option nfs41_delegation_state
  deriving DecidableEq

/-- Member `locks` of the open state: the aggregated lock stateid and the list
of byte-range locks (each lock is represented by an identifier). -/
structure open_state_locks where
  stateid : stateid4
  list : List Nat := []
  deriving DecidableEq

/-- An absolute path `nfs41_abs_path`: the bytes of the C string `path` before
its terminating NUL, and the `unsigned short` field `len`. -/
structure nfs41_abs_path where
  path : List Nat
  len : Nat
  deriving DecidableEq

/-- The open owner `state_owner4`: the bytes of `owner` before the first NUL
and `owner_len`. -/
structure state_owner4 where
  owner : List Nat
  owner_len : Nat
  deriving DecidableEq

/-- The pointer `ea.list` of the open state: `NULL`, the sentinel
`INVALID_HANDLE_VALUE` (no extended attributes) or a buffer. -/
inductive ea_list_ptr where
  | NULL
  | INVALID_HANDLE_VALUE
  | buffer (bytes : List Nat)
  deriving DecidableEq

/-- Member `ea` of the open state. -/
structure open_state_ea where
  list : ea_list_ptr
  deriving DecidableEq

/-- A file handle `nfs41_fh`: its length and the pointer to its superblock
(0 is `NULL`). -/
structure nfs41_fh where
  len : Nat
  superblock : Nat
  deriving DecidableEq

/-- The part of `nfs41_path_fh` used here: the file handle. -/
structure nfs41_path_fh where
  fh : nfs41_fh
  deriving DecidableEq

/-- The open state `nfs41_open_state`.  The first four fields are those read
by `nfs41_open_stateid_arg`; the others default to the zero fill of
`calloc`. -/
structure nfs41_open_state where
  stateid : stateid4
  do_close : Bool
  delegation : open_state_delegation
  locks : open_state_locks
  path : nfs41_abs_path := { path := [], len := 0 }
  owner : state_owner4 := { owner := [], owner_len := 0 }
  type : Nat := 0
  share_access : Nat := 0
  share_deny : Nat := 0
  ref_count : Int := 0
  srv_open : Nat := 0
  ea : open_state_ea := { list := ea_list_ptr.NULL }
  file : nfs41_path_fh := { fh := { len := 0, superblock := 0 } }
  parent : nfs41_path_fh := { fh := { len := 0, superblock := 0 } }
  deriving DecidableEq

/-- The output `stateid_arg`.  The field `open` of the source is `open_`. -/
structure stateid_arg where
  stateid : stateid4
  type : stateid_type
  open_ : Option nfs41_open_state
  delegation : Option nfs41_delegation_state
  deriving DecidableEq

/-- The wait loop `while (!state->do_close) SleepConditionVariableSRW(...)`
(open.c 254-256).  The sleep releases the shared lock, so each wake-up may
find the open state rewritten by another thread: `wakes` lists the contents of
the open state at the successive wake-ups.  The result is the state in which
the loop exits, or `none` when `do_close` is never observed set (the caller
stays blocked). -/
def wait_do_close : nfs41_open_state → List nfs41_open_state → Option nfs41_open_state
  | s, [] => if s.do_close then some s else none
  | s, w :: ws => if s.do_close then some s else wait_do_close w ws

/-- The final selection of `nfs41_open_stateid_arg` (open.c 259-268): lock
stateid, open stateid or special stateid. -/
def select_lock_open_special (state : nfs41_open_state) (arg : stateid_arg) : stateid_arg :=
  if state.locks.stateid.seqid ≠ 0 then
    { arg with stateid := stateid4_cpy state.locks.stateid, type := stateid_type.STATEID_LOCK }
  else if state.do_close then
    { arg with stateid := stateid4_cpy state.stateid, type := stateid_type.STATEID_OPEN }
  else
    { arg with stateid := stateid4_clear, type := stateid_type.STATEID_SPECIAL }

/-- `nfs41_open_stateid_arg` (open.c 230-271).  `arg0` is the content of the
output argument on entry (the function does not initialise `arg->type`), and
`wakes` is the environment of the wait loop, see `wait_do_close`.  The result
is `none` when the call never returns. -/
def nfs41_open_stateid_arg (state : nfs41_open_state) (wakes : List nfs41_open_state)
    (arg0 : stateid_arg) : Option stateid_arg :=
  let arg := { arg0 with open_ := some state, delegation := none }
  match state.delegation.state with
  | some deleg =>
    let arg1 :=
      if deleg.status = delegation_status.DELEGATION_GRANTED then
        { arg with type := stateid_type.STATEID_DELEG_FILE,
                   stateid := stateid4_cpy deleg.state.stateid }
      else arg
    if arg1.type = stateid_type.STATEID_DELEG_FILE then
      some arg1
    else
      match wait_do_close state wakes with
      | none => none
      | some s => some (select_lock_open_special s arg1)
  | none => some (select_lock_open_special state arg)

/-- A GRANTED delegation is attached to the open state. -/
def delegation_granted (state : nfs41_open_state) : Prop :=
  ∃ deleg, state.delegation.state = some deleg ∧
    deleg.status = delegation_status.DELEGATION_GRANTED

/-- A delegation that is not GRANTED (a recalled one) is attached. -/
def delegation_recalled (state : nfs41_open_state) : Prop :=
  ∃ deleg, state.delegation.state = some deleg ∧
    deleg.status ≠ delegation_status.DELEGATION_GRANTED

/-- An open state with no delegation, a lock stateid of seqid 1 and `do_close`
set. -/
def locked_open_state : nfs41_open_state :=
  { stateid := ⟨7, []⟩, do_close := true, delegation := ⟨none⟩, locks := { stateid := ⟨1, []⟩ } }

/-- The state `locked_open_state` with a recalled delegation attached. -/
def recalled_locked_open_state : nfs41_open_state :=
  { locked_open_state with
    delegation := ⟨some ⟨⟨⟨3, []⟩⟩, delegation_status.DELEGATION_RETURNING⟩⟩ }

/-- An output argument whose type is SPECIAL on entry. -/
def special_arg : stateid_arg :=
  { stateid := ⟨0, []⟩, type := stateid_type.STATEID_SPECIAL, open_ := none,
    delegation := none }

/-- An output argument left over from an earlier delegation I/O: its type is
DELEG_FILE on entry and its stateid is that of the old delegation. -/
def stale_deleg_arg : stateid_arg :=
  { stateid := ⟨99, [9]⟩, type := stateid_type.STATEID_DELEG_FILE, open_ := none,
    delegation := none }

/-! ## Attribute-only opens -/

/-- NFSv4 file types `nfs_ftype4` (RFC 5661). -/
abbrev NF4REG : Nat := 1
abbrev NF4DIR : Nat := 2
abbrev NF4LNK : Nat := 5

/-- `open_for_attributes` (open.c 448-478). -/
def open_for_attributes (type access_mask disposition : Nat) (status : Int) : Bool :=
  if type = NF4DIR then
    if disposition = FILE_OPEN ∨ disposition = FILE_OVERWRITE ∨
        (status = 0 ∧ (disposition = FILE_OPEN_IF ∨
          disposition = FILE_OVERWRITE_IF ∨
          disposition = FILE_SUPERSEDE)) then
      true
    else
      false
  else if has_any access_mask FILE_READ_DATA ∨
      has_any access_mask FILE_WRITE_DATA ∨
      has_any access_mask FILE_APPEND_DATA ∨
      has_any access_mask FILE_EXECUTE ∨
      disposition = FILE_CREATE ∨
      disposition = FILE_OVERWRITE_IF ∨
      disposition = FILE_SUPERSEDE ∨
      disposition = FILE_OPEN_IF ∨
      disposition = FILE_OVERWRITE then
    false
  else
    true

/-! ## Creation of the open state and reference counting -/

/-- Windows status `ERROR_FILENAME_EXCED_RANGE` (specification, error
catalogue: 206). -/
abbrev ERROR_FILENAME_EXCED_RANGE : Nat := 206

/-- The digits of the do-while loop of the C runtime function `_ultoa`, least
significant first: `digit = value % radix; value /= radix;` repeated while
`value > 0`.  The first argument bounds the number of digits. -/
def ultoa_digits (radix : Nat) : Nat → Nat → List Nat
  | 0, _ => []
  | fuel + 1, value =>
    (value % radix) ::
      (if value / radix = 0 then [] else ultoa_digits radix fuel (value / radix))

/-- The character `_ultoa` writes for a digit: `0`..`9`, then `a`..`z`. -/
def ultoa_char (digit : Nat) : Nat :=
  if digit < 10 then 48 + digit else 87 + digit

/-- The C runtime function `_ultoa(value, buffer, radix)` for a 32-bit
`unsigned long`: the text written to the buffer, most significant digit first
(32 digits suffice for every radix). -/
def _ultoa (value radix : Nat) : List Nat :=
  ((ultoa_digits radix 32 value).reverse).map ultoa_char

/-- `strlen` of a C string, which is represented by the list of its bytes
before the terminating NUL. -/
def strlen (s : List Nat) : Nat := s.length

/-- The memory returned by `calloc(1, sizeof(nfs41_open_state))`. -/
def calloc_open_state : nfs41_open_state :=
  { stateid := stateid4_clear, do_close := false, delegation := { state := none },
    locks := { stateid := stateid4_clear, list := [] } }

/-- `create_open_state` (open.c 39-95).  `NFS41_MAX_PATH_LEN` is the constant
of `nfs41_const.h`; `alloc_error` is `none` when `calloc` succeeds and the
value of `GetLastError()` when it fails.  The result is the status and the
state stored to `*state_out`, if any. -/
def create_open_state (NFS41_MAX_PATH_LEN : Nat) (alloc_error : Option Int)
    (path : List Nat) (open_owner_id : Nat) : Int × Option nfs41_open_state :=
  match alloc_error with
  | some e => (e, none)
  | none =>
    let state := calloc_open_state
    let path_len := strlen path
    if path_len ≥ NFS41_MAX_PATH_LEN then
      ((ERROR_FILENAME_EXCED_RANGE : Nat), none)
    else
      let state := { state with path := { path := path, len := path_len % 65536 } }
      let owner := _ultoa open_owner_id 10
      let state := { state with owner := { owner := owner, owner_len := strlen owner } }
      let state := { state with ref_count := 1 }
      let state := { state with locks := { state.locks with list := [] } }
      let state := { state with ea := { list := ea_list_ptr.INVALID_HANDLE_VALUE } }
      (NO_ERROR, some state)

/-- The value a 32-bit `LONG` holds after an arithmetic result `x`: two's
complement wrap-around into `-2^31 .. 2^31 - 1`. -/
def long_wrap (x : Int) : Int := (x + 2147483648) % 4294967296 - 2147483648

/-- `nfs41_open_state_ref` (open.c 179-205): `InterlockedIncrement` of the
`LONG` `ref_count`, which wraps from `LONG_MAX` (2147483647) to `LONG_MIN`. -/
def nfs41_open_state_ref (state : nfs41_open_state) : nfs41_open_state :=
  { state with ref_count := long_wrap (state.ref_count + 1) }

/-- `nfs41_open_state_deref` (open.c 207-217): `InterlockedDecrement` of
`ref_count`; the second component tells whether `open_state_free` was
called.  The decrement of a `LONG` is exact for every count above `LONG_MIN`,
in particular for the positive counts that the `EASSERT` of open.c 210 asks
for. -/
def nfs41_open_state_deref (state : nfs41_open_state) : nfs41_open_state × Bool :=
  let count := state.ref_count - 1
  ({ state with ref_count := count }, decide (count = 0))

/-- A call of `nfs41_open_state_ref` or of `nfs41_open_state_deref`. -/
inductive ref_call where
  | ref
  | deref
  deriving DecidableEq

/-- One reference-counting call on a state; the second component is the number
of calls of `open_state_free` it made. -/
def ref_call_step (state : nfs41_open_state) : ref_call → nfs41_open_state × Nat
  | ref_call.ref => (nfs41_open_state_ref state, 0)
  | ref_call.deref =>
    ((nfs41_open_state_deref state).1, if (nfs41_open_state_deref state).2 then 1 else 0)

/-- A sequence of reference-counting calls on a state: the final state and the
number of calls of `open_state_free`. -/
def ref_calls_run : nfs41_open_state → List ref_call → nfs41_open_state × Nat
  | state, [] => (state, 0)
  | state, c :: cs =>
    ((ref_calls_run (ref_call_step state c).1 cs).1,
      (ref_call_step state c).2 + (ref_calls_run (ref_call_step state c).1 cs).2)

/-- Every call of the sequence is made while `ref_count > 0` (the `EASSERT` of
open.c 200 and 210). -/
def ref_calls_valid : nfs41_open_state → List ref_call → Prop
  | _, [] => True
  | state, c :: cs => 0 < state.ref_count ∧ ref_calls_valid (ref_call_step state c).1 cs

/-- No `nfs41_open_state_ref` of the sequence is made while `ref_count` is
`LONG_MAX` (2147483647), so that no increment overflows. -/
def ref_calls_in_range : nfs41_open_state → List ref_call → Prop
  | _, [] => True
  | state, c :: cs =>
    (c = ref_call.ref → state.ref_count < 2147483647) ∧
      ref_calls_in_range (ref_call_step state c).1 cs

/-- The positional value of a list of digits, least significant first. -/
def digits_value (radix : Nat) : List Nat → Nat
  | [] => 0
  | d :: ds => d + radix * digits_value radix ds

/-! ## Collaborator calls

The drivers below are modelled over the answers of their collaborators (the RPC
layer and the delegation, layout and client-list modules).  A driver returns,
with its status, the trace of the collaborator calls it made, in order.  The
answers of a collaborator that may be called repeatedly are a list, used in
order; after the end of the list it answers `NFS4_OK`, so every run that
terminates is the run of a finite list. -/

/-- NFSv4 statuses (RFC 5661) and the Windows `ERROR_INTERNAL_ERROR`
(specification, error catalogue: 1359). -/
abbrev NFS4_OK : Int := 0
abbrev NFS4ERR_EXIST : Int := 17
abbrev NFS4ERR_FILE_OPEN : Int := 10046
abbrev ERROR_INTERNAL_ERROR : Int := 1359

/-- NFSv4 `open_delegation_type4` value `OPEN_DELEGATE_WRITE`. -/
abbrev OPEN_DELEGATE_WRITE : Nat := 2

/-- A call to a collaborator, with the arguments that matter here and, when it
returns one, its status.  `nfs41_close` records the stateid passed and the
value of `do_close` of the open state when the call is made. -/
inductive call where
  | pnfs_layout_state_close
  | nfs41_delegation_remove_srvopen
  | create_silly_rename
  | nfs41_close (type : stateid_type) (stateid : stateid4) (do_close : Bool) (status : Int)
  | nfs41_delegation_return (access : Nat)
  | nfs41_remove (status : Int)
  | client_state_add
  | client_state_remove
  | nfs41_open_state_ref
  | nfs41_open_state_deref
  | nfs41_lookup (status : Int)
  | nfs41_symlink_target (status : Int)
  | nfs41_symlink_follow (status : Int)
  | nfs41_create (type : Nat) (status : Int)
  | nfs41_getattr (status : Int)
  | nfs41_access (status : Int)
  | nfs41_delegate_open (status : Int)
  | nfs41_open (create createhowmode share_access share_deny : Nat) (status : Int)
  | nfs41_ea_set (status : Int)
  deriving DecidableEq

/-- The statuses of the CLOSE calls of a trace, in order. -/
def close_statuses : List call → List Int
  | [] => []
  | call.nfs41_close _ _ _ status :: cs => status :: close_statuses cs
  | _ :: cs => close_statuses cs

/-- The statuses of the REMOVE calls of a trace, in order. -/
def remove_statuses : List call → List Int
  | [] => []
  | call.nfs41_remove status :: cs => status :: remove_statuses cs
  | _ :: cs => remove_statuses cs

/-! ## CLOSE driver -/

/-- The arguments of a CLOSE upcall (`close_upcall_args`). -/
structure close_upcall_args where
  remove : Bool
  renamed : Bool
  srv_open : Nat
  deriving DecidableEq

/-- The local variables and the open state of a run of `handle_close`, with the
trace so far. -/
structure close_run where
  status : Int
  rm_status : Int
  state : nfs41_open_state
  trace : List call
  deriving DecidableEq

/-- `do_nfs41_close` (open.c 1144-1161).  `nfs_to_windows_error` is the status
mapping of `util.c`, a parameter; `answer` is the status of `nfs41_close`.
Returns the status and the call made. -/
def do_nfs41_close (nfs_to_windows_error : Int → Int → Int) (state : nfs41_open_state)
    (answer : Int) : Int × call :=
  let stateid : stateid4 := stateid4_cpy state.stateid
  let status := answer
  let status := if status ≠ 0 then nfs_to_windows_error status ERROR_INTERNAL_ERROR
    else status
  (status, call.nfs41_close stateid_type.STATEID_OPEN stateid state.do_close answer)

/-- The label `out:` of `handle_close` (open.c 1214-1221): unlink from the
client list and choose the returned status. -/
def handle_close_out (r : close_run) : close_run :=
  let r := { r with trace := r.trace ++ [call.client_state_remove] }
  if r.status ≠ 0 ∨ r.rm_status = 0 then r else { r with status := r.rm_status }

/-- The end of `handle_close` (open.c 1211-1221): the final CLOSE when
`do_close` is set, then the label `out:`. -/
def handle_close_finish (nfs_to_windows_error : Int → Int → Int)
    (close_answers : List Int) (r : close_run) : close_run :=
  if r.state.do_close then
    let c := do_nfs41_close nfs_to_windows_error r.state (close_answers.headD NFS4_OK)
    handle_close_out { r with status := c.1, trace := r.trace ++ [c.2] }
  else
    handle_close_out r

/-- The loop at the label `retry_delete:` of `handle_close` (open.c 1194-1208),
followed by the end of the function.  The first argument lists the answers of
the successive REMOVE calls, the second those of the CLOSE calls still to
come. -/
def handle_close_retry_delete (nfs_to_windows_error : Int → Int → Int) :
    List Int → List Int → close_run → close_run
  | [], close_answers, r =>
    handle_close_finish nfs_to_windows_error close_answers
      { r with rm_status := NFS4_OK, trace := r.trace ++ [call.nfs41_remove NFS4_OK] }
  | rm :: remove_answers, close_answers, r =>
    let r := { r with rm_status := rm, trace := r.trace ++ [call.nfs41_remove rm] }
    if rm ≠ 0 then
      if rm = NFS4ERR_FILE_OPEN then
        let c := do_nfs41_close nfs_to_windows_error r.state (close_answers.headD NFS4_OK)
        let r := { r with status := c.1, trace := r.trace ++ [c.2] }
        if c.1 = 0 then
          handle_close_retry_delete nfs_to_windows_error remove_answers close_answers.tail
            { r with state := { r.state with do_close := false } }
        else
          handle_close_out r
      else
        handle_close_finish nfs_to_windows_error close_answers
          { r with rm_status := nfs_to_windows_error rm ERROR_INTERNAL_ERROR }
    else
      handle_close_finish nfs_to_windows_error close_answers r

/-- `handle_close` (open.c 1163-1222) on the open state `upcall->state_ref`.
`remove_answers` and `close_answers` list the statuses of the successive
`nfs41_remove` and `nfs41_close` calls.  The result holds the returned status,
the open state after the run and the trace. -/
def handle_close (nfs_to_windows_error : Int → Int → Int) (state : nfs41_open_state)
    (args : close_upcall_args) (remove_answers close_answers : List Int) : close_run :=
  let r : close_run := { status := NFS4_OK, rm_status := NFS4_OK, state := state, trace := [] }
  let r := if state.type = NF4REG then
      { r with trace := r.trace ++ [call.pnfs_layout_state_close] } else r
  let r := if state.srv_open = args.srv_open then
      { r with trace := r.trace ++ [call.nfs41_delegation_remove_srvopen] } else r
  if args.remove then
    if args.renamed then
      let r := { r with trace := r.trace ++ [call.create_silly_rename] }
      let c := do_nfs41_close nfs_to_windows_error r.state (close_answers.headD NFS4_OK)
      let r := { r with status := c.1, trace := r.trace ++ [c.2] }
      if c.1 ≠ 0 then
        handle_close_out r
      else
        let r := { r with state := { r.state with do_close := false } }
        let r := { r with trace := r.trace ++ [call.nfs41_delegation_return OPEN_DELEGATE_WRITE] }
        handle_close_retry_delete nfs_to_windows_error remove_answers close_answers.tail r
    else
      let r := { r with trace := r.trace ++ [call.nfs41_delegation_return OPEN_DELEGATE_WRITE] }
      handle_close_retry_delete nfs_to_windows_error remove_answers close_answers r
  else
    handle_close_finish nfs_to_windows_error close_answers r

/-- The host-mapped status of the last REMOVE attempt of a trace, 0 when no
REMOVE was attempted. -/
def last_remove_mapped (nfs_to_windows_error : Int → Int → Int) (trace : List call) : Int :=
  match (remove_statuses trace).getLast? with
  | none => 0
  | some a => if a = 0 then 0 else nfs_to_windows_error a ERROR_INTERNAL_ERROR

/-- The mapping of a failed status, `if (status) status =
nfs_to_windows_error(status, ERROR_INTERNAL_ERROR)` (open.c 1154-1158 and
1201-1205); a status of 0 is kept. -/
def host_mapped (nfs_to_windows_error : Int → Int → Int) (status : Int) : Int :=
  if status ≠ 0 then nfs_to_windows_error status ERROR_INTERNAL_ERROR else status

/-- A status mapping used in examples: NFS statuses are kept as they are,
except that `NFS4ERR_FILE_OPEN` becomes the Windows `ERROR_SHARING_VIOLATION`
(32). -/
def example_nfs_to_windows_error (status _default_error : Int) : Int :=
  if status = NFS4ERR_FILE_OPEN then 32 else status

/-- An open regular file with `do_close` set and open stateid of seqid 7. -/
def open_file_state : nfs41_open_state :=
  { calloc_open_state with
    stateid := { seqid := 7, other := [1, 2, 3] }, do_close := true, type := NF4REG,
    ref_count := 2, srv_open := 5 }

/-- The calls `handle_close` makes before the REMOVE / CLOSE part (open.c
1169-1174). -/
def handle_close_prologue (state : nfs41_open_state) (args : close_upcall_args) : List call :=
  (if state.type = NF4REG then [call.pnfs_layout_state_close] else []) ++
  (if state.srv_open = args.srv_open then [call.nfs41_delegation_remove_srvopen] else [])

/-! ## Cancellation of an OPEN -/

/-- The handle `upcall->state_ref`: `NULL`, `INVALID_HANDLE_VALUE` or a pointer
to an open state. -/
inductive state_ref_ptr where
  | NULL
  | INVALID_HANDLE_VALUE
  | ptr (state : nfs41_open_state)
  deriving DecidableEq

/-- The outcome of `cancel_open`: the trace, the open state after the run (if
there is one) and whether `open_state_free` was called. -/
structure cancel_run where
  trace : List call
  state : Option nfs41_open_state
  freed : Bool
  deriving DecidableEq

/-- `cancel_open` (open.c 1075-1117).  `created` is `args->created`;
`close_answer` and `remove_answer` are the statuses of `nfs41_close` and
`nfs41_remove` if they are called. -/
def cancel_open (state_ref : state_ref_ptr) (created : Bool)
    (close_answer remove_answer : Int) : cancel_run :=
  match state_ref with
  | state_ref_ptr.NULL => { trace := [], state := none, freed := false }
  | state_ref_ptr.INVALID_HANDLE_VALUE => { trace := [], state := none, freed := false }
  | state_ref_ptr.ptr state =>
    let trace :=
      if state.do_close then
        [call.nfs41_close stateid_type.STATEID_OPEN (stateid4_cpy state.stateid)
          state.do_close close_answer]
      else if created then
        [call.nfs41_delegation_return OPEN_DELEGATE_WRITE, call.nfs41_remove remove_answer]
      else []
    let trace := trace ++ [call.client_state_remove]
    let d := nfs41_open_state_deref state
    { trace := trace ++ [call.nfs41_open_state_deref], state := some d.1, freed := d.2 }

/-! ## OPEN driver -/

/-- Windows status codes (specification, error catalogue) and flags of the
OPEN upcall (Windows SDK). -/
abbrev ERROR_ACCESS_DENIED : Nat := 5
abbrev ERROR_BAD_FILE_TYPE : Nat := 222
abbrev ERROR_DIRECTORY : Nat := 267
abbrev ERROR_REPARSE : Nat := 741
abbrev ERROR_TOO_MANY_LINKS : Nat := 1142
abbrev FILE_DIRECTORY_FILE : Nat := 0x00000001
abbrev FILE_NON_DIRECTORY_FILE : Nat := 0x00000040
abbrev FILE_OPEN_REPARSE_POINT : Nat := 0x00200000
abbrev SYNCHRONIZE : Nat := 0x00100000
abbrev DELETE : Nat := 0x00010000
abbrev FILE_ATTRIBUTE_HIDDEN : Nat := 0x2
abbrev FILE_ATTRIBUTE_SYSTEM : Nat := 0x4

/-- NFSv4 ACCESS bits (RFC 5661). -/
abbrev ACCESS4_READ : Nat := 0x01
abbrev ACCESS4_EXECUTE : Nat := 0x20

/-- The fields of `nfs41_file_info` the OPEN driver branches on;
`owner_attrs` tells whether the owner and owner-group attributes are
present. -/
structure nfs41_file_info where
  type : Nat := 0
  hidden : Bool := false
  system : Bool := false
  mode : Nat := 0
  symlink_dir : Bool := false
  owner_attrs : Bool := true
  deriving DecidableEq

/-- The arguments of an OPEN upcall (`open_upcall_args`) that the driver reads
or writes; `ea` tells whether the EA pointer is non-NULL. -/
structure open_upcall_args where
  path : List Nat
  access_mask : Nat
  access_mode : Nat
  file_attrs : Nat
  create_opts : Nat
  disposition : Nat
  open_owner_id : Nat
  mode : Nat := 0
  srv_open : Nat := 0
  symlink : nfs41_abs_path := { path := [], len := 0 }
  ea : Bool := false
  created : Bool := false
  symlink_embedded : Bool := false
  deriving DecidableEq

/-- The answers of the collaborators in one pass through the label
`supersede_retry:` (open.c 928-955): `remove` for `nfs41_remove`, `create` for
`nfs41_create` of a directory, `delegate_open` and the delegation it attaches
for `nfs41_delegate_open`, `open`, the open stateid and the delegation granted
for `nfs41_open` / `nfs41_delegation_granted`, `info` for the file information
that the successful `nfs41_create`, `nfs41_delegate_open` or `nfs41_open` of the
pass writes to its output parameter.  By default the removal and the creation
succeed, no cached delegation is found (`NFS4ERR_BADHANDLE`, 10001) and the OPEN
succeeds. -/
structure open_cycle where
  remove : Int := 0
  create : Int := 0
  delegate_open : Int := 10001
  delegate_state : Option nfs41_delegation_state := none
  open_ : Int := 0
  open_stateid : stateid4 := { seqid := 1, other := [] }
  open_delegation : Option nfs41_delegation_state := none
  info : nfs41_file_info := {}
  deriving DecidableEq

/-- The answers of the collaborators in one turn of the reparse loop (open.c
637-655): the status of `nfs41_symlink_target`, the path it wrote and the
status of the following `nfs41_lookup`. -/
structure reparse_turn where
  symlink_target : Int := 0
  path : nfs41_abs_path := { path := [], len := 0 }
  lookup : Int := 0
  deriving DecidableEq

/-- The answers of the collaborators of `handle_open`.  `reparse` lists the
answers of the successive turns of the reparse loop; `cycles` lists the answers of the
successive passes through `supersede_retry:`.  After the end of a list every
call succeeds.  `symlink_create_info` is the file information that the
successful `nfs41_create` of a cygwin symlink writes to its output parameter.
`NFS41_MAX_PATH_LEN` and `NFS41_MAX_SYMLINK_DEPTH` are the
constants of `nfs41_const.h`, which is not among the translated sources; the
specification gives 4096 and 32. -/
structure open_env where
  NFS41_MAX_PATH_LEN : Nat := 4096
  NFS41_MAX_SYMLINK_DEPTH : Nat := 32
  alloc_error : Option Int := none
  nfs_to_windows_error : Int → Int → Int
  map_symlink_errors : Int → Int := fun status => status
  persistent : Nat := 0
  lookup_status : Int := 0
  lookup_info : nfs41_file_info := {}
  lookup_file : nfs41_path_fh := { fh := { len := 0, superblock := 0 } }
  lookup_parent : nfs41_path_fh := { fh := { len := 0, superblock := 0 } }
  reparse : List reparse_turn := []
  symlink_follow : Int × Nat := (0, 0)
  symlink_target : Int := 0
  symlink_create : Int := 0
  symlink_create_info : nfs41_file_info := {}
  getattr : Int := 0
  access : Int × Nat × Nat := (0, 0, 0)
  cycles : List open_cycle := []
  ea_set : Int := 0

/-- The outcome of `handle_open`: the returned status, the trace, the values of
`upcall->state_ref` and `upcall->last_error` and the upcall arguments after the
run, the open state if one was created (as it is at the end of the run) and
whether `open_state_free` was called on it. -/
structure open_run where
  status : Int
  trace : List call
  state_ref : state_ref_ptr
  last_error : Nat
  args : open_upcall_args
  state : Option nfs41_open_state
  freed : Bool
  deriving DecidableEq

/-- The variables of a run of `handle_open` in progress. -/
structure open_ctx where
  status : Int
  state : nfs41_open_state
  args : open_upcall_args
  last_error : Nat
  state_ref : state_ref_ptr
  info : nfs41_file_info
  trace : List call
  deriving DecidableEq

/-- `check_execute_access` (open.c 572-596) over the answer of `nfs41_access`:
its status and the `supported` and `access` masks. -/
def check_execute_access (answer : Int × Nat × Nat) : Int :=
  let status := answer.1
  let supported := answer.2.1
  let access := answer.2.2
  if status ≠ 0 then
    (ERROR_ACCESS_DENIED : Nat)
  else if supported &&& ACCESS4_EXECUTE = 0 then
    if supported &&& ACCESS4_READ = 0 ∨ access &&& ACCESS4_READ = 0 then
      (ERROR_ACCESS_DENIED : Nat)
    else status
  else if access &&& ACCESS4_EXECUTE = 0 then
    (ERROR_ACCESS_DENIED : Nat)
  else status

/-- `create_with_ea` (open.c 598-606). -/
def create_with_ea (disposition : Nat) (lookup_status : Int) : Bool :=
  decide (disposition = FILE_SUPERSEDE ∨ disposition = FILE_CREATE
    ∨ disposition = FILE_OVERWRITE ∨ disposition = FILE_OVERWRITE_IF
    ∨ (disposition = FILE_OPEN_IF ∧ lookup_status = NFS4ERR_NOENT))

/-- The label `out_free_state:` of `handle_open` (open.c 1027-1029): release
the initial reference and return `status`. -/
def handle_open_free (c : open_ctx) (status : Int) : open_run :=
  let d := nfs41_open_state_deref c.state
  { status := status, trace := c.trace ++ [call.nfs41_open_state_deref],
    state_ref := c.state_ref, last_error := c.last_error, args := c.args,
    state := some d.1, freed := d.2 }

/-- The end of `handle_open` on the paths that keep the state (open.c
1023-1026): store it to `upcall->state_ref`, take the second reference and
return `status`. -/
def handle_open_publish (c : open_ctx) (status : Int) : open_run :=
  let state := nfs41_open_state_ref c.state
  { status := status, trace := c.trace ++ [call.nfs41_open_state_ref],
    state_ref := state_ref_ptr.ptr state, last_error := c.last_error, args := c.args,
    state := some state, freed := false }

/-- `do_open` (open.c 294-335): the OPEN RPC; on success the open stateid,
`do_close` and the granted delegation are stored in the state, and `info` holds
what `nfs41_open` wrote.  What a failed call leaves in `info` is not modelled:
the driver does not read it. -/
def do_open (c : open_ctx) (create createhow : Nat) (cy : open_cycle) : open_ctx :=
  let c := { c with trace := c.trace ++
    [call.nfs41_open create createhow c.state.share_access c.state.share_deny cy.open_] }
  if cy.open_ ≠ 0 then
    { c with status := cy.open_ }
  else
    { c with status := cy.open_,
             info := cy.info,
             state := { c.state with stateid := stateid4_cpy cy.open_stateid,
                                     do_close := true,
                                     delegation := { state := cy.open_delegation } } }

/-- `open_or_delegate` (open.c 337-361): ask for a cached delegation, open
otherwise, and register the state with the client on success. -/
def open_or_delegate (c : open_ctx) (create createhow : Nat) (cy : open_cycle) : open_ctx :=
  let c := { c with status := cy.delegate_open,
                    trace := c.trace ++ [call.nfs41_delegate_open cy.delegate_open] }
  let c :=
    if cy.delegate_open ≠ 0 then do_open c create createhow cy
    else { c with info := cy.info,
                  state := { c.state with delegation := { state := cy.delegate_state } } }
  if c.status = NFS4_OK then { c with trace := c.trace ++ [call.client_state_add] } else c

/-- The removal of the existing object before a supersede (open.c 930-938):
return the write delegation unless a directory is asked for, then REMOVE. -/
def supersede_remove (c : open_ctx) (cy : open_cycle) : open_ctx :=
  let c := if ¬ has_any c.args.create_opts FILE_DIRECTORY_FILE then
      { c with trace := c.trace ++ [call.nfs41_delegation_return OPEN_DELEGATE_WRITE] }
    else c
  { c with status := cy.remove, trace := c.trace ++ [call.nfs41_remove cy.remove] }

/-- The CREATE of a directory or the OPEN (open.c 943-955). -/
def create_or_open (c : open_ctx) (create createhowmode : Nat) (cy : open_cycle) : open_ctx :=
  if create = OPEN4_CREATE ∧ has_any c.args.create_opts FILE_DIRECTORY_FILE then
    { c with status := cy.create,
             info := if cy.create = NFS4_OK then cy.info else c.info,
             trace := c.trace ++ [call.nfs41_create NF4DIR cy.create],
             args := { c.args with created := decide (cy.create = NFS4_OK) } }
  else
    open_or_delegate c create createhowmode cy

/-- One pass from the label `supersede_retry:` to the status test (open.c
928-955).  The second component tells that the REMOVE failed (`goto
out_free_state` at open.c 940). -/
def handle_open_cycle (c : open_ctx) (lookup_status : Int) (create createhowmode : Nat)
    (cy : open_cycle) : open_ctx × Bool :=
  if c.args.disposition = FILE_SUPERSEDE ∧ lookup_status = NO_ERROR then
    if cy.remove ≠ 0 then
      (supersede_remove c cy, true)
    else
      (create_or_open (supersede_remove c cy) create createhowmode cy, false)
  else
    (create_or_open c create createhowmode cy, false)

/-- The end of the data-bearing path after a successful OPEN or CREATE (open.c
1006-1026): copy the mode of the file information to the upcall arguments, set
the extended attributes when asked to, then publish. -/
def handle_open_success (env : open_env) (c : open_ctx) (lookup_status : Int) : open_run :=
  let c := { c with args := { c.args with mode := c.info.mode } }
  if c.args.ea = true ∧ create_with_ea c.args.disposition lookup_status = true then
    handle_open_publish { c with trace := c.trace ++ [call.nfs41_ea_set env.ea_set] }
      (env.nfs_to_windows_error env.ea_set (ERROR_FILE_NOT_FOUND : Nat))
  else
    handle_open_publish c c.status

/-- The loop at the label `supersede_retry:` (open.c 928-964) and what follows.
After the end of the list of answers every call succeeds, so the pass made
then is the last one. -/
def handle_open_retry (env : open_env) (lookup_status : Int) (create createhowmode : Nat) :
    List open_cycle → open_ctx → open_run
  | [], c =>
    handle_open_success env (handle_open_cycle c lookup_status create createhowmode {}).1
      lookup_status
  | cy :: rest, c =>
    let r := handle_open_cycle c lookup_status create createhowmode cy
    if r.2 then
      handle_open_free r.1 r.1.status
    else if r.1.status ≠ 0 then
      if r.1.args.disposition = FILE_SUPERSEDE ∧ r.1.status = NFS4ERR_EXIST then
        handle_open_retry env lookup_status create createhowmode rest r.1
      else
        handle_open_free r.1
          (env.nfs_to_windows_error r.1.status (ERROR_FILE_NOT_FOUND : Nat))
    else
      handle_open_success env r.1 lookup_status

/-- The data-bearing path of `handle_open` (open.c 891-1021). -/
def handle_open_data (env : open_env) (c : open_ctx) : open_run :=
  let lookup_status := c.status
  let replacing := lookup_status = 0 ∧ (c.args.disposition = FILE_OVERWRITE ∨
    c.args.disposition = FILE_OVERWRITE_IF ∨ c.args.disposition = FILE_SUPERSEDE)
  if replacing ∧ ((c.info.hidden = true ∧ ¬ has_any c.args.file_attrs FILE_ATTRIBUTE_HIDDEN) ∨
      (c.info.system = true ∧ ¬ has_any c.args.file_attrs FILE_ATTRIBUTE_SYSTEM)) then
    handle_open_free c (ERROR_ACCESS_DENIED : Nat)
  else
    let c := if replacing ∧ c.args.disposition ≠ FILE_SUPERSEDE then
        { c with args := { c.args with mode := c.info.mode } } else c
    let ad := map_access_2_allowdeny c.args.access_mask c.args.access_mode c.args.disposition
      { allow := c.state.share_access, deny := c.state.share_deny }
    let c := { c with state := { c.state with share_access := ad.allow, share_deny := ad.deny } }
    let m := map_disposition_2_nfsopen c.args.disposition c.status env.persistent
      { create := 0, createhowmode := 0, last_error := c.last_error }
    let c := { c with status := m.1, last_error := m.2.last_error }
    if m.1 ≠ 0 then
      handle_open_free c m.1
    else if has_any c.args.access_mask FILE_EXECUTE ∧ c.state.file.fh.len ≠ 0 then
      let c := { c with status := check_execute_access env.access,
                        trace := c.trace ++ [call.nfs41_access env.access.1] }
      if c.status ≠ 0 then
        handle_open_free c c.status
      else
        handle_open_retry env lookup_status m.2.create m.2.createhowmode env.cycles c
    else
      handle_open_retry env lookup_status m.2.create m.2.createhowmode env.cycles c

/-- The choice between the four kinds of open (open.c 714-1021): deferred
symlink creation, cygwin symlink, attribute-only open, data-bearing open. -/
def handle_open_dispatch (env : open_env) (c : open_ctx) : open_run :=
  if c.args.disposition = FILE_CREATE ∧
      c.args.access_mask = (FILE_WRITE_ATTRIBUTES ||| SYNCHRONIZE ||| DELETE) ∧
      c.args.access_mode = 0 ∧
      has_any c.args.create_opts FILE_OPEN_REPARSE_POINT then
    if c.status = NO_ERROR then
      handle_open_free c (ERROR_FILE_EXISTS : Nat)
    else
      let file : nfs41_path_fh :=
        { c.state.file with
          fh := { c.state.file.fh with superblock := c.state.parent.fh.superblock } }
      handle_open_publish { c with state := { c.state with file := file } } NO_ERROR
  else if c.args.symlink.len ≠ 0 then
    let c := { c with status := env.symlink_create,
                      trace := c.trace ++ [call.nfs41_create NF4LNK env.symlink_create] }
    if c.status ≠ 0 then
      handle_open_free c (env.map_symlink_errors c.status)
    else
      let c := { c with info := env.symlink_create_info }
      handle_open_publish { c with args := { c.args with mode := c.info.mode } } c.status
  else if open_for_attributes c.state.type c.args.access_mask c.args.disposition c.status
      = true then
    if c.status ≠ 0 then
      handle_open_free c c.status
    else
      let c := { c with args := { c.args with mode := c.info.mode } }
      if c.info.owner_attrs = false then
        let c := { c with status := env.getattr,
                          trace := c.trace ++ [call.nfs41_getattr env.getattr] }
        if c.status ≠ 0 then
          handle_open_free c c.status
        else
          handle_open_publish c c.status
      else
        handle_open_publish c c.status
  else
    handle_open_data env c

/-- The type checks after a lookup that did not return `ERROR_REPARSE` (open.c
666-712). -/
def handle_open_lookup_done (env : open_env) (c : open_ctx) : open_run :=
  if c.status = NO_ERROR then
    if c.info.type = NF4DIR then
      if has_any c.args.create_opts FILE_NON_DIRECTORY_FILE then
        handle_open_free c (ERROR_DIRECTORY : Nat)
      else
        handle_open_dispatch env { c with state := { c.state with type := c.info.type } }
    else if c.info.type = NF4REG then
      if has_any c.args.create_opts FILE_DIRECTORY_FILE then
        handle_open_free c (ERROR_BAD_FILE_TYPE : Nat)
      else
        handle_open_dispatch env { c with state := { c.state with type := c.info.type } }
    else if c.info.type = NF4LNK then
      if has_any c.args.create_opts FILE_OPEN_REPARSE_POINT then
        let c := { c with trace := c.trace ++ [call.nfs41_symlink_follow env.symlink_follow.1] }
        let c := if env.symlink_follow.1 = NO_ERROR ∧ env.symlink_follow.2 = NF4DIR then
            { c with info := { c.info with symlink_dir := true } } else c
        handle_open_dispatch env { c with state := { c.state with type := c.info.type } }
      else
        let c := { c with status := env.symlink_target,
                          trace := c.trace ++ [call.nfs41_symlink_target env.symlink_target] }
        if c.status ≠ 0 then
          handle_open_free c c.status
        else
          handle_open_free
            { c with last_error := ERROR_REPARSE,
                     args := { c.args with symlink_embedded := false } } c.status
    else
      handle_open_dispatch env { c with state := { c.state with type := c.info.type } }
  else if c.status ≠ (ERROR_FILE_NOT_FOUND : Nat) then
    handle_open_free c c.status
  else
    handle_open_dispatch env c

/-- The reparse loop of `handle_open` (open.c 635-663).  The first argument is
`NFS41_MAX_SYMLINK_DEPTH - depth`: when it is 0 the test `++depth >
NFS41_MAX_SYMLINK_DEPTH` succeeds. -/
def handle_open_reparse : Nat → List reparse_turn → open_ctx → open_run
  | 0, _, c => handle_open_free c (ERROR_TOO_MANY_LINKS : Nat)
  | remaining + 1, turns, c =>
    let t := turns.headD {}
    let c := { c with status := t.symlink_target,
                      trace := c.trace ++ [call.nfs41_symlink_target t.symlink_target] }
    if t.symlink_target ≠ 0 then
      handle_open_free c c.status
    else
      let c := { c with status := t.lookup, state := { c.state with path := t.path },
                        trace := c.trace ++ [call.nfs41_lookup t.lookup] }
      if t.lookup = (ERROR_REPARSE : Nat) then
        handle_open_reparse remaining turns.tail c
      else if t.lookup = NO_ERROR ∨ t.lookup = (ERROR_FILE_NOT_FOUND : Nat) then
        handle_open_free
          { c with args := { c.args with symlink := c.state.path, symlink_embedded := true },
                   last_error := ERROR_REPARSE } NO_ERROR
      else
        handle_open_free c c.status

/-- `handle_open` (open.c 608-1030) over the answers `env` of its
collaborators; `state_ref` and `last_error` are the values of
`upcall->state_ref` and `upcall->last_error` on entry.  The feature
`NFS41_DRIVER_FEATURE_LOCAL_UIDGID_IN_NFSV3ATTRIBUTES` is taken as defined and
`NFS41_DRIVER_SETGID_NEWGRP_SUPPORT` as not defined; of the copies of the file
information into the upcall arguments only that of `mode` is modelled. -/
def handle_open (env : open_env) (args : open_upcall_args) (state_ref : state_ref_ptr)
    (last_error : Nat) : open_run :=
  match create_open_state env.NFS41_MAX_PATH_LEN env.alloc_error args.path
      args.open_owner_id with
  | (status, none) =>
    { status := status, trace := [], state_ref := state_ref, last_error := last_error,
      args := args, state := none, freed := false }
  | (_, some state) =>
    let state := { state with srv_open := args.srv_open }
    let state := { state with
      type := if has_any args.create_opts FILE_DIRECTORY_FILE then NF4DIR else NF4REG }
    let state := { state with file := env.lookup_file, parent := env.lookup_parent }
    let c : open_ctx :=
      { status := env.lookup_status, state := state, args := args,
        last_error := last_error, state_ref := state_ref, info := env.lookup_info,
        trace := [call.nfs41_lookup env.lookup_status] }
    if c.status = (ERROR_REPARSE : Nat) then
      handle_open_reparse env.NFS41_MAX_SYMLINK_DEPTH env.reparse c
    else
      handle_open_lookup_done env c

/-- The call is a symlink-target resolution. -/
def call.is_symlink_target : call → Bool
  | call.nfs41_symlink_target _ => true
  | _ => false

/-- The call sends an OPEN or a CREATE to the server. -/
def call.is_open_or_create : call → Bool
  | call.nfs41_open _ _ _ _ _ => true
  | call.nfs41_create _ _ => true
  | _ => false

/-- The call is a REMOVE. -/
def call.is_remove : call → Bool
  | call.nfs41_remove _ => true
  | _ => false

/-- The call is `nfs41_open_state_deref`. -/
def call.is_deref : call → Bool
  | call.nfs41_open_state_deref => true
  | _ => false

/-- The call is `nfs41_open_state_ref`. -/
def call.is_ref : call → Bool
  | call.nfs41_open_state_ref => true
  | _ => false

/-- An OPEN upcall for the path `/a` with disposition `FILE_CREATE`, asking
for `FILE_WRITE_DATA`, of a regular file. -/
def create_file_args : open_upcall_args :=
  { path := [47, 97], access_mask := FILE_WRITE_DATA, access_mode := 0, file_attrs := 0,
    create_opts := 0, disposition := FILE_CREATE, open_owner_id := 7 }

/-- An OPEN upcall for the path `/a` with disposition `FILE_CREATE` and the
option `FILE_DIRECTORY_FILE`: the creation of a directory. -/
def create_dir_args : open_upcall_args :=
  { create_file_args with create_opts := FILE_DIRECTORY_FILE }

/-- Collaborator answers for an absent file: the lookup returns
`ERROR_FILE_NOT_FOUND` and every later call succeeds. -/
def absent_file_env : open_env :=
  { nfs_to_windows_error := example_nfs_to_windows_error,
    lookup_status := (ERROR_FILE_NOT_FOUND : Nat) }

/-- The answers of `absent_file_env`, except that `nfs41_ea_set` fails with
`NFS4ERR_ACCESS` (13). -/
def ea_failure_env : open_env :=
  { absent_file_env with ea_set := 13 }

/-- Collaborator answers for a path through 32 symbolic links: the first lookup
and each of the 32 lookups of the reparse loop return `ERROR_REPARSE`. -/
def reparse_forever_env : open_env :=
  { nfs_to_windows_error := example_nfs_to_windows_error,
    lookup_status := (ERROR_REPARSE : Nat),
    reparse := List.replicate 32 { lookup := (ERROR_REPARSE : Nat) } }

/-- Collaborator answers for an existing regular file: the lookup succeeds and
reports the type `NF4REG`. -/
def regular_file_env : open_env :=
  { nfs_to_windows_error := example_nfs_to_windows_error,
    lookup_info := { type := NF4REG } }

/-- Collaborator answers for an existing directory. -/
def directory_env : open_env :=
  { nfs_to_windows_error := example_nfs_to_windows_error,
    lookup_info := { type := NF4DIR } }

/-- An OPEN upcall for the path `/a` with disposition `FILE_OPEN` and the option
`FILE_NON_DIRECTORY_FILE`. -/
def open_non_directory_args : open_upcall_args :=
  { create_file_args with create_opts := FILE_NON_DIRECTORY_FILE, disposition := FILE_OPEN }

/-- The OPEN upcall that `CreateSymbolicLink()` sends for the path `/a`. -/
def create_symlink_args : open_upcall_args :=
  { create_file_args with
    access_mask := FILE_WRITE_ATTRIBUTES ||| SYNCHRONIZE ||| DELETE,
    create_opts := FILE_OPEN_REPARSE_POINT }

/-- Collaborator answers for an absent file whose parent directory lies on the
superblock 9. -/
def absent_file_parent_env : open_env :=
  { absent_file_env with lookup_parent := { fh := { len := 4, superblock := 9 } } }

/-- Collaborator answers for an existing hidden regular file. -/
def hidden_file_env : open_env :=
  { nfs_to_windows_error := example_nfs_to_windows_error,
    lookup_info := { type := NF4REG, hidden := true } }

/-- An OPEN upcall for the path `/a` with disposition `FILE_OVERWRITE_IF`,
asking for `FILE_WRITE_DATA`, without `FILE_ATTRIBUTE_HIDDEN`. -/
def overwrite_if_args : open_upcall_args :=
  { create_file_args with disposition := FILE_OVERWRITE_IF }

/-- The calls of one pass through the label `supersede_retry:` of a
`FILE_SUPERSEDE` open of an existing object (open.c 930-952), with the answers
of `cy` as their results: the return of the write delegation unless
`create_opts` has `FILE_DIRECTORY_FILE`, then the REMOVE, and when the REMOVE
succeeds the CREATE of a directory if `create_opts` has `FILE_DIRECTORY_FILE`,
else `nfs41_delegate_open` followed, unless it finds a cached delegation, by
the OPEN with CREATE. -/
def supersede_cycle_calls (create_opts createhowmode share_access share_deny : Nat)
    (cy : open_cycle) : List call :=
  (if has_any create_opts FILE_DIRECTORY_FILE then []
    else [call.nfs41_delegation_return OPEN_DELEGATE_WRITE]) ++
  [call.nfs41_remove cy.remove] ++
  (if cy.remove ≠ 0 then []
    else if has_any create_opts FILE_DIRECTORY_FILE then [call.nfs41_create NF4DIR cy.create]
    else if cy.delegate_open ≠ 0 then
      [call.nfs41_delegate_open cy.delegate_open,
       call.nfs41_open OPEN4_CREATE createhowmode share_access share_deny cy.open_]
    else [call.nfs41_delegate_open cy.delegate_open])

/-- The status with which such a pass reaches the test of open.c 939 or 956:
that of the REMOVE when it fails, else that of the CREATE or, when no cached
delegation is found, of the OPEN. -/
def supersede_cycle_status (create_opts : Nat) (cy : open_cycle) : Int :=
  if cy.remove ≠ 0 then cy.remove
  else if has_any create_opts FILE_DIRECTORY_FILE then cy.create
  else if cy.delegate_open ≠ 0 then cy.open_
  else 0

/-- The calls `handle_open` makes before the label `supersede_retry:` on the
data-bearing path of an existing object (open.c 631, 690, 923): the lookup,
`nfs41_symlink_follow` for a symbolic link, and `nfs41_access` when
`FILE_EXECUTE` is asked for and the file handle is not empty. -/
def data_path_head (env : open_env) (args : open_upcall_args) : List call :=
  [call.nfs41_lookup env.lookup_status] ++
  (if env.lookup_info.type = NF4LNK then [call.nfs41_symlink_follow env.symlink_follow.1]
    else []) ++
  (if has_any args.access_mask FILE_EXECUTE ∧ env.lookup_file.fh.len ≠ 0 then
      [call.nfs41_access env.access.1] else [])

/-- Collaborator answers for an existing symbolic link. -/
def symlink_env : open_env :=
  { nfs_to_windows_error := example_nfs_to_windows_error,
    lookup_info := { type := NF4LNK } }

/-- An OPEN upcall for the path `/a` with disposition `FILE_SUPERSEDE` and the
options `FILE_DIRECTORY_FILE` and `FILE_OPEN_REPARSE_POINT`. -/
def supersede_directory_args : open_upcall_args :=
  { create_file_args with
    create_opts := FILE_DIRECTORY_FILE ||| FILE_OPEN_REPARSE_POINT,
    disposition := FILE_SUPERSEDE }

/-- An OPEN upcall for the path `/a` with disposition `FILE_SUPERSEDE`, asking
for `FILE_WRITE_DATA`. -/
def supersede_args : open_upcall_args :=
  { create_file_args with disposition := FILE_SUPERSEDE }

/-- The answers of `regular_file_env`, except that the first OPEN races with
another creation and returns `NFS4ERR_EXIST`. -/
def supersede_race_env : open_env :=
  { regular_file_env with cycles := [{ open_ := NFS4ERR_EXIST }, {}] }

/-- The state `create_open_state` produces for the path `/a` and owner id 7. -/
def created_state_a7 : nfs41_open_state :=
  { calloc_open_state with
    path := { path := [47, 97], len := 2 },
    owner := { owner := [55], owner_len := 1 },
    ref_count := 1,
    ea := { list := ea_list_ptr.INVALID_HANDLE_VALUE } }

/-! ## The recently-deleted pointer ring (daemon_debug.c 991-1025)

The ring is a static array of `NUM_RECENTLY_DELETED` pointers and a `size_t`
write index.  Pointers are modelled as natural numbers (`NULL` is 0), the array
as a map from the slot number to the pointer it holds, and the `size_t` index
wraps at `2 ^ 64`.  The reader-writer lock has no effect on a single thread and
is left out. -/

abbrev NUM_RECENTLY_DELETED : Nat := 128

/-- The static `ptr_recently_deleted_data` without its lock. -/
structure ptr_recently_deleted_data where
  deleted_ptrs : Nat → Nat
  deleted_index : Nat

/-- The static initialiser: only `.lock` is named, so every slot and the index
start as zero. -/
def ptr_recently_deleted_data_init : ptr_recently_deleted_data :=
  { deleted_ptrs := fun _ => 0, deleted_index := 0 }

/-- The scan of `debug_ptr_was_recently_deleted`: slots 0..127 in order, true at
the first slot equal to `in_ptr`. -/
def debug_ptr_was_recently_deleted (d : ptr_recently_deleted_data) (in_ptr : Nat) : Bool :=
  (List.range NUM_RECENTLY_DELETED).any (fun i => d.deleted_ptrs i == in_ptr)

/-- The write of `debug_ptr_add_recently_deleted`:
`i = deleted_index++ % NUM_RECENTLY_DELETED; deleted_ptrs[i] = in_ptr`. -/
def debug_ptr_add_recently_deleted (d : ptr_recently_deleted_data) (in_ptr : Nat) :
    ptr_recently_deleted_data :=
  let i := d.deleted_index % NUM_RECENTLY_DELETED
  { deleted_ptrs := fun j => if j = i then in_ptr else d.deleted_ptrs j,
    deleted_index := (d.deleted_index + 1) % 2 ^ 64 }

/-- A sequence of `debug_ptr_add_recently_deleted` calls, first pointer first. -/
def debug_ptr_add_all (d : ptr_recently_deleted_data) (ptrs : List Nat) :
    ptr_recently_deleted_data :=
  ptrs.foldl debug_ptr_add_recently_deleted d

/-! ## Theorems: disposition mapper -/

/-- C3: for the six dispositions and a lookup status that is success (0) or
`NFS4ERR_NOENT`, the returned status is `ERROR_FILE_EXISTS` exactly for
`FILE_CREATE` on a present file, `ERROR_FILE_NOT_FOUND` exactly for `FILE_OPEN`
and `FILE_OVERWRITE` on an absent file, and `NO_ERROR` in every other case. -/
theorem map_disposition_status (d : Nat) (in_status : Int) (persistent : Nat)
    (o : nfsopen_out) (hd : d ∈ dispositions)
    (hs : in_status = 0 ∨ in_status = NFS4ERR_NOENT) :
    ((map_disposition_2_nfsopen d in_status persistent o).1 = (ERROR_FILE_EXISTS : Nat) ↔
        d = FILE_CREATE ∧ in_status = 0) ∧
    ((map_disposition_2_nfsopen d in_status persistent o).1 = (ERROR_FILE_NOT_FOUND : Nat) ↔
        (d = FILE_OPEN ∨ d = FILE_OVERWRITE) ∧ in_status = NFS4ERR_NOENT) ∧
    (¬ (d = FILE_CREATE ∧ in_status = 0) →
      ¬ ((d = FILE_OPEN ∨ d = FILE_OVERWRITE) ∧ in_status = NFS4ERR_NOENT) →
        (map_disposition_2_nfsopen d in_status persistent o).1 = NO_ERROR) := by
  simp only [dispositions, List.mem_cons, List.mem_singleton, List.not_mem_nil, or_false] at hd
  rcases hd with rfl | rfl | rfl | rfl | rfl | rfl <;> rcases hs with rfl | rfl <;>
    simp [map_disposition_2_nfsopen, set_createhowmode]

/-- Witness of `map_disposition_status`: `FILE_CREATE` on a present file. -/
theorem map_disposition_status_witness :
    FILE_CREATE ∈ dispositions ∧
    ((map_disposition_2_nfsopen FILE_CREATE 0 0 ⟨0, 0, 0⟩).1 = (ERROR_FILE_EXISTS : Nat) ↔
        FILE_CREATE = FILE_CREATE ∧ (0 : Int) = 0) :=
  ⟨by decide,
   (map_disposition_status FILE_CREATE 0 0 ⟨0, 0, 0⟩ (by decide) (Or.inl rfl)).1⟩

/-- C4: for each of the six dispositions on a present file (lookup status 0),
the create output of `map_disposition_2_nfsopen` is `OPEN4_NOCREATE` if and
only if the disposition is `FILE_OPEN` or `FILE_OPEN_IF`: the mapper succeeds
with create = `OPEN4_NOCREATE` exactly for these two; for `FILE_SUPERSEDE`,
`FILE_OVERWRITE` and `FILE_OVERWRITE_IF` it succeeds with create =
`OPEN4_CREATE`; and for `FILE_CREATE` it fails with `ERROR_FILE_EXISTS` and
produces no create output (`*create` is left as it was, and the caller leaves at
once, open.c 919-920).  For every entry value of `*create` other than
`OPEN4_NOCREATE` the value of `*create` after the call is `OPEN4_NOCREATE` if
and only if the disposition is `FILE_OPEN` or `FILE_OPEN_IF`. -/
theorem map_disposition_present_nocreate (d persistent : Nat) (o : nfsopen_out)
    (hd : d ∈ dispositions) :
    (((map_disposition_2_nfsopen d 0 persistent o).1 = NO_ERROR ∧
      (map_disposition_2_nfsopen d 0 persistent o).2.create = OPEN4_NOCREATE) ↔
      (d = FILE_OPEN ∨ d = FILE_OPEN_IF)) ∧
    (d = FILE_SUPERSEDE ∨ d = FILE_OVERWRITE ∨ d = FILE_OVERWRITE_IF →
      (map_disposition_2_nfsopen d 0 persistent o).1 = NO_ERROR ∧
      (map_disposition_2_nfsopen d 0 persistent o).2.create = OPEN4_CREATE) ∧
    (d = FILE_CREATE →
      (map_disposition_2_nfsopen d 0 persistent o).1 = (ERROR_FILE_EXISTS : Nat) ∧
      (map_disposition_2_nfsopen d 0 persistent o).2 = o) ∧
    (o.create ≠ OPEN4_NOCREATE →
      ((map_disposition_2_nfsopen d 0 persistent o).2.create = OPEN4_NOCREATE ↔
        (d = FILE_OPEN ∨ d = FILE_OPEN_IF))) := by
  simp only [dispositions, List.mem_cons, List.mem_singleton, List.not_mem_nil, or_false] at hd
  by_cases hp : persistent = 0 <;>
    rcases hd with rfl | rfl | rfl | rfl | rfl | rfl <;>
    simp [map_disposition_2_nfsopen, set_createhowmode, hp]

/-- Witness of `map_disposition_present_nocreate`: `FILE_OPEN_IF`. -/
theorem map_disposition_present_nocreate_witness :
    FILE_OPEN_IF ∈ dispositions ∧
    (((map_disposition_2_nfsopen FILE_OPEN_IF 0 1 ⟨1, 0, 0⟩).1 = NO_ERROR ∧
      (map_disposition_2_nfsopen FILE_OPEN_IF 0 1 ⟨1, 0, 0⟩).2.create = OPEN4_NOCREATE) ↔
    (FILE_OPEN_IF = FILE_OPEN ∨ FILE_OPEN_IF = FILE_OPEN_IF)) :=
  ⟨by decide, (map_disposition_present_nocreate FILE_OPEN_IF 1 ⟨1, 0, 0⟩ (by decide)).1⟩

/-- C5: for each of the six dispositions on an absent file (lookup status
`NFS4ERR_NOENT`) the mapper either fails or yields create = `OPEN4_CREATE`; it
never succeeds with create = `OPEN4_NOCREATE`. -/
theorem map_disposition_absent_create (d persistent : Nat) (o : nfsopen_out)
    (hd : d ∈ dispositions) :
    ((map_disposition_2_nfsopen d NFS4ERR_NOENT persistent o).1 ≠ NO_ERROR ∨
      (map_disposition_2_nfsopen d NFS4ERR_NOENT persistent o).2.create = OPEN4_CREATE) ∧
    ¬ ((map_disposition_2_nfsopen d NFS4ERR_NOENT persistent o).1 = NO_ERROR ∧
      (map_disposition_2_nfsopen d NFS4ERR_NOENT persistent o).2.create = OPEN4_NOCREATE) := by
  simp only [dispositions, List.mem_cons, List.mem_singleton, List.not_mem_nil, or_false] at hd
  by_cases hp : persistent = 0 <;>
    rcases hd with rfl | rfl | rfl | rfl | rfl | rfl <;>
    simp [map_disposition_2_nfsopen, set_createhowmode, hp]

/-- Witness of `map_disposition_absent_create`: `FILE_OPEN_IF` on an absent
file, called with create = `OPEN4_NOCREATE` on entry. -/
theorem map_disposition_absent_create_witness :
    FILE_OPEN_IF ∈ dispositions ∧
    (((map_disposition_2_nfsopen FILE_OPEN_IF NFS4ERR_NOENT 0 ⟨0, 0, 0⟩).1 ≠ NO_ERROR ∨
      (map_disposition_2_nfsopen FILE_OPEN_IF NFS4ERR_NOENT 0 ⟨0, 0, 0⟩).2.create
        = OPEN4_CREATE) ∧
    ¬ ((map_disposition_2_nfsopen FILE_OPEN_IF NFS4ERR_NOENT 0 ⟨0, 0, 0⟩).1 = NO_ERROR ∧
      (map_disposition_2_nfsopen FILE_OPEN_IF NFS4ERR_NOENT 0 ⟨0, 0, 0⟩).2.create
        = OPEN4_NOCREATE)) :=
  ⟨by decide, map_disposition_absent_create FILE_OPEN_IF 0 ⟨0, 0, 0⟩ (by decide)⟩

/-- C6 as stated fails: `FILE_OPEN_IF` on an absent file succeeds with
create = `OPEN4_CREATE`, but the mapper does not write `*createhowmode`; with
the caller's initial value 0 (open.c 893) it is `UNCHECKED4`, neither
`EXCLUSIVE4_1` on a non-persistent session nor `GUARDED4` on a persistent
one. -/
theorem map_disposition_createhowmode_counterexample :
    map_disposition_2_nfsopen FILE_OPEN_IF NFS4ERR_NOENT 0 ⟨0, 0, 0⟩
      = (NO_ERROR, ⟨OPEN4_CREATE, UNCHECKED4, ERROR_FILE_NOT_FOUND⟩) ∧
    (map_disposition_2_nfsopen FILE_OPEN_IF NFS4ERR_NOENT 0 ⟨0, 0, 0⟩).2.createhowmode
      ≠ EXCLUSIVE4_1 ∧
    map_disposition_2_nfsopen FILE_OPEN_IF NFS4ERR_NOENT 1 ⟨0, 0, 0⟩
      = (NO_ERROR, ⟨OPEN4_CREATE, UNCHECKED4, ERROR_FILE_NOT_FOUND⟩) ∧
    (map_disposition_2_nfsopen FILE_OPEN_IF NFS4ERR_NOENT 1 ⟨0, 0, 0⟩).2.createhowmode
      ≠ GUARDED4 := by
  decide

/-- C6 (amended): for the dispositions `FILE_SUPERSEDE` and `FILE_CREATE`,
whenever the mapper succeeds it yields create = `OPEN4_CREATE` and
createhowmode = `GUARDED4` on a persistent session, `EXCLUSIVE4_1` otherwise;
for every other disposition the mapper leaves createhowmode as it was on
entry. -/
theorem map_disposition_createhowmode (d : Nat) (in_status : Int) (persistent : Nat)
    (o : nfsopen_out) :
    (d = FILE_SUPERSEDE ∨ d = FILE_CREATE →
      (map_disposition_2_nfsopen d in_status persistent o).1 = NO_ERROR →
        (map_disposition_2_nfsopen d in_status persistent o).2.create = OPEN4_CREATE ∧
        (map_disposition_2_nfsopen d in_status persistent o).2.createhowmode
          = if persistent ≠ 0 then GUARDED4 else EXCLUSIVE4_1) ∧
    (d ≠ FILE_SUPERSEDE → d ≠ FILE_CREATE →
      (map_disposition_2_nfsopen d in_status persistent o).2.createhowmode
        = o.createhowmode) := by
  constructor
  · rintro (rfl | rfl) <;> by_cases hp : persistent = 0 <;>
      by_cases hs : in_status = 0 <;>
      simp [map_disposition_2_nfsopen, set_createhowmode, hp, hs]
  · intro h1 h2
    unfold map_disposition_2_nfsopen
    simp only [h1, h2, if_false]
    split_ifs <;> rfl

/-- Witness of `map_disposition_createhowmode`: `FILE_CREATE` on an absent
file over a non-persistent session gives `EXCLUSIVE4_1`. -/
theorem map_disposition_createhowmode_witness :
    (map_disposition_2_nfsopen FILE_CREATE NFS4ERR_NOENT 0 ⟨0, 0, 0⟩).1 = NO_ERROR ∧
    (map_disposition_2_nfsopen FILE_CREATE NFS4ERR_NOENT 0 ⟨0, 0, 0⟩).2.create
      = OPEN4_CREATE ∧
    (map_disposition_2_nfsopen FILE_CREATE NFS4ERR_NOENT 0 ⟨0, 0, 0⟩).2.createhowmode
      = EXCLUSIVE4_1 :=
  ⟨by decide,
   (map_disposition_createhowmode FILE_CREATE NFS4ERR_NOENT 0 ⟨0, 0, 0⟩).1
     (Or.inr rfl) (by decide)⟩

/-- C7: the mapper writes the hint `ERROR_FILE_NOT_FOUND` to `*last_error`
exactly when the disposition is `FILE_SUPERSEDE`, `FILE_OPEN_IF` or
`FILE_OVERWRITE_IF` and the lookup status is `NFS4ERR_NOENT`; in each of those
cases it returns `NO_ERROR` with create = `OPEN4_CREATE`; in every other case
`*last_error` keeps the value it had on entry. -/
theorem map_disposition_last_error (d : Nat) (in_status : Int) (persistent : Nat)
    (o : nfsopen_out) :
    ((d = FILE_SUPERSEDE ∨ d = FILE_OPEN_IF ∨ d = FILE_OVERWRITE_IF) ∧
        in_status = NFS4ERR_NOENT →
      (map_disposition_2_nfsopen d in_status persistent o).2.last_error
          = ERROR_FILE_NOT_FOUND ∧
      (map_disposition_2_nfsopen d in_status persistent o).1 = NO_ERROR ∧
      (map_disposition_2_nfsopen d in_status persistent o).2.create = OPEN4_CREATE) ∧
    (¬ ((d = FILE_SUPERSEDE ∨ d = FILE_OPEN_IF ∨ d = FILE_OVERWRITE_IF) ∧
        in_status = NFS4ERR_NOENT) →
      (map_disposition_2_nfsopen d in_status persistent o).2.last_error = o.last_error) := by
  constructor
  · rintro ⟨rfl | rfl | rfl, rfl⟩ <;> by_cases hp : persistent = 0 <;>
      simp [map_disposition_2_nfsopen, set_createhowmode, hp]
  · intro h
    unfold map_disposition_2_nfsopen set_createhowmode
    split_ifs <;> simp_all

/-- Witness of `map_disposition_last_error`: `FILE_OVERWRITE_IF` on an absent
file, called with `*last_error` = 0. -/
theorem map_disposition_last_error_witness :
    (map_disposition_2_nfsopen FILE_OVERWRITE_IF NFS4ERR_NOENT 0 ⟨0, 0, 0⟩).2.last_error
        = ERROR_FILE_NOT_FOUND ∧
    (map_disposition_2_nfsopen FILE_OVERWRITE_IF NFS4ERR_NOENT 0 ⟨0, 0, 0⟩).1 = NO_ERROR ∧
    (map_disposition_2_nfsopen FILE_OVERWRITE_IF NFS4ERR_NOENT 0 ⟨0, 0, 0⟩).2.create
        = OPEN4_CREATE :=
  (map_disposition_last_error FILE_OVERWRITE_IF NFS4ERR_NOENT 0 ⟨0, 0, 0⟩).1
    ⟨Or.inr (Or.inr rfl), rfl⟩

/-! ## Theorems: access / share-mode mapper -/

/-- A bitwise or is zero exactly when both operands are. -/
theorem lor_eq_zero_iff (a b : Nat) : a ||| b = 0 ↔ a = 0 ∧ b = 0 := by
  constructor
  · intro h
    have hb : ∀ i, (a.testBit i || b.testBit i) = false := by
      intro i
      rw [← Nat.testBit_or, h, Nat.zero_testBit]
    constructor
    · apply Nat.eq_of_testBit_eq
      intro i
      have hi := hb i
      rw [Bool.or_eq_false_iff] at hi
      rw [hi.1, Nat.zero_testBit]
    · apply Nat.eq_of_testBit_eq
      intro i
      have hi := hb i
      rw [Bool.or_eq_false_iff] at hi
      rw [hi.2, Nat.zero_testBit]
  · rintro ⟨rfl, rfl⟩
    rfl

/-- Testing a mask against the union of two bit sets tests it against either. -/
theorem has_any_or (m a b : Nat) : has_any m (a ||| b) ↔ has_any m a ∨ has_any m b := by
  unfold has_any
  rw [Nat.and_or_distrib_left, Ne, lor_eq_zero_iff]
  tauto

/-- The read test of the mapper is `read_shaped`. -/
theorem has_any_read_iff (m : Nat) :
    has_any m (FILE_READ_DATA ||| FILE_EXECUTE) ↔ read_shaped m := by
  rw [has_any_or, read_shaped]

/-- The write test of the mapper is `write_shaped`. -/
theorem has_any_write_iff (m : Nat) :
    has_any m (FILE_WRITE_DATA ||| FILE_APPEND_DATA ||| FILE_WRITE_ATTRIBUTES)
      ↔ write_shaped m := by
  rw [has_any_or, has_any_or, write_shaped, or_assoc]

/-- The no-data-right test of the mapper (open.c 548-549). -/
theorem has_any_data_iff (m : Nat) :
    has_any m (FILE_WRITE_DATA ||| FILE_APPEND_DATA ||| FILE_WRITE_ATTRIBUTES |||
        FILE_READ_DATA ||| FILE_EXECUTE) ↔ write_shaped m ∨ read_shaped m := by
  rw [has_any_or, has_any_or, has_any_or, has_any_or, write_shaped, read_shaped]
  tauto

/-- The share_access output in terms of the two shapes. -/
theorem map_access_allow_eq (access_mask access_mode disposition : Nat) (o : allowdeny_out) :
    (map_access_2_allowdeny access_mask access_mode disposition o).allow =
      if write_shaped access_mask ∧ read_shaped access_mask then OPEN4_SHARE_ACCESS_BOTH
      else if read_shaped access_mask then OPEN4_SHARE_ACCESS_READ
      else if write_shaped access_mask then OPEN4_SHARE_ACCESS_WRITE
      else if disposition ∈ creating_dispositions then
        OPEN4_SHARE_ACCESS_READ ||| OPEN4_SHARE_ACCESS_WANT_NO_DELEG
      else o.allow := by
  unfold map_access_2_allowdeny
  simp only [has_any_read_iff, has_any_write_iff, has_any_data_iff, creating_dispositions,
    List.mem_cons, List.mem_singleton, List.not_mem_nil, or_false]
  by_cases hsr : has_any access_mode FILE_SHARE_READ <;>
    by_cases hsw : has_any access_mode FILE_SHARE_WRITE <;>
    by_cases hw : write_shaped access_mask <;> by_cases hr : read_shaped access_mask <;>
    by_cases hd : (disposition = FILE_CREATE ∨ disposition = FILE_OPEN_IF ∨
          disposition = FILE_OVERWRITE_IF ∨ disposition = FILE_SUPERSEDE ∨
          disposition = FILE_OVERWRITE) <;>
    simp only [hsr, hsw, hw, hr, hd, and_self, and_true, and_false, true_and, false_and,
      not_true_eq_false, not_false_eq_true, if_true, if_false, or_self, or_true, true_or,
      or_false, false_or]

/-- The share_deny output in terms of the two share bits. -/
theorem map_access_deny_eq (access_mask access_mode disposition : Nat) (o : allowdeny_out) :
    (map_access_2_allowdeny access_mask access_mode disposition o).deny =
      if has_any access_mode FILE_SHARE_READ ∧ has_any access_mode FILE_SHARE_WRITE then
        OPEN4_SHARE_DENY_NONE
      else if has_any access_mode FILE_SHARE_READ then OPEN4_SHARE_DENY_WRITE
      else if has_any access_mode FILE_SHARE_WRITE then OPEN4_SHARE_DENY_READ
      else OPEN4_SHARE_DENY_BOTH := by
  unfold map_access_2_allowdeny
  by_cases hsr : has_any access_mode FILE_SHARE_READ <;>
    by_cases hsw : has_any access_mode FILE_SHARE_WRITE <;>
    simp only [hsr, hsw, and_self, and_true, and_false, true_and, false_and, if_true, if_false]

/-- C8: when the access mask contains at least one of `FILE_READ_DATA`,
`FILE_EXECUTE`, `FILE_WRITE_DATA`, `FILE_APPEND_DATA`, `FILE_WRITE_ATTRIBUTES`,
then for every share mode and disposition share_access is BOTH when the mask
has a read-shaped and a write-shaped right, WRITE when it has only a
write-shaped right and READ when it has only a read-shaped right. -/
theorem map_access_share_access (access_mask access_mode disposition : Nat)
    (o : allowdeny_out)
    (h : has_any access_mask FILE_READ_DATA ∨ has_any access_mask FILE_EXECUTE ∨
      has_any access_mask FILE_WRITE_DATA ∨ has_any access_mask FILE_APPEND_DATA ∨
      has_any access_mask FILE_WRITE_ATTRIBUTES) :
    (read_shaped access_mask ∧ write_shaped access_mask →
      (map_access_2_allowdeny access_mask access_mode disposition o).allow
        = OPEN4_SHARE_ACCESS_BOTH) ∧
    (¬ read_shaped access_mask ∧ write_shaped access_mask →
      (map_access_2_allowdeny access_mask access_mode disposition o).allow
        = OPEN4_SHARE_ACCESS_WRITE) ∧
    (read_shaped access_mask ∧ ¬ write_shaped access_mask →
      (map_access_2_allowdeny access_mask access_mode disposition o).allow
        = OPEN4_SHARE_ACCESS_READ) ∧
    ((map_access_2_allowdeny access_mask access_mode disposition o).allow
        = OPEN4_SHARE_ACCESS_BOTH ∨
      (map_access_2_allowdeny access_mask access_mode disposition o).allow
        = OPEN4_SHARE_ACCESS_WRITE ∨
      (map_access_2_allowdeny access_mask access_mode disposition o).allow
        = OPEN4_SHARE_ACCESS_READ) := by
  have hrw : read_shaped access_mask ∨ write_shaped access_mask := by
    unfold read_shaped write_shaped
    tauto
  rw [map_access_allow_eq]
  by_cases hr : read_shaped access_mask <;> by_cases hw : write_shaped access_mask
  · simp [hr, hw]
  · simp [hr, hw]
  · simp [hr, hw]
  · exact absurd hrw (by tauto)

/-- Witness of `map_access_share_access`: `FILE_READ_DATA | FILE_WRITE_DATA`
(mask 3) opened with `FILE_OPEN`. -/
theorem map_access_share_access_witness :
    (map_access_2_allowdeny 3 0 FILE_OPEN ⟨0, 0⟩).allow = OPEN4_SHARE_ACCESS_BOTH :=
  (map_access_share_access 3 0 FILE_OPEN ⟨0, 0⟩ (Or.inl (by decide))).1
    ⟨Or.inl (by decide), Or.inl (by decide)⟩

/-- C9: when the access mask contains none of `FILE_READ_DATA`, `FILE_EXECUTE`,
`FILE_WRITE_DATA`, `FILE_APPEND_DATA`, `FILE_WRITE_ATTRIBUTES` and the
disposition may create a file (`FILE_CREATE`, `FILE_OPEN_IF`,
`FILE_OVERWRITE_IF`, `FILE_SUPERSEDE`, `FILE_OVERWRITE`), share_access is
exactly `OPEN4_SHARE_ACCESS_READ | OPEN4_SHARE_ACCESS_WANT_NO_DELEG`. -/
theorem map_access_no_data_create (access_mask access_mode disposition : Nat)
    (o : allowdeny_out)
    (hnone : ¬ has_any access_mask FILE_READ_DATA ∧ ¬ has_any access_mask FILE_EXECUTE ∧
      ¬ has_any access_mask FILE_WRITE_DATA ∧ ¬ has_any access_mask FILE_APPEND_DATA ∧
      ¬ has_any access_mask FILE_WRITE_ATTRIBUTES)
    (hd : disposition ∈ creating_dispositions) :
    (map_access_2_allowdeny access_mask access_mode disposition o).allow
      = OPEN4_SHARE_ACCESS_READ ||| OPEN4_SHARE_ACCESS_WANT_NO_DELEG ∧
    (map_access_2_allowdeny access_mask access_mode disposition o).allow = 0x0401 := by
  have hr : ¬ read_shaped access_mask := by
    unfold read_shaped
    tauto
  have hw : ¬ write_shaped access_mask := by
    unfold write_shaped
    tauto
  rw [map_access_allow_eq]
  simp only [hr, hw, hd, and_self, if_true, if_false]
  exact ⟨trivial, by decide⟩

/-- Witness of `map_access_no_data_create`: a `FILE_CREATE` open asking only
for `SYNCHRONIZE` (0x100000). -/
theorem map_access_no_data_create_witness :
    (map_access_2_allowdeny 0x100000 0 FILE_CREATE ⟨0, 0⟩).allow
      = OPEN4_SHARE_ACCESS_READ ||| OPEN4_SHARE_ACCESS_WANT_NO_DELEG ∧
    (map_access_2_allowdeny 0x100000 0 FILE_CREATE ⟨0, 0⟩).allow = 0x0401 :=
  map_access_no_data_create 0x100000 0 FILE_CREATE ⟨0, 0⟩
    ⟨by decide, by decide, by decide, by decide, by decide⟩ (by decide)

/-- C10: share_deny depends only on the `FILE_SHARE_READ` and
`FILE_SHARE_WRITE` bits of the share mode: it is NONE when both are set,
DENY_WRITE when only `FILE_SHARE_READ` is set, DENY_READ when only
`FILE_SHARE_WRITE` is set and DENY_BOTH when neither is set; two calls give the
same share_deny exactly when their share modes agree on both bits, and each of
the four values NONE, DENY_WRITE, DENY_READ, DENY_BOTH is produced, so the map
from the four bit combinations to the four values is a bijection. -/
theorem map_access_share_deny (access_mask access_mode disposition : Nat)
    (o : allowdeny_out) :
    (has_any access_mode FILE_SHARE_READ ∧ has_any access_mode FILE_SHARE_WRITE →
      (map_access_2_allowdeny access_mask access_mode disposition o).deny
        = OPEN4_SHARE_DENY_NONE) ∧
    (has_any access_mode FILE_SHARE_READ ∧ ¬ has_any access_mode FILE_SHARE_WRITE →
      (map_access_2_allowdeny access_mask access_mode disposition o).deny
        = OPEN4_SHARE_DENY_WRITE) ∧
    (¬ has_any access_mode FILE_SHARE_READ ∧ has_any access_mode FILE_SHARE_WRITE →
      (map_access_2_allowdeny access_mask access_mode disposition o).deny
        = OPEN4_SHARE_DENY_READ) ∧
    (¬ has_any access_mode FILE_SHARE_READ ∧ ¬ has_any access_mode FILE_SHARE_WRITE →
      (map_access_2_allowdeny access_mask access_mode disposition o).deny
        = OPEN4_SHARE_DENY_BOTH) ∧
    (∀ (mask2 mode2 disposition2 : Nat) (o2 : allowdeny_out),
      (map_access_2_allowdeny access_mask access_mode disposition o).deny
          = (map_access_2_allowdeny mask2 mode2 disposition2 o2).deny ↔
        ((has_any access_mode FILE_SHARE_READ ↔ has_any mode2 FILE_SHARE_READ) ∧
         (has_any access_mode FILE_SHARE_WRITE ↔ has_any mode2 FILE_SHARE_WRITE))) ∧
    (∀ v ∈ [OPEN4_SHARE_DENY_NONE, OPEN4_SHARE_DENY_WRITE, OPEN4_SHARE_DENY_READ,
        OPEN4_SHARE_DENY_BOTH],
      ∃ mode2, (map_access_2_allowdeny access_mask mode2 disposition o).deny = v) := by
  refine ⟨?_, ?_, ?_, ?_, ?_, ?_⟩
  · rintro ⟨h1, h2⟩
    rw [map_access_deny_eq]
    simp [h1, h2]
  · rintro ⟨h1, h2⟩
    rw [map_access_deny_eq]
    simp [h1, h2]
  · rintro ⟨h1, h2⟩
    rw [map_access_deny_eq]
    simp [h1, h2]
  · rintro ⟨h1, h2⟩
    rw [map_access_deny_eq]
    simp [h1, h2]
  · intro mask2 mode2 disposition2 o2
    rw [map_access_deny_eq, map_access_deny_eq]
    by_cases a1 : has_any access_mode FILE_SHARE_READ <;>
      by_cases a2 : has_any access_mode FILE_SHARE_WRITE <;>
      by_cases b1 : has_any mode2 FILE_SHARE_READ <;>
      by_cases b2 : has_any mode2 FILE_SHARE_WRITE <;>
      simp [a1, a2, b1, b2]
  · intro v hv
    simp only [List.mem_cons, List.mem_singleton, List.not_mem_nil, or_false] at hv
    rcases hv with rfl | rfl | rfl | rfl
    · exact ⟨FILE_SHARE_READ ||| FILE_SHARE_WRITE, by rw [map_access_deny_eq]; decide⟩
    · exact ⟨FILE_SHARE_READ, by rw [map_access_deny_eq]; decide⟩
    · exact ⟨FILE_SHARE_WRITE, by rw [map_access_deny_eq]; decide⟩
    · exact ⟨0, by rw [map_access_deny_eq]; decide⟩

/-- Witness of `map_access_share_deny`: share mode `FILE_SHARE_READ` alone
(with `FILE_SHARE_DELETE`) denies writers. -/
theorem map_access_share_deny_witness :
    (map_access_2_allowdeny 1 (FILE_SHARE_READ ||| FILE_SHARE_DELETE) FILE_OPEN ⟨0, 0⟩).deny
      = OPEN4_SHARE_DENY_WRITE :=
  (map_access_share_deny 1 (FILE_SHARE_READ ||| FILE_SHARE_DELETE) FILE_OPEN ⟨0, 0⟩).2.1
    ⟨by decide, by decide⟩

/-! ## Theorems: stateid selector -/

/-- The wait loop only exits in a state whose `do_close` is set. -/
theorem wait_do_close_exit (ws : List nfs41_open_state) :
    ∀ (s t : nfs41_open_state), wait_do_close s ws = some t → t.do_close = true := by
  induction ws with
  | nil =>
    intro s t h
    unfold wait_do_close at h
    split_ifs at h with hc
    cases h
    exact hc
  | cons w ws ih =>
    intro s t h
    unfold wait_do_close at h
    split_ifs at h with hc
    · cases h
      exact hc
    · exact ih w t h

/-- The final selection by cases: lock stateid when its seqid is non-zero,
else open stateid when `do_close` is set, else the cleared stateid. -/
theorem select_lock_open_special_spec (s : nfs41_open_state) (a : stateid_arg) :
    (s.locks.stateid.seqid ≠ 0 →
      (select_lock_open_special s a).type = stateid_type.STATEID_LOCK ∧
      (select_lock_open_special s a).stateid = s.locks.stateid) ∧
    (s.locks.stateid.seqid = 0 → s.do_close = true →
      (select_lock_open_special s a).type = stateid_type.STATEID_OPEN ∧
      (select_lock_open_special s a).stateid = s.stateid) ∧
    (s.locks.stateid.seqid = 0 → s.do_close = false →
      (select_lock_open_special s a).type = stateid_type.STATEID_SPECIAL ∧
      (select_lock_open_special s a).stateid = stateid4_clear) := by
  unfold select_lock_open_special stateid4_cpy
  refine ⟨?_, ?_, ?_⟩
  · intro h
    simp [h]
  · intro h hc
    simp [h, hc]
  · intro h hc
    simp [h, hc]

/-- C1: for an open state whose attached delegation is absent or GRANTED the
selector returns, with type DELEG_FILE and a copy of the delegation stateid
when a (GRANTED) delegation is attached; otherwise type LOCK and
`locks.stateid` when its seqid is non-zero; otherwise type OPEN and the open
stateid when `do_close` is set; otherwise type SPECIAL and the all-zero
stateid. -/
theorem open_stateid_arg_select (state : nfs41_open_state)
    (wakes : List nfs41_open_state) (arg0 : stateid_arg)
    (hd : ∀ deleg, state.delegation.state = some deleg →
      deleg.status = delegation_status.DELEGATION_GRANTED) :
    ∃ r, nfs41_open_stateid_arg state wakes arg0 = some r ∧
      (∀ deleg, state.delegation.state = some deleg →
        r.type = stateid_type.STATEID_DELEG_FILE ∧ r.stateid = deleg.state.stateid) ∧
      (state.delegation.state = none → state.locks.stateid.seqid ≠ 0 →
        r.type = stateid_type.STATEID_LOCK ∧ r.stateid = state.locks.stateid) ∧
      (state.delegation.state = none → state.locks.stateid.seqid = 0 →
        state.do_close = true →
        r.type = stateid_type.STATEID_OPEN ∧ r.stateid = state.stateid) ∧
      (state.delegation.state = none → state.locks.stateid.seqid = 0 →
        state.do_close = false →
        r.type = stateid_type.STATEID_SPECIAL ∧ r.stateid.seqid = 0 ∧
        ∀ b ∈ r.stateid.other, b = 0) := by
  cases hds : state.delegation.state with
  | none =>
    refine ⟨select_lock_open_special state
      { arg0 with open_ := some state, delegation := none }, ?_, ?_, ?_, ?_, ?_⟩
    · unfold nfs41_open_stateid_arg
      simp only [hds]
    · intro deleg h
      cases h
    · intro _ h
      exact (select_lock_open_special_spec state _).1 h
    · intro _ h hc
      exact (select_lock_open_special_spec state _).2.1 h hc
    · intro _ h hc
      have hsp := (select_lock_open_special_spec state
        { arg0 with open_ := some state, delegation := none }).2.2 h hc
      refine ⟨hsp.1, ?_, ?_⟩
      · rw [hsp.2]
        rfl
      · rw [hsp.2]
        intro b hb
        simp only [stateid4_clear] at hb
        exact List.eq_of_mem_replicate hb
  | some deleg =>
    have hg := hd deleg hds
    refine ⟨{ arg0 with open_ := some state, delegation := none,
                        type := stateid_type.STATEID_DELEG_FILE,
                        stateid := deleg.state.stateid }, ?_, ?_, ?_, ?_, ?_⟩
    · unfold nfs41_open_stateid_arg stateid4_cpy
      simp only [hds, hg, if_true]
    · intro deleg2 h
      cases h
      exact ⟨rfl, rfl⟩
    · intro h
      cases h
    · intro h
      cases h
    · intro h
      cases h

/-- Witness of `open_stateid_arg_select`: no delegation, no lock stateid,
`do_close` set; the hypothesis holds and the selector returns a result. -/
theorem open_stateid_arg_select_witness :
    ∃ r, nfs41_open_stateid_arg
        { stateid := ⟨7, [1, 2, 3]⟩, do_close := true, delegation := ⟨none⟩,
          locks := { stateid := ⟨0, []⟩ } } []
        { stateid := ⟨0, []⟩, type := stateid_type.STATEID_LAYOUT, open_ := none,
          delegation := none } = some r ∧
      r.type = stateid_type.STATEID_OPEN ∧ r.stateid = ⟨7, [1, 2, 3]⟩ := by
  obtain ⟨r, hr, _, _, h3, _⟩ := open_stateid_arg_select
    { stateid := ⟨7, [1, 2, 3]⟩, do_close := true, delegation := ⟨none⟩,
      locks := { stateid := ⟨0, []⟩ } } []
    { stateid := ⟨0, []⟩, type := stateid_type.STATEID_LAYOUT, open_ := none,
      delegation := none }
    (by intro deleg h; cases h)
  exact ⟨r, hr, h3 rfl rfl rfl⟩

/-- C2 as stated fails: with no delegation, a lock stateid of seqid 1 and
`do_close` set, the selector returns LOCK, not OPEN, so "OPEN if and only if
`do_close`" does not hold; and with a recalled delegation attached and
`do_close` set it returns LOCK although a delegation is attached. -/
theorem open_stateid_arg_type_counterexample :
    (∃ r, nfs41_open_stateid_arg locked_open_state [] special_arg = some r ∧
      r.type = stateid_type.STATEID_LOCK ∧
      ¬ (r.type = stateid_type.STATEID_OPEN ↔ locked_open_state.do_close = true)) ∧
    (∃ r, nfs41_open_stateid_arg recalled_locked_open_state [] special_arg = some r ∧
      r.type = stateid_type.STATEID_LOCK ∧
      ¬ (r.type = stateid_type.STATEID_LOCK ↔
          recalled_locked_open_state.locks.stateid.seqid ≠ 0 ∧
          recalled_locked_open_state.delegation.state = none)) := by
  constructor
  · exact ⟨_, rfl, by decide, by decide⟩
  · exact ⟨_, rfl, by decide, by decide⟩

/-- C2 (amended): for every open state and every output argument whose type is
not already DELEG_FILE on entry when a recalled delegation is attached, the
selector follows the priority order.  It returns DELEG_FILE if and only if a
GRANTED delegation is attached.  With no delegation attached it returns LOCK
iff the lock seqid is non-zero, OPEN iff the lock seqid is zero and `do_close`
is set, SPECIAL iff the lock seqid is zero and `do_close` is clear.  With a
recalled delegation attached it returns exactly when the wait observes
`do_close` set, and then LOCK iff the lock seqid (read after the wait) is
non-zero and OPEN iff it is zero. -/
theorem open_stateid_arg_type (state : nfs41_open_state)
    (wakes : List nfs41_open_state) (arg0 : stateid_arg)
    (hstale : delegation_recalled state → arg0.type ≠ stateid_type.STATEID_DELEG_FILE) :
    (∀ r, nfs41_open_stateid_arg state wakes arg0 = some r →
      (r.type = stateid_type.STATEID_DELEG_FILE ↔ delegation_granted state)) ∧
    (delegation_granted state →
      ∃ r, nfs41_open_stateid_arg state wakes arg0 = some r ∧
        r.type = stateid_type.STATEID_DELEG_FILE) ∧
    (state.delegation.state = none →
      ∃ r, nfs41_open_stateid_arg state wakes arg0 = some r ∧
        (r.type = stateid_type.STATEID_LOCK ↔ state.locks.stateid.seqid ≠ 0) ∧
        (r.type = stateid_type.STATEID_OPEN ↔
          state.locks.stateid.seqid = 0 ∧ state.do_close = true) ∧
        (r.type = stateid_type.STATEID_SPECIAL ↔
          state.locks.stateid.seqid = 0 ∧ state.do_close = false)) ∧
    (delegation_recalled state →
      (wait_do_close state wakes = none →
        nfs41_open_stateid_arg state wakes arg0 = none) ∧
      (∀ s, wait_do_close state wakes = some s →
        ∃ r, nfs41_open_stateid_arg state wakes arg0 = some r ∧
          (r.type = stateid_type.STATEID_LOCK ↔ s.locks.stateid.seqid ≠ 0) ∧
          (r.type = stateid_type.STATEID_OPEN ↔ s.locks.stateid.seqid = 0))) := by
  have key : ∀ (s : nfs41_open_state) (a : stateid_arg),
      ((select_lock_open_special s a).type = stateid_type.STATEID_LOCK ↔
          s.locks.stateid.seqid ≠ 0) ∧
      ((select_lock_open_special s a).type = stateid_type.STATEID_OPEN ↔
          s.locks.stateid.seqid = 0 ∧ s.do_close = true) ∧
      ((select_lock_open_special s a).type = stateid_type.STATEID_SPECIAL ↔
          s.locks.stateid.seqid = 0 ∧ s.do_close = false) ∧
      (select_lock_open_special s a).type ≠ stateid_type.STATEID_DELEG_FILE := by
    intro s a
    unfold select_lock_open_special
    by_cases h : s.locks.stateid.seqid = 0 <;> cases hc : s.do_close <;> simp [h, hc]
  cases hds : state.delegation.state with
  | none =>
    have hng : ¬ delegation_granted state := by
      rintro ⟨deleg, h, _⟩
      rw [hds] at h
      cases h
    have hnr : ¬ delegation_recalled state := by
      rintro ⟨deleg, h, _⟩
      rw [hds] at h
      cases h
    have hf : nfs41_open_stateid_arg state wakes arg0 = some (select_lock_open_special state
        { arg0 with open_ := some state, delegation := none }) := by
      unfold nfs41_open_stateid_arg
      simp only [hds]
    refine ⟨?_, fun h => absurd h hng, ?_, fun h => absurd h hnr⟩
    · intro r hr
      rw [hf] at hr
      cases hr
      exact ⟨fun h => absurd h (key state _).2.2.2, fun h => absurd h hng⟩
    · intro _
      exact ⟨_, hf, (key state _).1, (key state _).2.1, (key state _).2.2.1⟩
  | some deleg =>
    by_cases hg : deleg.status = delegation_status.DELEGATION_GRANTED
    · have hgr : delegation_granted state := ⟨deleg, hds, hg⟩
      have hnr : ¬ delegation_recalled state := by
        rintro ⟨deleg2, h, hn⟩
        rw [hds] at h
        cases h
        exact hn hg
      have hf : nfs41_open_stateid_arg state wakes arg0 =
          some { arg0 with open_ := some state, delegation := none,
                           type := stateid_type.STATEID_DELEG_FILE,
                           stateid := deleg.state.stateid } := by
        unfold nfs41_open_stateid_arg stateid4_cpy
        simp only [hds, hg, if_true]
      refine ⟨?_, fun _ => ⟨_, hf, rfl⟩, (fun h => by cases h), fun h => absurd h hnr⟩
      intro r hr
      rw [hf] at hr
      cases hr
      exact ⟨fun _ => hgr, fun _ => rfl⟩
    · have hrec : delegation_recalled state := ⟨deleg, hds, hg⟩
      have hng : ¬ delegation_granted state := by
        rintro ⟨deleg2, h, hn⟩
        rw [hds] at h
        cases h
        exact hg hn
      have hty := hstale hrec
      have hf : nfs41_open_stateid_arg state wakes arg0 =
          match wait_do_close state wakes with
          | none => none
          | some s => some (select_lock_open_special s
              { arg0 with open_ := some state, delegation := none }) := by
        unfold nfs41_open_stateid_arg
        simp only [hds, hg, if_false, hty]
      refine ⟨?_, fun h => absurd h hng, (fun h => by cases h), fun _ => ⟨?_, ?_⟩⟩
      · intro r hr
        rw [hf] at hr
        cases hw : wait_do_close state wakes with
        | none =>
          rw [hw] at hr
          cases hr
        | some s =>
          rw [hw] at hr
          cases hr
          exact ⟨fun h => absurd h (key s _).2.2.2, fun h => absurd h hng⟩
      · intro hw
        rw [hf, hw]
      · intro s hw
        have hc := wait_do_close_exit wakes state s hw
        refine ⟨_, by rw [hf, hw], (key s _).1, ?_⟩
        rw [(key s _).2.1]
        exact ⟨fun h => h.1, fun h => ⟨h, hc⟩⟩

/-- Witness of `open_stateid_arg_type`: a recalled delegation is attached, the
output type on entry is SPECIAL, `do_close` is already set and the lock seqid
is zero; the selector returns, and its type is OPEN. -/
theorem open_stateid_arg_type_witness :
    ∃ r, nfs41_open_stateid_arg
        { stateid := ⟨7, []⟩, do_close := true,
          delegation := ⟨some ⟨⟨⟨3, []⟩⟩, delegation_status.DELEGATION_RETURNING⟩⟩,
          locks := { stateid := ⟨0, []⟩ } } []
        { stateid := ⟨0, []⟩, type := stateid_type.STATEID_SPECIAL, open_ := none,
          delegation := none } = some r ∧
      (r.type = stateid_type.STATEID_LOCK ↔ (0 : Nat) ≠ 0) ∧
      (r.type = stateid_type.STATEID_OPEN ↔ (0 : Nat) = 0) :=
  ((open_stateid_arg_type
      { stateid := ⟨7, []⟩, do_close := true,
        delegation := ⟨some ⟨⟨⟨3, []⟩⟩, delegation_status.DELEGATION_RETURNING⟩⟩,
        locks := { stateid := ⟨0, []⟩ } } []
      { stateid := ⟨0, []⟩, type := stateid_type.STATEID_SPECIAL, open_ := none,
        delegation := none }
      (fun _ => by decide)).2.2.2
    ⟨_, rfl, by decide⟩).2 _ rfl

/-! ## Theorems: attribute-only opens -/

/-- C11 as stated fails: for a regular file that exists, with no data right
requested and disposition `FILE_OVERWRITE`, `open_for_attributes` returns
FALSE (open.c 472-473). -/
theorem open_for_attributes_overwrite_counterexample :
    ¬ has_any 0 FILE_READ_DATA ∧ ¬ has_any 0 FILE_WRITE_DATA ∧
    ¬ has_any 0 FILE_APPEND_DATA ∧ ¬ has_any 0 FILE_EXECUTE ∧
    open_for_attributes NF4REG 0 FILE_OVERWRITE 0 = false := by
  decide

/-- C11 (amended): when no data right (`FILE_READ_DATA`, `FILE_WRITE_DATA`,
`FILE_APPEND_DATA`, `FILE_EXECUTE`) is requested and the lookup succeeded,
`open_for_attributes` returns TRUE for disposition `FILE_OPEN` on every object
type, and for disposition `FILE_OVERWRITE` exactly when the type is
`NF4DIR`. -/
theorem open_for_attributes_no_data (type access_mask disposition : Nat)
    (hnone : ¬ has_any access_mask FILE_READ_DATA ∧ ¬ has_any access_mask FILE_WRITE_DATA ∧
      ¬ has_any access_mask FILE_APPEND_DATA ∧ ¬ has_any access_mask FILE_EXECUTE) :
    (disposition = FILE_OPEN → open_for_attributes type access_mask disposition 0 = true) ∧
    (disposition = FILE_OVERWRITE →
      (open_for_attributes type access_mask disposition 0 = true ↔ type = NF4DIR)) := by
  obtain ⟨h1, h2, h3, h4⟩ := hnone
  constructor
  · rintro rfl
    by_cases ht : type = NF4DIR <;> simp [open_for_attributes, ht, h1, h2, h3, h4]
  · rintro rfl
    by_cases ht : type = NF4DIR <;> simp [open_for_attributes, ht]

/-- Witness of `open_for_attributes_no_data`: a `FILE_OPEN` of a regular file
asking only for `FILE_READ_ATTRIBUTES` (0x80). -/
theorem open_for_attributes_no_data_witness :
    open_for_attributes NF4REG 0x80 FILE_OPEN 0 = true :=
  (open_for_attributes_no_data NF4REG 0x80 FILE_OPEN
    ⟨by decide, by decide, by decide, by decide⟩).1 rfl

/-! ## Theorems: creation of the open state -/

/-- C19: when the allocation succeeds and `NFS41_MAX_PATH_LEN` fits the
`unsigned short` length field, `create_open_state` fails with
`ERROR_FILENAME_EXCED_RANGE` and stores no state if and only if the path
length is at least `NFS41_MAX_PATH_LEN`; otherwise it returns `NO_ERROR` and a
state whose path is the input, whose `path.len` is its length (below the
maximum), with `ref_count` 1, `do_close` clear, no delegation, an empty lock
list and `ea.list` set to `INVALID_HANDLE_VALUE`. -/
theorem create_open_state_result (NFS41_MAX_PATH_LEN : Nat) (path : List Nat)
    (open_owner_id : Nat) (hmax : NFS41_MAX_PATH_LEN ≤ 65536) :
    (((create_open_state NFS41_MAX_PATH_LEN none path open_owner_id).1
          = (ERROR_FILENAME_EXCED_RANGE : Nat) ∧
        (create_open_state NFS41_MAX_PATH_LEN none path open_owner_id).2 = none) ↔
      NFS41_MAX_PATH_LEN ≤ strlen path) ∧
    (strlen path < NFS41_MAX_PATH_LEN →
      ∃ state, create_open_state NFS41_MAX_PATH_LEN none path open_owner_id
          = (NO_ERROR, some state) ∧
        state.path.path = path ∧ state.path.len = strlen path ∧
        state.path.len < NFS41_MAX_PATH_LEN ∧
        state.ref_count = 1 ∧ state.do_close = false ∧
        state.delegation.state = none ∧ state.locks.list = [] ∧
        state.ea.list = ea_list_ptr.INVALID_HANDLE_VALUE) := by
  constructor
  · constructor
    · intro h
      by_contra hlt
      have hlt2 : ¬ strlen path ≥ NFS41_MAX_PATH_LEN := hlt
      simp [create_open_state, hlt2] at h
    · intro h
      have h2 : strlen path ≥ NFS41_MAX_PATH_LEN := h
      simp [create_open_state, h2]
  · intro h
    have h2 : ¬ strlen path ≥ NFS41_MAX_PATH_LEN := not_le.mpr h
    have h3 : strlen path % 65536 = strlen path := Nat.mod_eq_of_lt (by omega)
    simp only [create_open_state, h2, if_false]
    exact ⟨_, rfl, by simp [calloc_open_state, h3, h]⟩

/-- Witness of `create_open_state_result`: the path `/a` with a maximum of
4096. -/
theorem create_open_state_result_witness :
    ∃ state, create_open_state 4096 none [47, 97] 7 = (NO_ERROR, some state) ∧
      state.path.path = [47, 97] ∧ state.path.len = strlen [47, 97] ∧
      state.path.len < 4096 ∧
      state.ref_count = 1 ∧ state.do_close = false ∧
      state.delegation.state = none ∧ state.locks.list = [] ∧
      state.ea.list = ea_list_ptr.INVALID_HANDLE_VALUE :=
  (create_open_state_result 4096 [47, 97] 7 (by decide)).2 (by decide)

/-! ## Theorems: reference counting -/

/-- A result inside the range of a `LONG` is not changed by the wrap. -/
theorem long_wrap_id (x : Int) (h1 : -2147483648 ≤ x) (h2 : x ≤ 2147483647) :
    long_wrap x = x := by
  unfold long_wrap
  omega

/-- The count after a `ref` made at a positive count below `LONG_MAX`. -/
theorem ref_step_count (state : nfs41_open_state) (hpos : 0 < state.ref_count)
    (hmax : state.ref_count < 2147483647) :
    (ref_call_step state ref_call.ref).1.ref_count = state.ref_count + 1 := by
  simp only [ref_call_step, nfs41_open_state_ref]
  exact long_wrap_id _ (by omega) (by omega)

/-- The count after a sequence of calls, each made at a positive count and no
`ref` made at `LONG_MAX`: one more per `ref`, one less per `deref`. -/
theorem ref_calls_run_count (calls : List ref_call) :
    ∀ state : nfs41_open_state, ref_calls_valid state calls →
      ref_calls_in_range state calls →
      (ref_calls_run state calls).1.ref_count =
        state.ref_count + (calls.count ref_call.ref : Int)
          - (calls.count ref_call.deref : Int) := by
  induction calls with
  | nil =>
    intro state _ _
    simp [ref_calls_run]
  | cons c cs ih =>
    intro state hv hr
    cases c with
    | ref =>
      have hstep := ref_step_count state hv.1 (hr.1 rfl)
      simp only [ref_calls_run, ih _ hv.2 hr.2, hstep]
      simp
      ring
    | deref =>
      have hstep : (ref_call_step state ref_call.deref).1.ref_count
          = state.ref_count - 1 := rfl
      simp only [ref_calls_run, ih _ hv.2 hr.2, hstep]
      simp
      ring

/-- On a valid sequence started with a positive count, with no `ref` made at
`LONG_MAX`, either the state is never freed and the count stays positive, or it
is freed once, by a final `deref` that brings the count to 0. -/
theorem ref_calls_run_free (calls : List ref_call) :
    ∀ state : nfs41_open_state, 0 < state.ref_count → ref_calls_valid state calls →
      ref_calls_in_range state calls →
      ((ref_calls_run state calls).2 = 0 ∧ 0 < (ref_calls_run state calls).1.ref_count) ∨
      ((ref_calls_run state calls).2 = 1 ∧ (ref_calls_run state calls).1.ref_count = 0 ∧
        calls.getLast? = some ref_call.deref) := by
  induction calls with
  | nil =>
    intro state hpos _ _
    left
    exact ⟨rfl, hpos⟩
  | cons c cs ih =>
    intro state hpos hv hr
    obtain ⟨_, hv2⟩ := hv
    obtain ⟨hr1, hr2⟩ := hr
    cases c with
    | ref =>
      have hpos2 : 0 < (ref_call_step state ref_call.ref).1.ref_count := by
        rw [ref_step_count state hpos (hr1 rfl)]
        omega
      rcases ih _ hpos2 hv2 hr2 with h | h
      · left
        simp only [ref_calls_run]
        refine ⟨?_, h.2⟩
        rw [h.1]
        rfl
      · right
        simp only [ref_calls_run]
        refine ⟨?_, h.2.1, ?_⟩
        · rw [h.1]
          rfl
        · cases cs with
          | nil => simp at h
          | cons d ds =>
            rw [List.getLast?_cons_cons]
            exact h.2.2
    | deref =>
      by_cases hz : state.ref_count - 1 = 0
      · cases cs with
        | nil =>
          right
          simp [ref_calls_run, ref_call_step, nfs41_open_state_deref, hz]
        | cons d ds =>
          exfalso
          have hp := hv2.1
          simp only [ref_call_step, nfs41_open_state_deref] at hp
          omega
      · have hpos2 : 0 < (ref_call_step state ref_call.deref).1.ref_count := by
          simp only [ref_call_step, nfs41_open_state_deref]
          omega
        have hstep : (ref_call_step state ref_call.deref).2 = 0 := by
          simp [ref_call_step, nfs41_open_state_deref, hz]
        rcases ih _ hpos2 hv2 hr2 with h | h
        · left
          simp only [ref_calls_run]
          refine ⟨?_, h.2⟩
          rw [h.1, hstep]
        · right
          simp only [ref_calls_run]
          refine ⟨?_, h.2.1, ?_⟩
          · rw [h.1, hstep]
          · cases cs with
            | nil => simp at h
            | cons d ds =>
              rw [List.getLast?_cons_cons]
              exact h.2.2

/-- A prefix of a sequence with no `ref` at `LONG_MAX` has none either. -/
theorem ref_calls_in_range_take (calls : List ref_call) :
    ∀ (state : nfs41_open_state) (n : Nat), ref_calls_in_range state calls →
      ref_calls_in_range state (calls.take n) := by
  induction calls with
  | nil =>
    intro state n _
    simp [ref_calls_in_range]
  | cons c cs ih =>
    intro state n hr
    cases n with
    | zero => simp [ref_calls_in_range]
    | succ m =>
      simp only [List.take_succ_cons, ref_calls_in_range]
      exact ⟨hr.1, ih _ m hr.2⟩

/-- A run of `n` calls of `nfs41_open_state_ref` from a positive count that
reaches at most `LONG_MAX + 1`: every call is made at a positive count, and the
final count is the wrapped sum. -/
theorem ref_calls_replicate_ref (n : Nat) :
    ∀ state : nfs41_open_state, 0 < state.ref_count → state.ref_count ≤ 2147483647 →
      state.ref_count + (n : Int) ≤ 2147483648 →
      ref_calls_valid state (List.replicate n ref_call.ref) ∧
      (ref_calls_run state (List.replicate n ref_call.ref)).1.ref_count
        = long_wrap (state.ref_count + (n : Int)) := by
  induction n with
  | zero =>
    intro state hpos hmax _
    refine ⟨trivial, ?_⟩
    rw [List.replicate_zero, Nat.cast_zero, add_zero, long_wrap_id _ (by omega) hmax]
    rfl
  | succ m ih =>
    intro state hpos hmax hsum
    rw [List.replicate_succ]
    cases m with
    | zero =>
      refine ⟨⟨hpos, trivial⟩, ?_⟩
      simp only [List.replicate_zero, ref_calls_run, ref_call_step, nfs41_open_state_ref]
      norm_num
    | succ k =>
      have hlt : state.ref_count < 2147483647 := by
        push_cast at hsum
        omega
      have hstep := ref_step_count state hpos hlt
      obtain ⟨h1, h2⟩ := ih (ref_call_step state ref_call.ref).1
        (by rw [hstep]; omega) (by rw [hstep]; omega)
        (by rw [hstep]; push_cast at hsum ⊢; omega)
      refine ⟨⟨hpos, h1⟩, ?_⟩
      have hrun : ∀ (st : nfs41_open_state) (cs : List ref_call),
          (ref_calls_run st (ref_call.ref :: cs)).1
            = (ref_calls_run (ref_call_step st ref_call.ref).1 cs).1 := fun _ _ => rfl
      rw [hrun, h2, hstep]
      congr 1
      push_cast
      ring

/-- A prefix of a valid sequence is valid. -/
theorem ref_calls_valid_take (calls : List ref_call) :
    ∀ (state : nfs41_open_state) (n : Nat), ref_calls_valid state calls →
      ref_calls_valid state (calls.take n) := by
  induction calls with
  | nil =>
    intro state n _
    simp [ref_calls_valid]
  | cons c cs ih =>
    intro state n hv
    cases n with
    | zero => simp [ref_calls_valid]
    | succ m =>
      simp only [List.take_succ_cons, ref_calls_valid]
      exact ⟨hv.1, ih _ m hv.2⟩

/-- The state after a prefix of the calls is the state the next call finds. -/
theorem ref_calls_valid_prefix_pos (calls : List ref_call) :
    ∀ (state : nfs41_open_state) (n : Nat), ref_calls_valid state calls →
      n < calls.length → 0 < (ref_calls_run state (calls.take n)).1.ref_count := by
  induction calls with
  | nil =>
    intro state n _ hn
    simp at hn
  | cons c cs ih =>
    intro state n hv hn
    cases n with
    | zero =>
      simp only [List.take_zero, ref_calls_run]
      exact hv.1
    | succ m =>
      simp only [List.take_succ_cons, ref_calls_run]
      exact ih _ m hv.2 (by simpa using hn)

/-- A state produced by `create_open_state` has `ref_count` 1. -/
theorem create_open_state_ref_count (NFS41_MAX_PATH_LEN : Nat) (alloc_error : Option Int)
    (path : List Nat) (open_owner_id : Nat) (status : Int) (state : nfs41_open_state)
    (hc : create_open_state NFS41_MAX_PATH_LEN alloc_error path open_owner_id
      = (status, some state)) :
    state.ref_count = 1 := by
  unfold create_open_state at hc
  cases alloc_error with
  | some e => simp at hc
  | none =>
    by_cases hlen : strlen path ≥ NFS41_MAX_PATH_LEN
    · simp [hlen] at hc
    · simp only [hlen, if_false, Prod.mk.injEq, Option.some.injEq] at hc
      rw [← hc.2]

/-- C17 as stated fails: from the state produced by `create_open_state`
(`ref_count` 1), 2147483647 calls of `nfs41_open_state_ref` are each made while
`ref_count > 0`, and the last one increments the `LONG` count at `LONG_MAX`: the
final `ref_count` is -2147483648, not 1 + 2147483647 - 0. -/
theorem ref_count_overflow_counterexample :
    create_open_state 4096 none [47, 97] 7 = (NO_ERROR, some created_state_a7) ∧
    ref_calls_valid created_state_a7 (List.replicate 2147483647 ref_call.ref) ∧
    (ref_calls_run created_state_a7
      (List.replicate 2147483647 ref_call.ref)).1.ref_count = -2147483648 ∧
    (List.replicate 2147483647 ref_call.ref).count ref_call.ref = 2147483647 ∧
    (List.replicate 2147483647 ref_call.ref).count ref_call.deref = 0 := by
  have h := ref_calls_replicate_ref 2147483647 created_state_a7 (by decide) (by decide)
    (by decide)
  refine ⟨by decide, h.1, h.2.trans (by decide), List.count_replicate_self _ _, ?_⟩
  rw [List.count_replicate]
  rfl

/-- C17 (amended): starting from the state produced by `create_open_state`, for
every sequence of `nfs41_open_state_ref` / `nfs41_open_state_deref` calls each
made while `ref_count > 0`, and with no `nfs41_open_state_ref` made while
`ref_count` is `LONG_MAX` (2147483647): the final `ref_count` is 1 + refs -
derefs; before each call of the sequence the count is at least 1 and
`open_state_free` has not been called; `open_state_free` is called at most
once, and it is called exactly when the count has reached 0, by the last call
of the sequence, which is a `deref`. -/
theorem ref_count_lifecycle (NFS41_MAX_PATH_LEN : Nat) (path : List Nat)
    (open_owner_id : Nat) (state : nfs41_open_state) (calls : List ref_call)
    (hc : create_open_state NFS41_MAX_PATH_LEN none path open_owner_id
      = (NO_ERROR, some state))
    (hv : ref_calls_valid state calls)
    (hr : ref_calls_in_range state calls) :
    (ref_calls_run state calls).1.ref_count =
      1 + (calls.count ref_call.ref : Int) - (calls.count ref_call.deref : Int) ∧
    (∀ n, n < calls.length →
      1 ≤ (ref_calls_run state (calls.take n)).1.ref_count ∧
      (ref_calls_run state (calls.take n)).2 = 0) ∧
    (ref_calls_run state calls).2 ≤ 1 ∧
    ((ref_calls_run state calls).2 = 1 ↔ (ref_calls_run state calls).1.ref_count = 0) ∧
    ((ref_calls_run state calls).2 = 1 → calls.getLast? = some ref_call.deref) := by
  have h1 : state.ref_count = 1 := create_open_state_ref_count _ _ _ _ _ _ hc
  have hpos : 0 < state.ref_count := by omega
  refine ⟨?_, ?_, ?_, ?_, ?_⟩
  · rw [ref_calls_run_count calls state hv hr, h1]
  · intro n hn
    have hp := ref_calls_valid_prefix_pos calls state n hv hn
    refine ⟨hp, ?_⟩
    rcases ref_calls_run_free (calls.take n) state hpos (ref_calls_valid_take calls state n hv)
      (ref_calls_in_range_take calls state n hr) with h | h
    · exact h.1
    · omega
  · rcases ref_calls_run_free calls state hpos hv hr with h | h <;> omega
  · rcases ref_calls_run_free calls state hpos hv hr with h | h
    · constructor <;> intro h2 <;> omega
    · exact ⟨fun _ => h.2.1, fun _ => h.1⟩
  · intro h2
    rcases ref_calls_run_free calls state hpos hv hr with h | h
    · omega
    · exact h.2.2

/-- Witness of `ref_count_lifecycle`: the dispatcher takes a second reference,
then both references are dropped; the state is freed once, by the last
`deref`. -/
theorem ref_count_lifecycle_witness :
    create_open_state 4096 none [47, 97] 7 = (NO_ERROR, some created_state_a7) ∧
    ref_calls_valid created_state_a7 [ref_call.ref, ref_call.deref, ref_call.deref] ∧
    ref_calls_in_range created_state_a7 [ref_call.ref, ref_call.deref, ref_call.deref] ∧
    (ref_calls_run created_state_a7
      [ref_call.ref, ref_call.deref, ref_call.deref]).1.ref_count = 0 ∧
    (ref_calls_run created_state_a7 [ref_call.ref, ref_call.deref, ref_call.deref]).2 = 1 := by
  have hc : create_open_state 4096 none [47, 97] 7 = (NO_ERROR, some created_state_a7) := by
    decide
  have hv : ref_calls_valid created_state_a7
      [ref_call.ref, ref_call.deref, ref_call.deref] := by
    refine ⟨by decide, by decide, by decide, trivial⟩
  have hr : ref_calls_in_range created_state_a7
      [ref_call.ref, ref_call.deref, ref_call.deref] := by
    simp [ref_calls_in_range, created_state_a7]
  have h := ref_count_lifecycle 4096 [47, 97] 7 created_state_a7
    [ref_call.ref, ref_call.deref, ref_call.deref] hc hv hr
  refine ⟨hc, hv, hr, ?_, ?_⟩
  · rw [h.1]
    decide
  · rw [h.2.2.2.1, h.1]
    decide

/-! ## Theorems: open owner -/

/-- The digits produced by the `_ultoa` loop have the converted number as
their positional value. -/
theorem ultoa_digits_value (fuel : Nat) :
    ∀ value, value < 10 ^ fuel → digits_value 10 (ultoa_digits 10 fuel value) = value := by
  induction fuel with
  | zero =>
    intro value h
    simp at h
    simp [ultoa_digits, digits_value, h]
  | succ n ih =>
    intro value h
    unfold ultoa_digits
    by_cases hz : value / 10 = 0
    · simp only [hz, if_true, digits_value]
      omega
    · simp only [hz, if_false, digits_value]
      have hlt : value / 10 < 10 ^ n := by
        rw [pow_succ] at h
        omega
      rw [ih _ hlt]
      omega

/-- Every digit produced in radix 10 is below 10. -/
theorem ultoa_digits_lt (fuel : Nat) :
    ∀ value, ∀ d ∈ ultoa_digits 10 fuel value, d < 10 := by
  induction fuel with
  | zero =>
    intro value d hd
    simp [ultoa_digits] at hd
  | succ n ih =>
    intro value d hd
    unfold ultoa_digits at hd
    rcases List.mem_cons.mp hd with h | h
    · omega
    · by_cases hz : value / 10 = 0
      · simp [hz] at h
      · simp only [hz, if_false] at h
        exact ih _ d h

/-- A number below `10 ^ k` has at most `k` decimal digits. -/
theorem ultoa_digits_length (fuel : Nat) :
    ∀ value k, 1 ≤ k → value < 10 ^ k → (ultoa_digits 10 fuel value).length ≤ k := by
  induction fuel with
  | zero =>
    intro value k _ _
    simp [ultoa_digits]
  | succ n ih =>
    intro value k hk h
    unfold ultoa_digits
    by_cases hz : value / 10 = 0
    · simp [hz]
      omega
    · simp only [hz, if_false, List.length_cons]
      have hk2 : 2 ≤ k := by
        by_contra hlt
        have : k = 1 := by omega
        subst this
        simp at h
        omega
      have hlt : value / 10 < 10 ^ (k - 1) := by
        have : k = (k - 1) + 1 := by omega
        rw [this, pow_succ] at h
        omega
      have := ih (value / 10) (k - 1) (by omega) hlt
      omega

/-- The most significant digit of a non-zero number is not zero. -/
theorem ultoa_digits_last (fuel : Nat) :
    ∀ value, value ≠ 0 → value < 10 ^ fuel →
      (ultoa_digits 10 fuel value).getLast? ≠ some 0 := by
  induction fuel with
  | zero =>
    intro value h0 h
    simp at h
    exact absurd h h0
  | succ n ih =>
    intro value h0 h
    unfold ultoa_digits
    by_cases hz : value / 10 = 0
    · simp only [hz, if_true, List.getLast?_singleton]
      intro hc
      simp at hc
      omega
    · simp only [hz, if_false]
      have hlt : value / 10 < 10 ^ n := by
        rw [pow_succ] at h
        omega
      have hi := ih _ hz hlt
      cases hr : ultoa_digits 10 n (value / 10) with
      | nil =>
        cases n with
        | zero => simp at hlt; exact absurd hlt hz
        | succ m => simp [ultoa_digits] at hr
      | cons d ds =>
        rw [List.getLast?_cons_cons]
        rw [hr] at hi
        exact hi
/-- The text written by `_ultoa` in radix 10 decodes to the converted
number. -/
theorem ultoa_decode (value : Nat) (h : value < 2 ^ 32) :
    digits_value 10 (((_ultoa value 10).reverse).map (fun c => c - 48)) = value := by
  have hd : ((_ultoa value 10).reverse).map (fun c => c - 48)
      = ultoa_digits 10 32 value := by
    unfold _ultoa
    rw [← List.map_reverse, List.reverse_reverse, List.map_map]
    conv_rhs => rw [← List.map_id (ultoa_digits 10 32 value)]
    apply List.map_congr_left
    intro d hd
    have hlt := ultoa_digits_lt 32 value d hd
    simp [ultoa_char, hlt]
  rw [hd]
  exact ultoa_digits_value 32 value (lt_trans h (by norm_num))

/-- C18: for every 32-bit `open_owner_id` (and a path that fits),
`create_open_state` sets the owner bytes to the decimal text of the id: ASCII
digits whose positional value is the id, without a leading zero for a non-zero
id; `owner_len` is the length of that text, between 1 and 10 and so within the
32-byte opaque limit; and two ids give the same (owner, owner_len) pair if and
only if they are equal. -/
theorem create_open_state_owner (NFS41_MAX_PATH_LEN : Nat) (path : List Nat)
    (open_owner_id : Nat) (hid : open_owner_id < 2 ^ 32)
    (hpath : strlen path < NFS41_MAX_PATH_LEN) :
    ∃ state, create_open_state NFS41_MAX_PATH_LEN none path open_owner_id
        = (NO_ERROR, some state) ∧
      (∀ c ∈ state.owner.owner, 48 ≤ c ∧ c ≤ 57) ∧
      digits_value 10 ((state.owner.owner.reverse).map (fun c => c - 48)) = open_owner_id ∧
      (open_owner_id ≠ 0 → state.owner.owner.head? ≠ some 48) ∧
      state.owner.owner_len = state.owner.owner.length ∧
      1 ≤ state.owner.owner_len ∧ state.owner.owner_len ≤ 10 ∧
      state.owner.owner_len ≤ 32 ∧
      (∀ (path2 : List Nat) (id2 : Nat) (state2 : nfs41_open_state), id2 < 2 ^ 32 →
        create_open_state NFS41_MAX_PATH_LEN none path2 id2 = (NO_ERROR, some state2) →
        (state.owner = state2.owner ↔ open_owner_id = id2)) := by
  have hlen : ¬ strlen path ≥ NFS41_MAX_PATH_LEN := not_le.mpr hpath
  have howner : ∀ (p : List Nat) (i : Nat) (st : nfs41_open_state),
      create_open_state NFS41_MAX_PATH_LEN none p i = (NO_ERROR, some st) →
      st.owner = { owner := _ultoa i 10, owner_len := strlen (_ultoa i 10) } := by
    intro p i st h
    unfold create_open_state at h
    by_cases hl : strlen p ≥ NFS41_MAX_PATH_LEN
    · simp [hl] at h
    · simp only [hl, if_false, Prod.mk.injEq, Option.some.injEq, true_and] at h
      rw [← h]
  have hcreate : ∃ st, create_open_state NFS41_MAX_PATH_LEN none path open_owner_id
      = (NO_ERROR, some st) := by
    simp only [create_open_state, hlen, if_false]
    exact ⟨_, rfl⟩
  obtain ⟨state, hst⟩ := hcreate
  have ho := howner path open_owner_id state hst
  have hdig : ∀ c ∈ _ultoa open_owner_id 10, 48 ≤ c ∧ c ≤ 57 := by
    intro c hc
    unfold _ultoa at hc
    obtain ⟨d, hd, rfl⟩ := List.mem_map.mp hc
    have hlt := ultoa_digits_lt 32 open_owner_id d (List.mem_reverse.mp hd)
    simp only [ultoa_char, hlt, if_true]
    omega
  have hlen1 : 1 ≤ (_ultoa open_owner_id 10).length := by
    simp [_ultoa, ultoa_digits]
  have hlen10 : (_ultoa open_owner_id 10).length ≤ 10 := by
    simp only [_ultoa, List.length_map, List.length_reverse]
    exact ultoa_digits_length 32 open_owner_id 10 (by norm_num)
      (lt_trans hid (by norm_num))
  refine ⟨state, hst, ?_, ?_, ?_, ?_, ?_, ?_, ?_, ?_⟩
  · rw [ho]
    exact hdig
  · rw [ho]
    exact ultoa_decode open_owner_id hid
  · intro h0
    rw [ho]
    simp only [_ultoa, List.head?_map, List.head?_reverse]
    have hl := ultoa_digits_last 32 open_owner_id h0 (lt_trans hid (by norm_num))
    intro hc
    cases hg : (ultoa_digits 10 32 open_owner_id).getLast? with
    | none => rw [hg] at hc; simp at hc
    | some d =>
      rw [hg] at hc hl
      simp only [Option.map_some', Option.some.injEq] at hc
      have hdlt : d < 10 :=
        ultoa_digits_lt 32 open_owner_id d (List.mem_of_getLast?_eq_some hg)
      simp only [ultoa_char, hdlt, if_true] at hc
      have : d = 0 := by omega
      exact hl (by rw [this])
  · rw [ho]
    rfl
  · rw [ho]
    exact hlen1
  · rw [ho]
    exact hlen10
  · rw [ho]
    exact le_trans hlen10 (by norm_num)
  · intro path2 id2 state2 hid2 hst2
    rw [ho, howner path2 id2 state2 hst2]
    constructor
    · intro heq
      have h1 := ultoa_decode open_owner_id hid
      have h2 := ultoa_decode id2 hid2
      have hoo : _ultoa open_owner_id 10 = _ultoa id2 10 := by
        injection heq
      rw [hoo] at h1
      rw [← h1, h2]
    · rintro rfl
      rfl

/-- Witness of `create_open_state_owner`: the largest 32-bit id has a ten-digit
owner text. -/
theorem create_open_state_owner_witness :
    (4294967295 < 2 ^ 32 ∧ strlen [47, 97] < 4096) ∧
    ∃ state, create_open_state 4096 none [47, 97] 4294967295 = (NO_ERROR, some state) ∧
      digits_value 10 ((state.owner.owner.reverse).map (fun c => c - 48)) = 4294967295 ∧
      1 ≤ state.owner.owner_len ∧ state.owner.owner_len ≤ 10 := by
  refine ⟨⟨by norm_num, by decide⟩, ?_⟩
  obtain ⟨state, h, _, hv, _, _, h1, h10, _⟩ :=
    create_open_state_owner 4096 [47, 97] 4294967295 (by norm_num) (by decide)
  exact ⟨state, h, hv, h1, h10⟩

/-! ## Theorems: CLOSE driver -/

/-- The CLOSE statuses of a concatenation. -/
theorem close_statuses_append (a b : List call) :
    close_statuses (a ++ b) = close_statuses a ++ close_statuses b := by
  induction a with
  | nil => rfl
  | cons x xs ih => cases x <;> simp [close_statuses, ih]

/-- The REMOVE statuses of a concatenation. -/
theorem remove_statuses_append (a b : List call) :
    remove_statuses (a ++ b) = remove_statuses a ++ remove_statuses b := by
  induction a with
  | nil => rfl
  | cons x xs ih => cases x <;> simp [remove_statuses, ih]

/-- The rule for the status `handle_close` returns, as a property of a finished
run: a failed CLOSE gives its mapped status, otherwise the result is the mapped
status of the last REMOVE. -/
theorem handle_close_out_rule (w2e : Int → Int → Int)
    (hmap : ∀ s : Int, s ≠ 0 → w2e s ERROR_INTERNAL_ERROR ≠ 0) (r : close_run)
    (h : ((∀ c ∈ close_statuses r.trace, c = 0) ∧ r.status = 0 ∧
          r.rm_status = last_remove_mapped w2e r.trace) ∨
        (∃ pre c, close_statuses r.trace = pre ++ [c] ∧ (∀ x ∈ pre, x = 0) ∧ c ≠ 0 ∧
          r.status = w2e c ERROR_INTERNAL_ERROR)) :
    (∀ c ∈ close_statuses (handle_close_out r).trace, c ≠ 0 →
      (handle_close_out r).status = w2e c ERROR_INTERNAL_ERROR) ∧
    ((∀ c ∈ close_statuses (handle_close_out r).trace, c = 0) →
      (handle_close_out r).status = last_remove_mapped w2e (handle_close_out r).trace) := by
  have htr : (handle_close_out r).trace = r.trace ++ [call.client_state_remove] := by
    unfold handle_close_out
    simp only []
    split_ifs <;> rfl
  have hcs : close_statuses (handle_close_out r).trace = close_statuses r.trace := by
    rw [htr, close_statuses_append]
    simp [close_statuses]
  have hlr : last_remove_mapped w2e (handle_close_out r).trace
      = last_remove_mapped w2e r.trace := by
    unfold last_remove_mapped
    rw [htr, remove_statuses_append]
    simp [remove_statuses]
  rw [hcs, hlr]
  rcases h with ⟨hall, hs, hrm⟩ | ⟨pre, c, hpre, hzero, hc, hs⟩
  · constructor
    · intro c hc hne
      exact absurd (hall c hc) hne
    · intro _
      unfold handle_close_out
      simp only []
      by_cases hz : r.rm_status = 0
      · simp only [hz, or_true, if_true]
        rw [hs, ← hrm, hz]
      · simp only [hs, hz, ne_eq, not_true_eq_false, or_self, if_false]
        exact hrm
  · have hst : (handle_close_out r).status = r.status := by
      unfold handle_close_out
      have hne : r.status ≠ 0 := by
        rw [hs]
        exact hmap c hc
      simp [hne]
    constructor
    · intro x hx hne
      rw [hpre] at hx
      rcases List.mem_append.mp hx with hx | hx
      · exact absurd (hzero x hx) hne
      · have hxc : x = c := by simpa using hx
        rw [hst, hs, hxc]
    · intro hall
      exact absurd (hall c (by rw [hpre]; simp)) hc

/-- The rule of `handle_close_out_rule` holds after the final CLOSE. -/
theorem handle_close_finish_rule (w2e : Int → Int → Int)
    (hmap : ∀ s : Int, s ≠ 0 → w2e s ERROR_INTERNAL_ERROR ≠ 0)
    (close_answers : List Int) (r : close_run)
    (hall : ∀ c ∈ close_statuses r.trace, c = 0) (hs : r.status = 0)
    (hrm : r.rm_status = last_remove_mapped w2e r.trace) :
    (∀ c ∈ close_statuses (handle_close_finish w2e close_answers r).trace, c ≠ 0 →
      (handle_close_finish w2e close_answers r).status = w2e c ERROR_INTERNAL_ERROR) ∧
    ((∀ c ∈ close_statuses (handle_close_finish w2e close_answers r).trace, c = 0) →
      (handle_close_finish w2e close_answers r).status
        = last_remove_mapped w2e (handle_close_finish w2e close_answers r).trace) := by
  unfold handle_close_finish
  by_cases hd : r.state.do_close = true
  · simp only [hd, if_true]
    generalize close_answers.headD NFS4_OK = ans
    apply handle_close_out_rule w2e hmap
    have hlr : ∀ a, last_remove_mapped w2e
        (r.trace ++ [(do_nfs41_close w2e r.state a).2]) = last_remove_mapped w2e r.trace := by
      intro a
      unfold last_remove_mapped
      rw [remove_statuses_append]
      simp [do_nfs41_close, remove_statuses]
    have hcl : ∀ a, close_statuses (r.trace ++ [(do_nfs41_close w2e r.state a).2])
        = close_statuses r.trace ++ [a] := by
      intro a
      rw [close_statuses_append]
      simp [do_nfs41_close, close_statuses]
    by_cases ha : ans = 0
    · left
      refine ⟨?_, ?_, ?_⟩
      · intro c hc
        simp only [hcl] at hc
        rcases List.mem_append.mp hc with hc | hc
        · exact hall c hc
        · have hca : c = ans := by simpa using hc
          rw [hca, ha]
      · simp [do_nfs41_close, ha]
      · simp only [hlr]
        exact hrm
    · right
      refine ⟨close_statuses r.trace, ans, ?_, hall, ha, ?_⟩
      · simp only [hcl]
      · simp [do_nfs41_close, ha]
  · simp only [hd]
    apply handle_close_out_rule w2e hmap
    left
    exact ⟨hall, hs, hrm⟩

/-- The rule of `handle_close_out_rule` holds after the REMOVE loop, entered
with no failed CLOSE so far. -/
theorem handle_close_retry_delete_rule (w2e : Int → Int → Int)
    (hmap : ∀ s : Int, s ≠ 0 → w2e s ERROR_INTERNAL_ERROR ≠ 0)
    (remove_answers : List Int) :
    ∀ (close_answers : List Int) (r : close_run),
      (∀ c ∈ close_statuses r.trace, c = 0) → r.status = 0 →
      (∀ c ∈ close_statuses
          (handle_close_retry_delete w2e remove_answers close_answers r).trace, c ≠ 0 →
        (handle_close_retry_delete w2e remove_answers close_answers r).status
          = w2e c ERROR_INTERNAL_ERROR) ∧
      ((∀ c ∈ close_statuses
          (handle_close_retry_delete w2e remove_answers close_answers r).trace, c = 0) →
        (handle_close_retry_delete w2e remove_answers close_answers r).status
          = last_remove_mapped w2e
              (handle_close_retry_delete w2e remove_answers close_answers r).trace) := by
  have hcl : ∀ (t : List call) (a : Int),
      close_statuses (t ++ [call.nfs41_remove a]) = close_statuses t := by
    intro t a
    rw [close_statuses_append]
    simp [close_statuses]
  have hlr : ∀ (t : List call) (a : Int),
      last_remove_mapped w2e (t ++ [call.nfs41_remove a])
        = if a = 0 then 0 else w2e a ERROR_INTERNAL_ERROR := by
    intro t a
    unfold last_remove_mapped
    rw [remove_statuses_append]
    simp [remove_statuses]
  induction remove_answers with
  | nil =>
    intro close_answers r hall hs
    unfold handle_close_retry_delete
    apply handle_close_finish_rule w2e hmap
    · simp only [hcl]
      exact hall
    · exact hs
    · simp only [hlr]
      rfl
  | cons rm rest ih =>
    intro close_answers r hall hs
    unfold handle_close_retry_delete
    simp only []
    by_cases hrm : rm = 0
    · simp only [hrm, ne_eq, not_true_eq_false, if_false]
      apply handle_close_finish_rule w2e hmap
      · simp only [hcl]
        exact hall
      · exact hs
      · simp only [hlr]
        rfl
    · simp only [hrm, ne_eq, not_false_eq_true, if_true]
      by_cases hfo : rm = NFS4ERR_FILE_OPEN
      · simp only [hfo, if_true]
        generalize close_answers.headD NFS4_OK = ans
        have hcl2 : close_statuses
            (r.trace ++ [call.nfs41_remove NFS4ERR_FILE_OPEN] ++
              [(do_nfs41_close w2e r.state ans).2]) = close_statuses r.trace ++ [ans] := by
          rw [close_statuses_append, hcl]
          simp [do_nfs41_close, close_statuses]
        by_cases ha : ans = 0
        · have hst : (do_nfs41_close w2e r.state ans).1 = 0 := by
            simp [do_nfs41_close, ha]
          simp only [hst, if_true]
          apply ih
          · intro c hc
            simp only [hcl2] at hc
            rcases List.mem_append.mp hc with hc | hc
            · exact hall c hc
            · have hca : c = ans := by simpa using hc
              rw [hca, ha]
          · rfl
        · have hst : (do_nfs41_close w2e r.state ans).1 = w2e ans ERROR_INTERNAL_ERROR := by
            simp [do_nfs41_close, ha]
          have hne : (do_nfs41_close w2e r.state ans).1 ≠ 0 := by
            rw [hst]
            exact hmap ans ha
          simp only [hne, if_false]
          apply handle_close_out_rule w2e hmap
          right
          exact ⟨close_statuses r.trace, ans, hcl2, hall, ha, hst⟩
      · simp only [hfo, if_false]
        apply handle_close_finish_rule w2e hmap
        · simp only [hcl]
          exact hall
        · exact hs
        · simp only [hlr, hrm, if_false]

/-- The rule of `handle_close_out_rule` holds for `handle_close`. -/
theorem handle_close_rule (w2e : Int → Int → Int)
    (hmap : ∀ s : Int, s ≠ 0 → w2e s ERROR_INTERNAL_ERROR ≠ 0)
    (state : nfs41_open_state) (args : close_upcall_args)
    (remove_answers close_answers : List Int) :
    (∀ c ∈ close_statuses (handle_close w2e state args remove_answers close_answers).trace,
      c ≠ 0 → (handle_close w2e state args remove_answers close_answers).status
        = w2e c ERROR_INTERNAL_ERROR) ∧
    ((∀ c ∈ close_statuses (handle_close w2e state args remove_answers close_answers).trace,
        c = 0) →
      (handle_close w2e state args remove_answers close_answers).status
        = last_remove_mapped w2e
            (handle_close w2e state args remove_answers close_answers).trace) := by
  unfold handle_close
  simp only []
  -- the two optional calls before the REMOVE / CLOSE part
  generalize hr0 : (if state.srv_open = args.srv_open then
      ({ (if state.type = NF4REG then
            ({ status := NFS4_OK, rm_status := NFS4_OK, state := state,
               trace := [] ++ [call.pnfs_layout_state_close] } : close_run)
          else { status := NFS4_OK, rm_status := NFS4_OK, state := state, trace := [] }) with
          trace := (if state.type = NF4REG then
            ({ status := NFS4_OK, rm_status := NFS4_OK, state := state,
               trace := [] ++ [call.pnfs_layout_state_close] } : close_run)
          else { status := NFS4_OK, rm_status := NFS4_OK, state := state, trace := [] }).trace
            ++ [call.nfs41_delegation_remove_srvopen] } : close_run)
    else (if state.type = NF4REG then
            ({ status := NFS4_OK, rm_status := NFS4_OK, state := state,
               trace := [] ++ [call.pnfs_layout_state_close] } : close_run)
          else { status := NFS4_OK, rm_status := NFS4_OK, state := state, trace := [] })) = r0
  have h0 : close_statuses r0.trace = [] ∧ remove_statuses r0.trace = [] ∧
      r0.status = 0 ∧ r0.rm_status = 0 := by
    rw [← hr0]
    split_ifs <;> simp [close_statuses, remove_statuses]
  obtain ⟨hc0, hrm0, hs0, hrs0⟩ := h0
  have hall0 : ∀ c ∈ close_statuses r0.trace, c = 0 := by
    intro c hc
    rw [hc0] at hc
    simp at hc
  have hlr0 : last_remove_mapped w2e r0.trace = 0 := by
    unfold last_remove_mapped
    rw [hrm0]
    rfl
  by_cases hrem : args.remove = true
  · simp only [hrem, if_true]
    by_cases hren : args.renamed = true
    · simp only [hren, if_true]
      generalize close_answers.headD NFS4_OK = ans
      have hcl : close_statuses (r0.trace ++ [call.create_silly_rename] ++
          [(do_nfs41_close w2e r0.state ans).2]) = [ans] := by
        rw [close_statuses_append, close_statuses_append, hc0]
        simp [do_nfs41_close, close_statuses]
      by_cases ha : ans = 0
      · have hst : (do_nfs41_close w2e r0.state ans).1 = 0 := by
          simp [do_nfs41_close, ha]
        simp only [hst, ne_eq, not_true_eq_false, if_false]
        apply handle_close_retry_delete_rule w2e hmap
        · intro c hc
          simp only [close_statuses_append] at hc
          simp only [close_statuses_append] at hcl
          rw [hcl] at hc
          simp [close_statuses] at hc
          rw [hc, ha]
        · rfl
      · have hst : (do_nfs41_close w2e r0.state ans).1 = w2e ans ERROR_INTERNAL_ERROR := by
          simp [do_nfs41_close, ha]
        have hne : (do_nfs41_close w2e r0.state ans).1 ≠ 0 := by
          rw [hst]
          exact hmap ans ha
        simp only [hne, ne_eq, not_false_eq_true, if_true]
        apply handle_close_out_rule w2e hmap
        right
        exact ⟨[], ans, hcl, by simp, ha, hst⟩
    · simp only [hren]
      apply handle_close_retry_delete_rule w2e hmap
      · intro c hc
        rw [close_statuses_append, hc0] at hc
        simp [close_statuses] at hc
      · exact hs0
  · simp only [hrem]
    apply handle_close_finish_rule w2e hmap _ _ hall0 hs0
    rw [hlr0]
    exact hrs0

/-- The head of a list of answers is its answer number 0. -/
theorem headD_eq_getD_zero (l : List Int) (d : Int) : l.headD d = l.getD 0 d := by
  cases l <;> rfl

/-- Answer number `i` of the tail is answer number `i + 1`. -/
theorem tail_getD (l : List Int) (i : Nat) (d : Int) : l.tail.getD i d = l.getD (i + 1) d := by
  cases l <;> simp

/-- The label `out:` of `handle_close`: the call it adds and the status it
chooses. -/
theorem handle_close_out_answers (r : close_run) :
    (handle_close_out r).trace = r.trace ++ [call.client_state_remove] ∧
    (r.status = 0 → (handle_close_out r).status = r.rm_status) ∧
    (r.status ≠ 0 → (handle_close_out r).status = r.status) := by
  unfold handle_close_out
  simp only []
  refine ⟨?_, ?_, ?_⟩
  · split_ifs <;> rfl
  · intro hs
    by_cases hz : r.rm_status = 0
    · simp [hs, hz]
    · simp [hs, hz]
  · intro hs
    simp [hs]

/-- The end of `handle_close`, entered with status 0, in terms of the answer of
the next CLOSE: the statuses of the CLOSE and REMOVE calls made and the status
returned. -/
theorem handle_close_finish_answers (w2e : Int → Int → Int)
    (hmap : ∀ s : Int, s ≠ 0 → w2e s ERROR_INTERNAL_ERROR ≠ 0)
    (close_answers : List Int) (r : close_run) (hs : r.status = 0) :
    remove_statuses (handle_close_finish w2e close_answers r).trace
      = remove_statuses r.trace ∧
    (r.state.do_close = true →
      close_statuses (handle_close_finish w2e close_answers r).trace
        = close_statuses r.trace ++ [close_answers.getD 0 0] ∧
      (handle_close_finish w2e close_answers r).status
        = if close_answers.getD 0 0 ≠ 0
          then w2e (close_answers.getD 0 0) ERROR_INTERNAL_ERROR else r.rm_status) ∧
    (r.state.do_close = false →
      close_statuses (handle_close_finish w2e close_answers r).trace
        = close_statuses r.trace ∧
      (handle_close_finish w2e close_answers r).status = r.rm_status) := by
  unfold handle_close_finish
  by_cases hd : r.state.do_close = true
  · simp only [hd, if_true]
    rw [headD_eq_getD_zero]
    generalize close_answers.getD 0 0 = ans
    refine ⟨?_, fun _ => ⟨?_, ?_⟩, fun h => by simp at h⟩
    · rw [(handle_close_out_answers _).1, remove_statuses_append, remove_statuses_append]
      simp [do_nfs41_close, remove_statuses]
    · rw [(handle_close_out_answers _).1, close_statuses_append, close_statuses_append]
      simp [do_nfs41_close, close_statuses]
    · by_cases ha : ans = 0
      · rw [(handle_close_out_answers _).2.1 (by simp [do_nfs41_close, ha])]
        simp [ha]
      · rw [(handle_close_out_answers _).2.2
          (by simpa [do_nfs41_close, ha] using hmap ans ha)]
        simp [do_nfs41_close, ha]
  · rw [if_neg hd]
    refine ⟨?_, fun h => absurd h hd, fun _ => ⟨?_, ?_⟩⟩
    · rw [(handle_close_out_answers _).1, remove_statuses_append]
      simp [remove_statuses]
    · rw [(handle_close_out_answers _).1, close_statuses_append]
      simp [close_statuses]
    · exact (handle_close_out_answers _).2.1 hs

/-- The REMOVE loop of `handle_close`, entered with status 0, in terms of the
answers: `k` REMOVEs answer `NFS4ERR_FILE_OPEN` and are each followed by a
successful CLOSE; then either the next REMOVE answers `NFS4ERR_FILE_OPEN` again
and the CLOSE that follows fails, or the next REMOVE answers something else and
the function ends with the final CLOSE, made only when `do_close` is still
set. -/
theorem handle_close_retry_delete_answers (w2e : Int → Int → Int)
    (hmap : ∀ s : Int, s ≠ 0 → w2e s ERROR_INTERNAL_ERROR ≠ 0)
    (remove_answers : List Int) :
    ∀ (close_answers : List Int) (r : close_run), r.status = 0 →
      ∃ k : Nat,
        (∀ i, i < k → remove_answers.getD i 0 = NFS4ERR_FILE_OPEN ∧
          close_answers.getD i 0 = 0) ∧
        (remove_answers.getD k 0 = NFS4ERR_FILE_OPEN →
          close_answers.getD k 0 ≠ 0 ∧
          (handle_close_retry_delete w2e remove_answers close_answers r).status
            = w2e (close_answers.getD k 0) ERROR_INTERNAL_ERROR ∧
          remove_statuses (handle_close_retry_delete w2e remove_answers close_answers r).trace
            = remove_statuses r.trace ++ List.replicate (k + 1) NFS4ERR_FILE_OPEN ∧
          close_statuses (handle_close_retry_delete w2e remove_answers close_answers r).trace
            = close_statuses r.trace ++ List.replicate k 0 ++ [close_answers.getD k 0]) ∧
        (remove_answers.getD k 0 ≠ NFS4ERR_FILE_OPEN →
          remove_statuses (handle_close_retry_delete w2e remove_answers close_answers r).trace
            = remove_statuses r.trace ++ List.replicate k NFS4ERR_FILE_OPEN
                ++ [remove_answers.getD k 0] ∧
          (k = 0 ∧ r.state.do_close = true →
            close_statuses
                (handle_close_retry_delete w2e remove_answers close_answers r).trace
              = close_statuses r.trace ++ [close_answers.getD 0 0] ∧
            (handle_close_retry_delete w2e remove_answers close_answers r).status
              = if close_answers.getD 0 0 ≠ 0
                then w2e (close_answers.getD 0 0) ERROR_INTERNAL_ERROR
                else host_mapped w2e (remove_answers.getD 0 0)) ∧
          (¬ (k = 0 ∧ r.state.do_close = true) →
            close_statuses
                (handle_close_retry_delete w2e remove_answers close_answers r).trace
              = close_statuses r.trace ++ List.replicate k 0 ∧
            (handle_close_retry_delete w2e remove_answers close_answers r).status
              = host_mapped w2e (remove_answers.getD k 0))) := by
  have hfo : (0 : Int) ≠ NFS4ERR_FILE_OPEN := by decide
  -- a REMOVE answer other than `NFS4ERR_FILE_OPEN` ends the loop
  have hlast : ∀ (close_answers : List Int) (r : close_run) (rm : Int), r.status = 0 →
      remove_statuses (handle_close_finish w2e close_answers
          { r with rm_status := host_mapped w2e rm,
                   trace := r.trace ++ [call.nfs41_remove rm] }).trace
        = remove_statuses r.trace ++ [rm] ∧
      (r.state.do_close = true →
        close_statuses (handle_close_finish w2e close_answers
            { r with rm_status := host_mapped w2e rm,
                     trace := r.trace ++ [call.nfs41_remove rm] }).trace
          = close_statuses r.trace ++ [close_answers.getD 0 0] ∧
        (handle_close_finish w2e close_answers
            { r with rm_status := host_mapped w2e rm,
                     trace := r.trace ++ [call.nfs41_remove rm] }).status
          = if close_answers.getD 0 0 ≠ 0
            then w2e (close_answers.getD 0 0) ERROR_INTERNAL_ERROR
            else host_mapped w2e rm) ∧
      (r.state.do_close = false →
        close_statuses (handle_close_finish w2e close_answers
            { r with rm_status := host_mapped w2e rm,
                     trace := r.trace ++ [call.nfs41_remove rm] }).trace
          = close_statuses r.trace ∧
        (handle_close_finish w2e close_answers
            { r with rm_status := host_mapped w2e rm,
                     trace := r.trace ++ [call.nfs41_remove rm] }).status
          = host_mapped w2e rm) := by
    intro close_answers r rm hs
    obtain ⟨h1, h2, h3⟩ := handle_close_finish_answers w2e hmap close_answers
      { r with rm_status := host_mapped w2e rm,
               trace := r.trace ++ [call.nfs41_remove rm] } hs
    refine ⟨?_, fun hd => ?_, fun hd => ?_⟩
    · rw [h1, remove_statuses_append]
      simp [remove_statuses]
    · obtain ⟨h4, h5⟩ := h2 hd
      refine ⟨?_, h5⟩
      rw [h4, close_statuses_append]
      simp [close_statuses]
    · obtain ⟨h4, h5⟩ := h3 hd
      refine ⟨?_, h5⟩
      rw [h4, close_statuses_append]
      simp [close_statuses]
  -- the shape of the conclusion when the loop ends at its first REMOVE
  have hzero : ∀ (remove_answers close_answers : List Int) (r run : close_run),
      remove_answers.getD 0 0 ≠ NFS4ERR_FILE_OPEN →
      remove_statuses run.trace = remove_statuses r.trace ++ [remove_answers.getD 0 0] →
      (r.state.do_close = true →
        close_statuses run.trace = close_statuses r.trace ++ [close_answers.getD 0 0] ∧
        run.status = if close_answers.getD 0 0 ≠ 0
          then w2e (close_answers.getD 0 0) ERROR_INTERNAL_ERROR
          else host_mapped w2e (remove_answers.getD 0 0)) →
      (r.state.do_close = false →
        close_statuses run.trace = close_statuses r.trace ∧
        run.status = host_mapped w2e (remove_answers.getD 0 0)) →
      ∃ k : Nat,
        (∀ i, i < k → remove_answers.getD i 0 = NFS4ERR_FILE_OPEN ∧
          close_answers.getD i 0 = 0) ∧
        (remove_answers.getD k 0 = NFS4ERR_FILE_OPEN →
          close_answers.getD k 0 ≠ 0 ∧
          run.status = w2e (close_answers.getD k 0) ERROR_INTERNAL_ERROR ∧
          remove_statuses run.trace
            = remove_statuses r.trace ++ List.replicate (k + 1) NFS4ERR_FILE_OPEN ∧
          close_statuses run.trace
            = close_statuses r.trace ++ List.replicate k 0 ++ [close_answers.getD k 0]) ∧
        (remove_answers.getD k 0 ≠ NFS4ERR_FILE_OPEN →
          remove_statuses run.trace
            = remove_statuses r.trace ++ List.replicate k NFS4ERR_FILE_OPEN
                ++ [remove_answers.getD k 0] ∧
          (k = 0 ∧ r.state.do_close = true →
            close_statuses run.trace = close_statuses r.trace ++ [close_answers.getD 0 0] ∧
            run.status = if close_answers.getD 0 0 ≠ 0
              then w2e (close_answers.getD 0 0) ERROR_INTERNAL_ERROR
              else host_mapped w2e (remove_answers.getD 0 0)) ∧
          (¬ (k = 0 ∧ r.state.do_close = true) →
            close_statuses run.trace = close_statuses r.trace ++ List.replicate k 0 ∧
            run.status = host_mapped w2e (remove_answers.getD k 0))) := by
    intro remove_answers close_answers r run hne hrm hd1 hd0
    refine ⟨0, fun i hi => absurd hi (Nat.not_lt_zero i), fun h => absurd h hne,
      fun _ => ⟨by simpa using hrm, fun h => hd1 h.2, fun h => ?_⟩⟩
    have hd : r.state.do_close = false := by
      cases hdc : r.state.do_close
      · rfl
      · exact absurd ⟨rfl, hdc⟩ h
    simpa using hd0 hd
  induction remove_answers with
  | nil =>
    intro close_answers r hs
    unfold handle_close_retry_delete
    obtain ⟨h1, h2, h3⟩ := hlast close_answers r 0 hs
    have hm : host_mapped w2e 0 = NFS4_OK := by simp [host_mapped]
    rw [hm] at h1 h2 h3
    exact hzero [] close_answers r _ (by simp) (by simpa using h1)
      (by simpa [hm] using h2) (by simpa [hm] using h3)
  | cons rm rest ih =>
    intro close_answers r hs
    unfold handle_close_retry_delete
    simp only []
    by_cases hrm : rm = 0
    · simp only [hrm, ne_eq, not_true_eq_false, if_false]
      obtain ⟨h1, h2, h3⟩ := hlast close_answers r 0 hs
      have hm : host_mapped w2e 0 = 0 := by simp [host_mapped]
      rw [hm] at h1 h2 h3
      exact hzero (0 :: rest) close_answers r _ (by simp) (by simpa using h1)
        (by simpa [hm] using h2) (by simpa [hm] using h3)
    · simp only [hrm, ne_eq, not_false_eq_true, if_true]
      by_cases hf : rm = NFS4ERR_FILE_OPEN
      · simp only [hf, if_true]
        rw [headD_eq_getD_zero]
        obtain ⟨ans, hans⟩ : ∃ a, close_answers.getD 0 0 = a := ⟨_, rfl⟩
        rw [hans]
        have htr1 : remove_statuses (r.trace ++ [call.nfs41_remove NFS4ERR_FILE_OPEN] ++
            [(do_nfs41_close w2e r.state ans).2])
            = remove_statuses r.trace ++ [NFS4ERR_FILE_OPEN] := by
          rw [remove_statuses_append, remove_statuses_append]
          simp [do_nfs41_close, remove_statuses]
        have htr2 : close_statuses (r.trace ++ [call.nfs41_remove NFS4ERR_FILE_OPEN] ++
            [(do_nfs41_close w2e r.state ans).2])
            = close_statuses r.trace ++ [ans] := by
          rw [close_statuses_append, close_statuses_append]
          simp [do_nfs41_close, close_statuses]
        by_cases ha : ans = 0
        · have hst : (do_nfs41_close w2e r.state ans).1 = 0 := by
            simp [do_nfs41_close, ha]
          simp only [hst, if_true]
          obtain ⟨k, hk1, hk2, hk3⟩ := ih close_answers.tail
            { status := 0, rm_status := NFS4ERR_FILE_OPEN,
              state := { r.state with do_close := false },
              trace := r.trace ++ [call.nfs41_remove NFS4ERR_FILE_OPEN] ++
                [(do_nfs41_close w2e r.state ans).2] } rfl
          simp only [tail_getD, htr1, htr2] at hk1 hk2 hk3
          refine ⟨k + 1, ?_, ?_, ?_⟩
          · intro i hi
            cases i with
            | zero => exact ⟨rfl, by rw [hans, ha]⟩
            | succ j =>
              have := hk1 j (by omega)
              exact ⟨by simpa using this.1, this.2⟩
          · intro h
            have h' : rest.getD k 0 = NFS4ERR_FILE_OPEN := by simpa using h
            obtain ⟨a1, a2, a3, a4⟩ := hk2 h'
            refine ⟨a1, a2, ?_, ?_⟩
            · rw [a3, List.replicate_succ (n := k + 1)]
              simp
            · rw [a4, ha, List.replicate_succ (n := k)]
              simp
          · intro h
            have h' : rest.getD k 0 ≠ NFS4ERR_FILE_OPEN := by simpa using h
            obtain ⟨a1, _, a3⟩ := hk3 h'
            obtain ⟨a4, a5⟩ := a3 (by simp)
            refine ⟨?_, fun hc => absurd hc.1 (Nat.succ_ne_zero k), fun _ => ⟨?_, ?_⟩⟩
            · rw [a1, List.replicate_succ (n := k)]
              simp
            · rw [a4, ha, List.replicate_succ (n := k)]
              simp
            · simpa using a5
        · have hst : (do_nfs41_close w2e r.state ans).1 = w2e ans ERROR_INTERNAL_ERROR := by
            simp [do_nfs41_close, ha]
          have hne : (do_nfs41_close w2e r.state ans).1 ≠ 0 := by
            rw [hst]
            exact hmap _ ha
          simp only [hne, if_false]
          refine ⟨0, fun i hi => absurd hi (Nat.not_lt_zero i),
            fun _ => ⟨by rw [hans]; exact ha, ?_, ?_, ?_⟩, fun h => absurd (by simp) h⟩
          · rw [(handle_close_out_answers _).2.2 hne, hst, hans]
          · rw [(handle_close_out_answers _).1]
            simp only [remove_statuses_append, htr1]
            simp [remove_statuses]
          · rw [(handle_close_out_answers _).1]
            simp only [close_statuses_append, htr2, hans]
            simp [close_statuses]
      · simp only [hf, if_false]
        obtain ⟨h1, h2, h3⟩ := hlast close_answers r rm hs
        have hm : host_mapped w2e rm = w2e rm ERROR_INTERNAL_ERROR := by
          simp [host_mapped, hrm]
        rw [hm] at h1
        simp only [hm] at h2 h3
        exact hzero (rm :: rest) close_answers r _ (by simpa using hf) (by simpa using h1)
          (by simpa [hm] using h2) (by simpa [hm] using h3)

/-- The statuses of the CLOSE and REMOVE calls `handle_close` makes and the
status it returns, in terms of the answers of the collaborators. -/
theorem handle_close_answers (w2e : Int → Int → Int)
    (hmap : ∀ s : Int, s ≠ 0 → w2e s ERROR_INTERNAL_ERROR ≠ 0)
    (state : nfs41_open_state) (args : close_upcall_args)
    (remove_answers close_answers : List Int) :
    (args.remove = false →
      remove_statuses (handle_close w2e state args remove_answers close_answers).trace = [] ∧
      (state.do_close = true →
        close_statuses (handle_close w2e state args remove_answers close_answers).trace
          = [close_answers.getD 0 0] ∧
        (handle_close w2e state args remove_answers close_answers).status
          = host_mapped w2e (close_answers.getD 0 0)) ∧
      (state.do_close = false →
        close_statuses (handle_close w2e state args remove_answers close_answers).trace = [] ∧
        (handle_close w2e state args remove_answers close_answers).status = 0)) ∧
    (args.remove = true → args.renamed = true → close_answers.getD 0 0 ≠ 0 →
      remove_statuses (handle_close w2e state args remove_answers close_answers).trace = [] ∧
      close_statuses (handle_close w2e state args remove_answers close_answers).trace
        = [close_answers.getD 0 0] ∧
      (handle_close w2e state args remove_answers close_answers).status
        = w2e (close_answers.getD 0 0) ERROR_INTERNAL_ERROR) ∧
    (args.remove = true → args.renamed = true → close_answers.getD 0 0 = 0 →
      ∃ k : Nat,
        (∀ i, i < k → remove_answers.getD i 0 = NFS4ERR_FILE_OPEN ∧
          close_answers.getD (i + 1) 0 = 0) ∧
        (remove_answers.getD k 0 = NFS4ERR_FILE_OPEN →
          close_answers.getD (k + 1) 0 ≠ 0 ∧
          (handle_close w2e state args remove_answers close_answers).status
            = w2e (close_answers.getD (k + 1) 0) ERROR_INTERNAL_ERROR ∧
          remove_statuses (handle_close w2e state args remove_answers close_answers).trace
            = List.replicate (k + 1) NFS4ERR_FILE_OPEN ∧
          close_statuses (handle_close w2e state args remove_answers close_answers).trace
            = List.replicate (k + 1) 0 ++ [close_answers.getD (k + 1) 0]) ∧
        (remove_answers.getD k 0 ≠ NFS4ERR_FILE_OPEN →
          remove_statuses (handle_close w2e state args remove_answers close_answers).trace
            = List.replicate k NFS4ERR_FILE_OPEN ++ [remove_answers.getD k 0] ∧
          close_statuses (handle_close w2e state args remove_answers close_answers).trace
            = List.replicate (k + 1) 0 ∧
          (handle_close w2e state args remove_answers close_answers).status
            = host_mapped w2e (remove_answers.getD k 0))) ∧
    (args.remove = true → args.renamed = false →
      ∃ k : Nat,
        (∀ i, i < k → remove_answers.getD i 0 = NFS4ERR_FILE_OPEN ∧
          close_answers.getD i 0 = 0) ∧
        (remove_answers.getD k 0 = NFS4ERR_FILE_OPEN →
          close_answers.getD k 0 ≠ 0 ∧
          (handle_close w2e state args remove_answers close_answers).status
            = w2e (close_answers.getD k 0) ERROR_INTERNAL_ERROR ∧
          remove_statuses (handle_close w2e state args remove_answers close_answers).trace
            = List.replicate (k + 1) NFS4ERR_FILE_OPEN ∧
          close_statuses (handle_close w2e state args remove_answers close_answers).trace
            = List.replicate k 0 ++ [close_answers.getD k 0]) ∧
        (remove_answers.getD k 0 ≠ NFS4ERR_FILE_OPEN →
          remove_statuses (handle_close w2e state args remove_answers close_answers).trace
            = List.replicate k NFS4ERR_FILE_OPEN ++ [remove_answers.getD k 0] ∧
          (k = 0 ∧ state.do_close = true →
            close_statuses (handle_close w2e state args remove_answers close_answers).trace
              = [close_answers.getD 0 0] ∧
            (handle_close w2e state args remove_answers close_answers).status
              = if close_answers.getD 0 0 ≠ 0
                then w2e (close_answers.getD 0 0) ERROR_INTERNAL_ERROR
                else host_mapped w2e (remove_answers.getD 0 0)) ∧
          (¬ (k = 0 ∧ state.do_close = true) →
            close_statuses (handle_close w2e state args remove_answers close_answers).trace
              = List.replicate k 0 ∧
            (handle_close w2e state args remove_answers close_answers).status
              = host_mapped w2e (remove_answers.getD k 0)))) := by
  unfold handle_close
  simp only []
  generalize hr0 : (if state.srv_open = args.srv_open then
      ({ (if state.type = NF4REG then
            ({ status := NFS4_OK, rm_status := NFS4_OK, state := state,
               trace := [] ++ [call.pnfs_layout_state_close] } : close_run)
          else { status := NFS4_OK, rm_status := NFS4_OK, state := state, trace := [] }) with
          trace := (if state.type = NF4REG then
            ({ status := NFS4_OK, rm_status := NFS4_OK, state := state,
               trace := [] ++ [call.pnfs_layout_state_close] } : close_run)
          else { status := NFS4_OK, rm_status := NFS4_OK, state := state, trace := [] }).trace
            ++ [call.nfs41_delegation_remove_srvopen] } : close_run)
    else (if state.type = NF4REG then
            ({ status := NFS4_OK, rm_status := NFS4_OK, state := state,
               trace := [] ++ [call.pnfs_layout_state_close] } : close_run)
          else { status := NFS4_OK, rm_status := NFS4_OK, state := state, trace := [] })) = r0
  have h0 : close_statuses r0.trace = [] ∧ remove_statuses r0.trace = [] ∧
      r0.status = 0 ∧ r0.rm_status = 0 ∧ r0.state = state := by
    rw [← hr0]
    split_ifs <;> simp [close_statuses, remove_statuses]
  obtain ⟨hc0, hrm0, hs0, hrs0, hst0⟩ := h0
  refine ⟨?_, ?_, ?_, ?_⟩
  · intro hrem
    rw [if_neg (by simp [hrem])]
    obtain ⟨h1, h2, h3⟩ := handle_close_finish_answers w2e hmap close_answers r0 hs0
    rw [hrm0] at h1
    rw [hst0, hc0, hrs0] at h2 h3
    refine ⟨h1, fun hd => ?_, fun hd => ?_⟩
    · obtain ⟨h4, h5⟩ := h2 hd
      refine ⟨by simpa using h4, ?_⟩
      rw [h5]
      unfold host_mapped
      split_ifs <;> simp_all
    · obtain ⟨h4, h5⟩ := h3 hd
      exact ⟨h4, h5⟩
  · intro hrem hren hne
    simp only [hrem, hren, if_true]
    rw [headD_eq_getD_zero]
    obtain ⟨ans, hans⟩ : ∃ a, close_answers.getD 0 0 = a := ⟨_, rfl⟩
    rw [hans] at hne ⊢
    have hst : (do_nfs41_close w2e r0.state ans).1 = w2e ans ERROR_INTERNAL_ERROR := by
      simp [do_nfs41_close, hne]
    have hne2 : (do_nfs41_close w2e r0.state ans).1 ≠ 0 := by
      rw [hst]
      exact hmap _ hne
    simp only [hne2, ne_eq, not_false_eq_true, if_true]
    refine ⟨?_, ?_, ?_⟩
    · rw [(handle_close_out_answers _).1]
      simp only [remove_statuses_append, hrm0]
      simp [do_nfs41_close, remove_statuses]
    · rw [(handle_close_out_answers _).1]
      simp only [close_statuses_append, hc0]
      simp [do_nfs41_close, close_statuses]
    · rw [(handle_close_out_answers _).2.2 hne2, hst]
  · intro hrem hren hz
    simp only [hrem, hren, if_true]
    rw [headD_eq_getD_zero, hz]
    have hst : (do_nfs41_close w2e r0.state 0).1 = 0 := by
      simp [do_nfs41_close]
    simp only [hst, ne_eq, not_true_eq_false, if_false]
    obtain ⟨k, hk1, hk2, hk3⟩ := handle_close_retry_delete_answers w2e hmap remove_answers
      close_answers.tail
      { status := 0, rm_status := r0.rm_status,
        state := { r0.state with do_close := false },
        trace := r0.trace ++ [call.create_silly_rename] ++
          [(do_nfs41_close w2e r0.state 0).2] ++
          [call.nfs41_delegation_return OPEN_DELEGATE_WRITE] } rfl
    have htr1 : remove_statuses (r0.trace ++ [call.create_silly_rename] ++
        [(do_nfs41_close w2e r0.state 0).2] ++
        [call.nfs41_delegation_return OPEN_DELEGATE_WRITE]) = [] := by
      simp only [remove_statuses_append, hrm0]
      simp [do_nfs41_close, remove_statuses]
    have htr2 : close_statuses (r0.trace ++ [call.create_silly_rename] ++
        [(do_nfs41_close w2e r0.state 0).2] ++
        [call.nfs41_delegation_return OPEN_DELEGATE_WRITE]) = [0] := by
      simp only [close_statuses_append, hc0]
      simp [do_nfs41_close, close_statuses]
    simp only [tail_getD, htr1, htr2, List.nil_append] at hk1 hk2 hk3
    refine ⟨k, hk1, fun h => ?_, fun h => ?_⟩
    · obtain ⟨a1, a2, a3, a4⟩ := hk2 h
      refine ⟨a1, a2, a3, ?_⟩
      rw [a4, List.replicate_succ (n := k)]
      simp
    · obtain ⟨a1, _, a3⟩ := hk3 h
      obtain ⟨a4, a5⟩ := a3 (by simp)
      refine ⟨a1, ?_, a5⟩
      rw [a4, List.replicate_succ (n := k)]
      simp
  · intro hrem hren
    rw [if_pos hrem, if_neg (by simp [hren])]
    simp only [hst0]
    obtain ⟨k, hk1, hk2, hk3⟩ := handle_close_retry_delete_answers w2e hmap remove_answers
      close_answers
      { status := r0.status, rm_status := r0.rm_status, state := r0.state,
        trace := r0.trace ++ [call.nfs41_delegation_return OPEN_DELEGATE_WRITE] } hs0
    have htr1 : remove_statuses (r0.trace ++
        [call.nfs41_delegation_return OPEN_DELEGATE_WRITE]) = [] := by
      simp only [remove_statuses_append, hrm0]
      simp [remove_statuses]
    have htr2 : close_statuses (r0.trace ++
        [call.nfs41_delegation_return OPEN_DELEGATE_WRITE]) = [] := by
      simp only [close_statuses_append, hc0]
      simp [close_statuses]
    simp only [htr1, htr2, List.nil_append, hst0] at hk1 hk2 hk3
    exact ⟨k, hk1, hk2, hk3⟩

/-- C12: for every run of `handle_close` (every open state, upcall and answers
of REMOVE and CLOSE), given that the status mapping sends failures to
failures: if a CLOSE was attempted and failed, the returned status is the
(mapped) status of that CLOSE; otherwise it is the host-mapped status of the
last REMOVE attempt (0 when none was made); and the returned status is 0 only
if no CLOSE attempt failed and the last REMOVE attempt did not fail.  The
attempts and the returned status are given in terms of the answers of the
collaborators (answer number `i` of a list, 0 past its end):
without `remove` the only call is the CLOSE made when `do_close` is set, and
its mapped answer is returned; with `remove` and `renamed` a failed first CLOSE
is returned and no REMOVE is made; otherwise `k` REMOVEs answer
`NFS4ERR_FILE_OPEN`, each followed by a successful CLOSE, and then either the
next REMOVE answers `NFS4ERR_FILE_OPEN` and the failed CLOSE that follows is
returned, or the next REMOVE answers something else and the result is the
mapped answer of the final CLOSE if that CLOSE is made (`do_close` still set)
and fails, and the mapped answer of that last REMOVE otherwise. -/
theorem handle_close_status (w2e : Int → Int → Int)
    (hmap : ∀ s : Int, s ≠ 0 → w2e s ERROR_INTERNAL_ERROR ≠ 0)
    (state : nfs41_open_state) (args : close_upcall_args)
    (remove_answers close_answers : List Int) :
    (∀ c ∈ close_statuses (handle_close w2e state args remove_answers close_answers).trace,
      c ≠ 0 → (handle_close w2e state args remove_answers close_answers).status
        = w2e c ERROR_INTERNAL_ERROR) ∧
    ((∀ c ∈ close_statuses (handle_close w2e state args remove_answers close_answers).trace,
        c = 0) →
      (handle_close w2e state args remove_answers close_answers).status
        = last_remove_mapped w2e
            (handle_close w2e state args remove_answers close_answers).trace) ∧
    ((handle_close w2e state args remove_answers close_answers).status = 0 →
      (∀ c ∈ close_statuses
          (handle_close w2e state args remove_answers close_answers).trace, c = 0) ∧
      (∀ a, (remove_statuses
          (handle_close w2e state args remove_answers close_answers).trace).getLast?
            = some a → a = 0)) ∧
    (args.remove = false →
      remove_statuses (handle_close w2e state args remove_answers close_answers).trace = [] ∧
      (state.do_close = true →
        close_statuses (handle_close w2e state args remove_answers close_answers).trace
          = [close_answers.getD 0 0] ∧
        (handle_close w2e state args remove_answers close_answers).status
          = host_mapped w2e (close_answers.getD 0 0)) ∧
      (state.do_close = false →
        close_statuses (handle_close w2e state args remove_answers close_answers).trace = [] ∧
        (handle_close w2e state args remove_answers close_answers).status = 0)) ∧
    (args.remove = true → args.renamed = true → close_answers.getD 0 0 ≠ 0 →
      remove_statuses (handle_close w2e state args remove_answers close_answers).trace = [] ∧
      close_statuses (handle_close w2e state args remove_answers close_answers).trace
        = [close_answers.getD 0 0] ∧
      (handle_close w2e state args remove_answers close_answers).status
        = w2e (close_answers.getD 0 0) ERROR_INTERNAL_ERROR) ∧
    (args.remove = true → args.renamed = true → close_answers.getD 0 0 = 0 →
      ∃ k : Nat,
        (∀ i, i < k → remove_answers.getD i 0 = NFS4ERR_FILE_OPEN ∧
          close_answers.getD (i + 1) 0 = 0) ∧
        (remove_answers.getD k 0 = NFS4ERR_FILE_OPEN →
          close_answers.getD (k + 1) 0 ≠ 0 ∧
          (handle_close w2e state args remove_answers close_answers).status
            = w2e (close_answers.getD (k + 1) 0) ERROR_INTERNAL_ERROR ∧
          remove_statuses (handle_close w2e state args remove_answers close_answers).trace
            = List.replicate (k + 1) NFS4ERR_FILE_OPEN ∧
          close_statuses (handle_close w2e state args remove_answers close_answers).trace
            = List.replicate (k + 1) 0 ++ [close_answers.getD (k + 1) 0]) ∧
        (remove_answers.getD k 0 ≠ NFS4ERR_FILE_OPEN →
          remove_statuses (handle_close w2e state args remove_answers close_answers).trace
            = List.replicate k NFS4ERR_FILE_OPEN ++ [remove_answers.getD k 0] ∧
          close_statuses (handle_close w2e state args remove_answers close_answers).trace
            = List.replicate (k + 1) 0 ∧
          (handle_close w2e state args remove_answers close_answers).status
            = host_mapped w2e (remove_answers.getD k 0))) ∧
    (args.remove = true → args.renamed = false →
      ∃ k : Nat,
        (∀ i, i < k → remove_answers.getD i 0 = NFS4ERR_FILE_OPEN ∧
          close_answers.getD i 0 = 0) ∧
        (remove_answers.getD k 0 = NFS4ERR_FILE_OPEN →
          close_answers.getD k 0 ≠ 0 ∧
          (handle_close w2e state args remove_answers close_answers).status
            = w2e (close_answers.getD k 0) ERROR_INTERNAL_ERROR ∧
          remove_statuses (handle_close w2e state args remove_answers close_answers).trace
            = List.replicate (k + 1) NFS4ERR_FILE_OPEN ∧
          close_statuses (handle_close w2e state args remove_answers close_answers).trace
            = List.replicate k 0 ++ [close_answers.getD k 0]) ∧
        (remove_answers.getD k 0 ≠ NFS4ERR_FILE_OPEN →
          remove_statuses (handle_close w2e state args remove_answers close_answers).trace
            = List.replicate k NFS4ERR_FILE_OPEN ++ [remove_answers.getD k 0] ∧
          (k = 0 ∧ state.do_close = true →
            close_statuses (handle_close w2e state args remove_answers close_answers).trace
              = [close_answers.getD 0 0] ∧
            (handle_close w2e state args remove_answers close_answers).status
              = if close_answers.getD 0 0 ≠ 0
                then w2e (close_answers.getD 0 0) ERROR_INTERNAL_ERROR
                else host_mapped w2e (remove_answers.getD 0 0)) ∧
          (¬ (k = 0 ∧ state.do_close = true) →
            close_statuses (handle_close w2e state args remove_answers close_answers).trace
              = List.replicate k 0 ∧
            (handle_close w2e state args remove_answers close_answers).status
              = host_mapped w2e (remove_answers.getD k 0)))) := by
  obtain ⟨h1, h2⟩ := handle_close_rule w2e hmap state args remove_answers close_answers
  obtain ⟨a1, a2, a3, a4⟩ :=
    handle_close_answers w2e hmap state args remove_answers close_answers
  refine ⟨h1, h2, ?_, a1, a2, a3, a4⟩
  intro hz
  have hall : ∀ c ∈ close_statuses
      (handle_close w2e state args remove_answers close_answers).trace, c = 0 := by
    intro c hc
    by_contra hne
    have h := h1 c hc hne
    rw [hz] at h
    exact hmap c hne h.symm
  refine ⟨hall, ?_⟩
  intro a ha
  have h := h2 hall
  rw [hz] at h
  unfold last_remove_mapped at h
  rw [ha] at h
  by_contra hne
  simp only [hne, if_false] at h
  exact hmap a hne h.symm

/-- Witness of `handle_close_status`: a delete whose REMOVE fails with
`NFS4ERR_EXIST` (17) while the final CLOSE succeeds returns the status of the
REMOVE. -/
theorem handle_close_status_witness :
    (∀ s : Int, s ≠ 0 → example_nfs_to_windows_error s ERROR_INTERNAL_ERROR ≠ 0) ∧
    (handle_close example_nfs_to_windows_error open_file_state
        { remove := true, renamed := false, srv_open := 5 } [17] [0]).status = 17 ∧
    close_statuses (handle_close example_nfs_to_windows_error open_file_state
        { remove := true, renamed := false, srv_open := 5 } [17] [0]).trace = [0] ∧
    remove_statuses (handle_close example_nfs_to_windows_error open_file_state
        { remove := true, renamed := false, srv_open := 5 } [17] [0]).trace = [17] := by
  have hmap : ∀ s : Int, s ≠ 0 → example_nfs_to_windows_error s ERROR_INTERNAL_ERROR ≠ 0 := by
    intro s hs
    unfold example_nfs_to_windows_error
    split_ifs
    · decide
    · exact hs
  have hcl : close_statuses (handle_close example_nfs_to_windows_error open_file_state
      { remove := true, renamed := false, srv_open := 5 } [17] [0]).trace = [0] := by
    decide
  have hrm : remove_statuses (handle_close example_nfs_to_windows_error open_file_state
      { remove := true, renamed := false, srv_open := 5 } [17] [0]).trace = [17] := by
    decide
  have h := (handle_close_status example_nfs_to_windows_error hmap open_file_state
    { remove := true, renamed := false, srv_open := 5 } [17] [0]).2.1
    (by rw [hcl]; simp)
  refine ⟨hmap, ?_, hcl, hrm⟩
  rw [h]
  unfold last_remove_mapped
  rw [hrm]
  decide

/-- C13: for a CLOSE upcall with remove set and renamed clear on an open state
with `do_close` set, when the first REMOVE answers `NFS4ERR_FILE_OPEN` and the
following CLOSE and second REMOVE succeed, `handle_close` issues exactly one
CLOSE (of the open stateid, between the two REMOVEs) and exactly two REMOVEs,
clears `do_close`, sends no further CLOSE and returns success. -/
theorem handle_close_file_open_retry (w2e : Int → Int → Int)
    (state : nfs41_open_state) (args : close_upcall_args)
    (remove_answers close_answers : List Int)
    (hdc : state.do_close = true) (hrem : args.remove = true)
    (hren : args.renamed = false) :
    (handle_close w2e state args (NFS4ERR_FILE_OPEN :: NFS4_OK :: remove_answers)
        (NFS4_OK :: close_answers)).status = 0 ∧
    (handle_close w2e state args (NFS4ERR_FILE_OPEN :: NFS4_OK :: remove_answers)
        (NFS4_OK :: close_answers)).trace =
      handle_close_prologue state args ++
        [call.nfs41_delegation_return OPEN_DELEGATE_WRITE,
         call.nfs41_remove NFS4ERR_FILE_OPEN,
         call.nfs41_close stateid_type.STATEID_OPEN state.stateid true NFS4_OK,
         call.nfs41_remove NFS4_OK,
         call.client_state_remove] ∧
    close_statuses (handle_close w2e state args
        (NFS4ERR_FILE_OPEN :: NFS4_OK :: remove_answers) (NFS4_OK :: close_answers)).trace
      = [NFS4_OK] ∧
    remove_statuses (handle_close w2e state args
        (NFS4ERR_FILE_OPEN :: NFS4_OK :: remove_answers) (NFS4_OK :: close_answers)).trace
      = [NFS4ERR_FILE_OPEN, NFS4_OK] ∧
    (handle_close w2e state args (NFS4ERR_FILE_OPEN :: NFS4_OK :: remove_answers)
        (NFS4_OK :: close_answers)).state.do_close = false := by
  have htr : (handle_close w2e state args (NFS4ERR_FILE_OPEN :: NFS4_OK :: remove_answers)
        (NFS4_OK :: close_answers)) =
      { status := 0, rm_status := 0, state := { state with do_close := false },
        trace := handle_close_prologue state args ++
          [call.nfs41_delegation_return OPEN_DELEGATE_WRITE,
           call.nfs41_remove NFS4ERR_FILE_OPEN,
           call.nfs41_close stateid_type.STATEID_OPEN state.stateid true NFS4_OK,
           call.nfs41_remove NFS4_OK,
           call.client_state_remove] } := by
    unfold handle_close handle_close_prologue
    by_cases ht : state.type = NF4REG <;> by_cases hso : state.srv_open = args.srv_open <;>
      simp [handle_close_retry_delete, handle_close_finish, handle_close_out, do_nfs41_close,
        stateid4_cpy, hdc, hrem, hren, ht, hso]
  rw [htr]
  refine ⟨rfl, rfl, ?_, ?_, rfl⟩
  · simp only [close_statuses_append, handle_close_prologue]
    split_ifs <;> simp [close_statuses]
  · simp only [remove_statuses_append, handle_close_prologue]
    split_ifs <;> simp [remove_statuses]

/-- Witness of `handle_close_file_open_retry`: the delete of an open regular
file. -/
theorem handle_close_file_open_retry_witness :
    (handle_close example_nfs_to_windows_error open_file_state
        { remove := true, renamed := false, srv_open := 5 }
        [NFS4ERR_FILE_OPEN, NFS4_OK] [NFS4_OK]).status = 0 ∧
    (handle_close example_nfs_to_windows_error open_file_state
        { remove := true, renamed := false, srv_open := 5 }
        [NFS4ERR_FILE_OPEN, NFS4_OK] [NFS4_OK]).trace =
      [call.pnfs_layout_state_close, call.nfs41_delegation_remove_srvopen,
       call.nfs41_delegation_return OPEN_DELEGATE_WRITE,
       call.nfs41_remove NFS4ERR_FILE_OPEN,
       call.nfs41_close stateid_type.STATEID_OPEN open_file_state.stateid true NFS4_OK,
       call.nfs41_remove NFS4_OK,
       call.client_state_remove] :=
  ⟨(handle_close_file_open_retry example_nfs_to_windows_error open_file_state
      { remove := true, renamed := false, srv_open := 5 } [] [] rfl rfl rfl).1,
   (handle_close_file_open_retry example_nfs_to_windows_error open_file_state
      { remove := true, renamed := false, srv_open := 5 } [] [] rfl rfl rfl).2.1⟩

/-! ## Theorems: cancellation -/

/-- C14: `cancel_open` makes no call and touches no state when
`upcall->state_ref` is `NULL` or `INVALID_HANDLE_VALUE`.  Otherwise, if
`do_close` is set it issues exactly one CLOSE, with the current open stateid,
and no REMOVE; else if `created` is set it returns the write delegation and
then issues one REMOVE; else it issues no RPC; and in each of these cases it
then unlinks the state from the client's open list and drops exactly one
reference. -/
theorem cancel_open_calls (state_ref : state_ref_ptr) (created : Bool)
    (close_answer remove_answer : Int) :
    (state_ref = state_ref_ptr.NULL ∨ state_ref = state_ref_ptr.INVALID_HANDLE_VALUE →
      cancel_open state_ref created close_answer remove_answer
        = { trace := [], state := none, freed := false }) ∧
    (∀ state, state_ref = state_ref_ptr.ptr state →
      (state.do_close = true →
        (cancel_open state_ref created close_answer remove_answer).trace =
          [call.nfs41_close stateid_type.STATEID_OPEN state.stateid true close_answer,
           call.client_state_remove, call.nfs41_open_state_deref]) ∧
      (state.do_close = false → created = true →
        (cancel_open state_ref created close_answer remove_answer).trace =
          [call.nfs41_delegation_return OPEN_DELEGATE_WRITE,
           call.nfs41_remove remove_answer,
           call.client_state_remove, call.nfs41_open_state_deref]) ∧
      (state.do_close = false → created = false →
        (cancel_open state_ref created close_answer remove_answer).trace =
          [call.client_state_remove, call.nfs41_open_state_deref]) ∧
      (cancel_open state_ref created close_answer remove_answer).state
        = some { state with ref_count := state.ref_count - 1 } ∧
      ((cancel_open state_ref created close_answer remove_answer).freed = true ↔
        state.ref_count = 1)) := by
  constructor
  · rintro (rfl | rfl) <;> rfl
  · rintro state rfl
    refine ⟨?_, ?_, ?_, ?_, ?_⟩
    · intro hd
      simp [cancel_open, hd, stateid4_cpy]
    · intro hd hc
      simp [cancel_open, hd, hc]
    · intro hd hc
      simp [cancel_open, hd, hc]
    · simp [cancel_open, nfs41_open_state_deref]
    · simp only [cancel_open, nfs41_open_state_deref, decide_eq_true_eq]
      omega

/-- Witness of `cancel_open_calls`: cancelling the open of `open_file_state`
sends one CLOSE with its open stateid. -/
theorem cancel_open_calls_witness :
    (cancel_open (state_ref_ptr.ptr open_file_state) false 0 0).trace =
      [call.nfs41_close stateid_type.STATEID_OPEN open_file_state.stateid true 0,
       call.client_state_remove, call.nfs41_open_state_deref] :=
  ((cancel_open_calls (state_ref_ptr.ptr open_file_state) false 0 0).2
    open_file_state rfl).1 rfl

/-! ## Theorems: OPEN driver -/

/-- The reparse loop entered with `remaining` turns left: it resolves at most
`remaining` symlink targets, sends no OPEN or CREATE, takes no reference and
ends by releasing the state; when the answers of all remaining turns are
"target resolved, lookup returns REPARSE" it resolves exactly `remaining`
targets and fails with `ERROR_TOO_MANY_LINKS`. -/
theorem handle_open_reparse_bound (remaining : Nat) :
    ∀ (turns : List reparse_turn) (c : open_ctx),
      ((handle_open_reparse remaining turns c).trace.countP call.is_symlink_target
          ≤ c.trace.countP call.is_symlink_target + remaining) ∧
      ((handle_open_reparse remaining turns c).trace.countP call.is_open_or_create
          = c.trace.countP call.is_open_or_create) ∧
      ((handle_open_reparse remaining turns c).trace.countP call.is_ref
          = c.trace.countP call.is_ref) ∧
      ((handle_open_reparse remaining turns c).trace.countP call.is_deref
          = c.trace.countP call.is_deref + 1) ∧
      ((handle_open_reparse remaining turns c).trace.getLast?
          = some call.nfs41_open_state_deref) ∧
      ((handle_open_reparse remaining turns c).state_ref = c.state_ref) ∧
      ((handle_open_reparse remaining turns c).freed
          = decide (c.state.ref_count - 1 = 0)) ∧
      (remaining ≤ turns.length →
        (∀ t ∈ turns.take remaining,
          t.symlink_target = 0 ∧ t.lookup = (ERROR_REPARSE : Nat)) →
        (handle_open_reparse remaining turns c).status = (ERROR_TOO_MANY_LINKS : Nat) ∧
        (handle_open_reparse remaining turns c).trace.countP call.is_symlink_target
          = c.trace.countP call.is_symlink_target + remaining) := by
  induction remaining with
  | zero =>
    intro turns c
    simp [handle_open_reparse, handle_open_free, nfs41_open_state_deref,
      call.is_symlink_target, call.is_open_or_create, call.is_ref, call.is_deref]
  | succ n ih =>
    intro turns c
    -- the three ways a turn can go
    have hfail : (turns.headD {}).symlink_target ≠ 0 →
        handle_open_reparse (n + 1) turns c =
          handle_open_free
            { c with status := (turns.headD {}).symlink_target,
                     trace := c.trace ++
                       [call.nfs41_symlink_target (turns.headD {}).symlink_target] }
            (turns.headD {}).symlink_target := by
      intro h
      rw [handle_open_reparse]
      simp only [h, ne_eq, not_false_eq_true, if_true]
    have hnext : (turns.headD {}).symlink_target = 0 →
        (turns.headD {}).lookup = (ERROR_REPARSE : Nat) →
        ∃ c2 : open_ctx,
          handle_open_reparse (n + 1) turns c = handle_open_reparse n turns.tail c2 ∧
          c2.trace = c.trace ++
            [call.nfs41_symlink_target (turns.headD {}).symlink_target] ++
            [call.nfs41_lookup (turns.headD {}).lookup] ∧
          c2.state_ref = c.state_ref ∧ c2.state.ref_count = c.state.ref_count := by
      intro h1 h2
      rw [handle_open_reparse]
      simp only [h1, h2, ne_eq, not_true_eq_false, if_false, if_true]
      exact ⟨_, rfl, rfl, rfl, rfl⟩
    have hdone : (turns.headD {}).symlink_target = 0 →
        (turns.headD {}).lookup ≠ (ERROR_REPARSE : Nat) →
        ∃ (c3 : open_ctx) (st : Int),
          handle_open_reparse (n + 1) turns c = handle_open_free c3 st ∧
          c3.trace = c.trace ++
            [call.nfs41_symlink_target (turns.headD {}).symlink_target] ++
            [call.nfs41_lookup (turns.headD {}).lookup] ∧
          c3.state_ref = c.state_ref ∧ c3.state.ref_count = c.state.ref_count := by
      intro h1 h2
      rw [handle_open_reparse]
      simp only [h1, h2, ne_eq, not_true_eq_false, if_false]
      split_ifs
      · exact ⟨_, _, rfl, rfl, rfl, rfl⟩
      · exact ⟨_, _, rfl, rfl, rfl, rfl⟩
    by_cases hst : (turns.headD {}).symlink_target = 0
    · by_cases hlk : (turns.headD {}).lookup = (ERROR_REPARSE : Nat)
      · obtain ⟨c2, heq, htr, hsr, hrc⟩ := hnext hst hlk
        rw [heq]
        obtain ⟨h1, h2, h3, h4, h5, h6, h7, h8⟩ := ih turns.tail c2
        simp only [htr, hsr, hrc, List.countP_append, List.countP_cons, List.countP_nil,
          call.is_symlink_target, call.is_open_or_create, call.is_ref, call.is_deref,
          if_true, Bool.false_eq_true, if_false, Nat.add_zero, Nat.zero_add] at h1 h2 h3 h4 h6 h7 h8
        refine ⟨by omega, h2, h3, h4, h5, h6, h7, ?_⟩
        intro hlen hall
        cases turns with
        | nil => simp at hlen
        | cons t rest =>
          have hr := h8 (by simpa using hlen) (by
            intro x hx
            have hx2 : x ∈ List.take n rest := by simpa using hx
            exact hall x (by simp [List.take_succ_cons, hx2]))
          exact ⟨hr.1, by omega⟩
      · obtain ⟨c3, st, heq, htr, hsr, hrc⟩ := hdone hst hlk
        rw [heq]
        simp only [handle_open_free, nfs41_open_state_deref, htr, hsr, hrc,
          List.countP_append, List.countP_cons, List.countP_nil,
          call.is_symlink_target, call.is_open_or_create, call.is_ref, call.is_deref,
          if_true, Bool.false_eq_true, if_false, Nat.add_zero, Nat.zero_add]
        refine ⟨by omega, trivial, trivial, trivial, by simp, trivial, trivial, ?_⟩
        intro hlen hall
        cases turns with
        | nil => simp at hlen
        | cons t rest =>
          have := (hall t (by simp [List.take_succ_cons])).2
          exact absurd this hlk
    · rw [hfail hst]
      simp only [handle_open_free, nfs41_open_state_deref,
        List.countP_append, List.countP_cons, List.countP_nil,
        call.is_symlink_target, call.is_open_or_create, call.is_ref, call.is_deref,
        if_true, Bool.false_eq_true, if_false, Nat.add_zero, Nat.zero_add]
      refine ⟨by omega, trivial, trivial, trivial, by simp, trivial, trivial, ?_⟩
      intro hlen hall
      cases turns with
      | nil => simp at hlen
      | cons t rest =>
        have := (hall t (by simp [List.take_succ_cons])).1
        exact absurd this hst

/-- When the allocation succeeds and the path fits, `create_open_state`
produces a state, with `ref_count` 1, `do_close` clear and no delegation. -/
theorem create_open_state_some (NFS41_MAX_PATH_LEN : Nat) (path : List Nat)
    (open_owner_id : Nat) (hpath : strlen path < NFS41_MAX_PATH_LEN) :
    ∃ state, create_open_state NFS41_MAX_PATH_LEN none path open_owner_id
        = (NO_ERROR, some state) ∧
      state.ref_count = 1 ∧ state.do_close = false ∧ state.delegation.state = none := by
  have hlen : ¬ strlen path ≥ NFS41_MAX_PATH_LEN := not_le.mpr hpath
  simp only [create_open_state, hlen, if_false]
  exact ⟨_, rfl, rfl, rfl, rfl⟩

/-- When the initial lookup returns `ERROR_REPARSE`, `handle_open` is the
reparse loop started at depth 0 on a context that holds the created state and
the trace of the lookup. -/
theorem handle_open_reparse_entry (env : open_env) (args : open_upcall_args)
    (state_ref : state_ref_ptr) (last_error : Nat)
    (halloc : env.alloc_error = none)
    (hpath : strlen args.path < env.NFS41_MAX_PATH_LEN)
    (hlookup : env.lookup_status = (ERROR_REPARSE : Nat)) :
    ∃ c : open_ctx,
      handle_open env args state_ref last_error
        = handle_open_reparse env.NFS41_MAX_SYMLINK_DEPTH env.reparse c ∧
      c.trace = [call.nfs41_lookup env.lookup_status] ∧
      c.state_ref = state_ref ∧ c.state.ref_count = 1 := by
  obtain ⟨state, hst, hrc, _, _⟩ :=
    create_open_state_some env.NFS41_MAX_PATH_LEN args.path args.open_owner_id hpath
  unfold handle_open
  rw [halloc, hst]
  simp only [hlookup, if_true]
  exact ⟨_, rfl, rfl, rfl, hrc⟩

/-- C20: when the initial lookup of `handle_open` returns `ERROR_REPARSE`, then
for every behaviour of the lookup and symlink-target collaborators the run
ends after at most `NFS41_MAX_SYMLINK_DEPTH` (32 in the specification)
symlink-target resolutions,
without sending an OPEN or CREATE, and releases the state (one
`nfs41_open_state_deref`, the last call, which frees it; no second reference;
`upcall->state_ref` untouched); and if all these turns resolve their target and
the last re-lookup (the 32nd) still returns `ERROR_REPARSE`, the result is
`ERROR_TOO_MANY_LINKS` after exactly that many resolutions. -/
theorem handle_open_reparse_terminates (env : open_env) (args : open_upcall_args)
    (state_ref : state_ref_ptr) (last_error : Nat)
    (halloc : env.alloc_error = none)
    (hpath : strlen args.path < env.NFS41_MAX_PATH_LEN)
    (hlookup : env.lookup_status = (ERROR_REPARSE : Nat)) :
    (handle_open env args state_ref last_error).trace.countP call.is_symlink_target
      ≤ env.NFS41_MAX_SYMLINK_DEPTH ∧
    (handle_open env args state_ref last_error).trace.countP call.is_open_or_create = 0 ∧
    (handle_open env args state_ref last_error).trace.countP call.is_ref = 0 ∧
    (handle_open env args state_ref last_error).trace.countP call.is_deref = 1 ∧
    (handle_open env args state_ref last_error).trace.getLast?
      = some call.nfs41_open_state_deref ∧
    (handle_open env args state_ref last_error).state_ref = state_ref ∧
    (handle_open env args state_ref last_error).freed = true ∧
    (env.NFS41_MAX_SYMLINK_DEPTH ≤ env.reparse.length →
      (∀ t ∈ env.reparse.take env.NFS41_MAX_SYMLINK_DEPTH,
        t.symlink_target = 0 ∧ t.lookup = (ERROR_REPARSE : Nat)) →
      (handle_open env args state_ref last_error).status = (ERROR_TOO_MANY_LINKS : Nat) ∧
      (handle_open env args state_ref last_error).trace.countP call.is_symlink_target
        = env.NFS41_MAX_SYMLINK_DEPTH) := by
  obtain ⟨c, heq, htr, hsr, hrc⟩ :=
    handle_open_reparse_entry env args state_ref last_error halloc hpath hlookup
  rw [heq]
  obtain ⟨h1, h2, h3, h4, h5, h6, h7, h8⟩ :=
    handle_open_reparse_bound env.NFS41_MAX_SYMLINK_DEPTH env.reparse c
  simp only [htr, hsr, hrc, List.countP_cons, List.countP_nil,
    call.is_symlink_target, call.is_open_or_create, call.is_ref, call.is_deref,
    Bool.false_eq_true, if_false, Nat.add_zero, Nat.zero_add] at h1 h2 h3 h4 h6 h7 h8
  refine ⟨h1, h2, h3, h4, h5, h6, ?_, h8⟩
  rw [h7]
  decide

/-- Witness of `handle_open_reparse_terminates`: 32 links in a row give
`ERROR_TOO_MANY_LINKS` after 32 resolutions. -/
theorem handle_open_reparse_terminates_witness :
    (handle_open reparse_forever_env create_file_args
        state_ref_ptr.INVALID_HANDLE_VALUE 0).status = (ERROR_TOO_MANY_LINKS : Nat) ∧
    (handle_open reparse_forever_env create_file_args
        state_ref_ptr.INVALID_HANDLE_VALUE 0).trace.countP call.is_symlink_target
      = 32 :=
  (handle_open_reparse_terminates reparse_forever_env create_file_args
      state_ref_ptr.INVALID_HANDLE_VALUE 0 rfl (by decide) rfl).2.2.2.2.2.2.2
    (by decide) (by decide)

/-- C16, the code at the failing input: a `FILE_CREATE` open of an absent file
with an EA buffer, in which every RPC succeeds except `nfs41_ea_set`.
`handle_open` returns the non-zero status of the EA set, yet it has stored the
state to `upcall->state_ref`, taken the second reference (`ref_count` 2) and
never called `nfs41_open_state_deref`; the state keeps its open stateid
(`do_close` set). -/
theorem handle_open_ea_failure_keeps_state :
    (handle_open ea_failure_env { create_file_args with ea := true }
        state_ref_ptr.INVALID_HANDLE_VALUE 0).status = 13 ∧
    (handle_open ea_failure_env { create_file_args with ea := true }
        state_ref_ptr.INVALID_HANDLE_VALUE 0).trace =
      [call.nfs41_lookup 2, call.nfs41_delegate_open 10001,
       call.nfs41_open OPEN4_CREATE EXCLUSIVE4_1 OPEN4_SHARE_ACCESS_WRITE
         OPEN4_SHARE_DENY_BOTH 0,
       call.client_state_add, call.nfs41_ea_set 13, call.nfs41_open_state_ref] ∧
    (handle_open ea_failure_env { create_file_args with ea := true }
        state_ref_ptr.INVALID_HANDLE_VALUE 0).freed = false ∧
    (∃ state, (handle_open ea_failure_env { create_file_args with ea := true }
        state_ref_ptr.INVALID_HANDLE_VALUE 0).state_ref = state_ref_ptr.ptr state ∧
      state.ref_count = 2 ∧ state.do_close = true) := by
  refine ⟨by decide, by decide, by decide, ?_⟩
  exact ⟨_, rfl, by decide, by decide⟩

/-- C24: `check_execute_access` returns success (0) if and only if the ACCESS
call succeeded and either the server supports checking EXECUTE and grants
EXECUTE, or it does not support checking EXECUTE, supports checking READ and
grants READ; in every other case it returns `ERROR_ACCESS_DENIED`. -/
theorem check_execute_access_result (status : Int) (supported access : Nat) :
    (check_execute_access (status, supported, access) = 0 ↔
      status = 0 ∧
      ((has_any supported ACCESS4_EXECUTE ∧ has_any access ACCESS4_EXECUTE) ∨
       (¬ has_any supported ACCESS4_EXECUTE ∧ has_any supported ACCESS4_READ ∧
          has_any access ACCESS4_READ))) ∧
    (check_execute_access (status, supported, access) ≠ 0 →
      check_execute_access (status, supported, access) = (ERROR_ACCESS_DENIED : Nat)) := by
  unfold check_execute_access has_any
  simp only []
  by_cases hs : status = 0 <;>
    by_cases h1 : supported &&& ACCESS4_EXECUTE = 0 <;>
    by_cases h2 : supported &&& ACCESS4_READ = 0 <;>
    by_cases h3 : access &&& ACCESS4_READ = 0 <;>
    by_cases h4 : access &&& ACCESS4_EXECUTE = 0 <;>
    simp [hs, h1, h2, h3, h4]

/-- Witness of `check_execute_access_result`: a server that cannot check
EXECUTE but grants READ (supported = access = `ACCESS4_READ`). -/
theorem check_execute_access_result_witness :
    check_execute_access (0, ACCESS4_READ, ACCESS4_READ) = 0 :=
  (check_execute_access_result 0 ACCESS4_READ ACCESS4_READ).1.mpr
    ⟨rfl, Or.inr ⟨by decide, by decide, by decide⟩⟩

/-- C28: for each of the six dispositions and every object type, access mask,
share mode and lookup status for which `open_for_attributes` returns FALSE,
`map_access_2_allowdeny` assigns share_access: the output is one of BOTH, READ,
WRITE and READ | WANT_NO_DELEG, and it does not depend on the value share_access
had on entry. -/
theorem open_data_path_share_access (type access_mask access_mode disposition : Nat)
    (status : Int) (o : allowdeny_out) (hd : disposition ∈ dispositions)
    (hfa : open_for_attributes type access_mask disposition status = false) :
    (map_access_2_allowdeny access_mask access_mode disposition o).allow ∈
      [OPEN4_SHARE_ACCESS_BOTH, OPEN4_SHARE_ACCESS_READ, OPEN4_SHARE_ACCESS_WRITE,
       OPEN4_SHARE_ACCESS_READ ||| OPEN4_SHARE_ACCESS_WANT_NO_DELEG] ∧
    (∀ o2 : allowdeny_out,
      (map_access_2_allowdeny access_mask access_mode disposition o2).allow
        = (map_access_2_allowdeny access_mask access_mode disposition o).allow) := by
  have hkey : read_shaped access_mask ∨ write_shaped access_mask ∨
      disposition ∈ creating_dispositions := by
    simp only [dispositions, List.mem_cons, List.mem_singleton, List.not_mem_nil,
      or_false] at hd
    unfold open_for_attributes at hfa
    by_cases ht : type = NF4DIR
    · simp only [ht, if_true] at hfa
      right
      right
      simp only [creating_dispositions, List.mem_cons, List.mem_singleton,
        List.not_mem_nil, or_false]
      rcases hd with rfl | rfl | rfl | rfl | rfl | rfl <;> simp at hfa ⊢
    · simp only [ht, if_false] at hfa
      by_cases hc : disposition ∈ creating_dispositions
      · exact Or.inr (Or.inr hc)
      · simp only [creating_dispositions, List.mem_cons, List.mem_singleton,
          List.not_mem_nil, or_false, not_or] at hc
        obtain ⟨c1, c2, c3, c4, c5⟩ := hc
        simp only [c1, c2, c3, c4, c5, or_false] at hfa
        unfold read_shaped write_shaped
        by_cases r1 : has_any access_mask FILE_READ_DATA
        · exact Or.inl (Or.inl r1)
        · by_cases r2 : has_any access_mask FILE_EXECUTE
          · exact Or.inl (Or.inr r2)
          · by_cases w1 : has_any access_mask FILE_WRITE_DATA
            · exact Or.inr (Or.inl (Or.inl w1))
            · by_cases w2 : has_any access_mask FILE_APPEND_DATA
              · exact Or.inr (Or.inl (Or.inr (Or.inl w2)))
              · simp [r1, r2, w1, w2] at hfa
  constructor
  · rw [map_access_allow_eq]
    by_cases hr : read_shaped access_mask <;> by_cases hw : write_shaped access_mask <;>
      by_cases hc : disposition ∈ creating_dispositions <;>
      simp [hr, hw, hc]
    exact absurd hkey (by simp [hr, hw, hc])
  · intro o2
    rw [map_access_allow_eq, map_access_allow_eq]
    by_cases hr : read_shaped access_mask <;> by_cases hw : write_shaped access_mask <;>
      by_cases hc : disposition ∈ creating_dispositions <;>
      simp [hr, hw, hc]
    exact absurd hkey (by simp [hr, hw, hc])

/-- Witness of `open_data_path_share_access`: a `FILE_OPEN_IF` open of a regular
file asking only for `SYNCHRONIZE`. -/
theorem open_data_path_share_access_witness :
    open_for_attributes NF4REG 0x100000 FILE_OPEN_IF 0 = false ∧
    (map_access_2_allowdeny 0x100000 0 FILE_OPEN_IF ⟨77, 0⟩).allow ∈
      [OPEN4_SHARE_ACCESS_BOTH, OPEN4_SHARE_ACCESS_READ, OPEN4_SHARE_ACCESS_WRITE,
       OPEN4_SHARE_ACCESS_READ ||| OPEN4_SHARE_ACCESS_WANT_NO_DELEG] :=
  ⟨by decide,
   (open_data_path_share_access NF4REG 0x100000 0 FILE_OPEN_IF 0 ⟨77, 0⟩
      (by decide) (by decide)).1⟩

/-! ## Theorems: the recently-deleted ring -/

theorem debug_ptr_add_all_cons (d : ptr_recently_deleted_data) (q : Nat) (qs : List Nat) :
    debug_ptr_add_all d (q :: qs) = debug_ptr_add_all (debug_ptr_add_recently_deleted d q) qs :=
  rfl

theorem debug_ptr_add_index_mod (d : ptr_recently_deleted_data) (q t : Nat) :
    ((debug_ptr_add_recently_deleted d q).deleted_index + t) % NUM_RECENTLY_DELETED
      = (d.deleted_index + (t + 1)) % NUM_RECENTLY_DELETED := by
  simp only [debug_ptr_add_recently_deleted, NUM_RECENTLY_DELETED]
  omega

/-- A slot that none of the adds writes keeps its pointer. -/
theorem debug_ptr_add_all_unwritten (qs : List Nat) :
    ∀ (d : ptr_recently_deleted_data) (j : Nat),
      (∀ t, t < qs.length → (d.deleted_index + t) % NUM_RECENTLY_DELETED ≠ j) →
      (debug_ptr_add_all d qs).deleted_ptrs j = d.deleted_ptrs j := by
  induction qs with
  | nil => intro d j _; rfl
  | cons q rest ih =>
    intro d j h
    rw [debug_ptr_add_all_cons, ih]
    · have h0 := h 0 (by simp)
      simp only [Nat.add_zero] at h0
      simp only [debug_ptr_add_recently_deleted]
      rw [if_neg (fun e => h0 e.symm)]
    · intro t ht
      rw [debug_ptr_add_index_mod]
      exact h (t + 1) (by simpa using ht)

/-- After a sequence of adds a slot holds one of the added pointers, or it was
never written and holds what it held before. -/
theorem debug_ptr_add_all_slot (qs : List Nat) :
    ∀ (d : ptr_recently_deleted_data) (j : Nat),
      (debug_ptr_add_all d qs).deleted_ptrs j ∈ qs ∨
      ((debug_ptr_add_all d qs).deleted_ptrs j = d.deleted_ptrs j ∧
        ∀ t, t < qs.length → (d.deleted_index + t) % NUM_RECENTLY_DELETED ≠ j) := by
  induction qs with
  | nil => intro d j; exact Or.inr ⟨rfl, fun t ht => absurd ht (by simp)⟩
  | cons q rest ih =>
    intro d j
    rw [debug_ptr_add_all_cons]
    rcases ih (debug_ptr_add_recently_deleted d q) j with h | ⟨h1, h2⟩
    · exact Or.inl (List.mem_cons_of_mem _ h)
    · by_cases hj : j = d.deleted_index % NUM_RECENTLY_DELETED
      · left
        rw [h1]
        simp only [debug_ptr_add_recently_deleted]
        rw [if_pos hj]
        exact List.mem_cons_self _ _
      · right
        refine ⟨?_, ?_⟩
        · rw [h1]
          simp only [debug_ptr_add_recently_deleted]
          rw [if_neg hj]
        · intro t ht
          cases t with
          | zero => exact fun e => hj (by simpa using e.symm)
          | succ s =>
            have := h2 s (by simpa using ht)
            rwa [debug_ptr_add_index_mod] at this

theorem debug_ptr_was_recently_deleted_iff (d : ptr_recently_deleted_data) (p : Nat) :
    debug_ptr_was_recently_deleted d p = true ↔
      ∃ j, j < NUM_RECENTLY_DELETED ∧ d.deleted_ptrs j = p := by
  simp [debug_ptr_was_recently_deleted, List.any_eq_true]

/-- C25: after `debug_ptr_add_recently_deleted(p)` on any ring,
`debug_ptr_was_recently_deleted(p)` returns true as long as fewer than 128
further pointers have been added, and it returns false once 128 or more further
pointers, all different from `p`, have been added. -/
theorem recently_deleted_window (d : ptr_recently_deleted_data) (p : Nat) (qs : List Nat) :
    (qs.length < NUM_RECENTLY_DELETED →
      debug_ptr_was_recently_deleted
        (debug_ptr_add_all (debug_ptr_add_recently_deleted d p) qs) p = true) ∧
    (NUM_RECENTLY_DELETED ≤ qs.length → (∀ q ∈ qs, q ≠ p) →
      debug_ptr_was_recently_deleted
        (debug_ptr_add_all (debug_ptr_add_recently_deleted d p) qs) p = false) := by
  constructor
  · intro hlen
    rw [debug_ptr_was_recently_deleted_iff]
    refine ⟨d.deleted_index % NUM_RECENTLY_DELETED, Nat.mod_lt _ (by decide), ?_⟩
    rw [debug_ptr_add_all_unwritten]
    · simp [debug_ptr_add_recently_deleted]
    · intro t ht
      rw [debug_ptr_add_index_mod]
      simp only [NUM_RECENTLY_DELETED] at hlen ⊢
      omega
  · intro hlen hne
    rw [← Bool.not_eq_true, debug_ptr_was_recently_deleted_iff]
    rintro ⟨j, hj, hp⟩
    rcases debug_ptr_add_all_slot qs (debug_ptr_add_recently_deleted d p) j with h | ⟨_, h2⟩
    · exact hne _ h hp
    · simp only [NUM_RECENTLY_DELETED] at hlen hj h2
      have := h2 ((j + 128 - (debug_ptr_add_recently_deleted d p).deleted_index % 128) % 128)
        (by omega)
      omega

/-- Witness of `recently_deleted_window`: pointer 5 added to the initial ring and
followed by the two pointers 6 and 7 is still found. -/
theorem recently_deleted_window_witness :
    [6, 7].length < NUM_RECENTLY_DELETED ∧
    debug_ptr_was_recently_deleted
      (debug_ptr_add_all (debug_ptr_add_recently_deleted ptr_recently_deleted_data_init 5)
        [6, 7]) 5 = true :=
  ⟨by decide,
   (recently_deleted_window ptr_recently_deleted_data_init 5 [6, 7]).1 (by decide)⟩

/-- C30 as stated fails on the initial ring: with no add call at all
`debug_ptr_was_recently_deleted(NULL)` returns true, because every slot of the
zero-filled array equals `NULL`. -/
theorem recently_deleted_null_counterexample :
    debug_ptr_was_recently_deleted (debug_ptr_add_all ptr_recently_deleted_data_init []) 0
      = true ∧ (0 : Nat) ∉ ([] : List Nat) := by
  refine ⟨?_, by simp⟩
  rw [debug_ptr_was_recently_deleted_iff]
  exact ⟨0, by decide, rfl⟩

/-- C30 (amended): starting from the initial zero-filled ring, for every sequence
of add calls and every pointer `p`, `debug_ptr_was_recently_deleted(p)` returns
true only if `p` was passed to one of those calls, or `p` is `NULL` and fewer
than 128 calls have been made; and in that second case, with fewer than 128 calls
made, the answer for `NULL` is indeed true. -/
theorem recently_deleted_only_added (qs : List Nat) (p : Nat) :
    (debug_ptr_was_recently_deleted (debug_ptr_add_all ptr_recently_deleted_data_init qs) p
        = true → p ∈ qs ∨ (p = 0 ∧ qs.length < NUM_RECENTLY_DELETED)) ∧
    (qs.length < NUM_RECENTLY_DELETED →
      debug_ptr_was_recently_deleted (debug_ptr_add_all ptr_recently_deleted_data_init qs) 0
        = true) := by
  constructor
  · intro h
    rw [debug_ptr_was_recently_deleted_iff] at h
    obtain ⟨j, hj, hp⟩ := h
    rcases debug_ptr_add_all_slot qs ptr_recently_deleted_data_init j with h | ⟨h1, h2⟩
    · exact Or.inl (hp ▸ h)
    · right
      refine ⟨?_, ?_⟩
      · rw [← hp, h1]
        rfl
      · by_contra hlen
        simp only [NUM_RECENTLY_DELETED, ptr_recently_deleted_data_init, Nat.zero_add,
          not_lt] at hlen hj h2
        have := h2 j (by omega)
        omega
  · intro hlen
    rw [debug_ptr_was_recently_deleted_iff]
    refine ⟨qs.length, hlen, ?_⟩
    rw [debug_ptr_add_all_unwritten]
    · rfl
    · intro t ht
      simp only [NUM_RECENTLY_DELETED, ptr_recently_deleted_data_init, Nat.zero_add] at hlen ⊢
      omega

/-- Witness of `recently_deleted_only_added`: after adding the pointers 6 and 7
the pointer 7 is found and was added. -/
theorem recently_deleted_only_added_witness :
    debug_ptr_was_recently_deleted
      (debug_ptr_add_all ptr_recently_deleted_data_init [6, 7]) 7 = true ∧
    (7 ∈ [6, 7] ∨ (7 = 0 ∧ [6, 7].length < NUM_RECENTLY_DELETED)) :=
  have h : debug_ptr_was_recently_deleted
      (debug_ptr_add_all ptr_recently_deleted_data_init [6, 7]) 7 = true :=
    (debug_ptr_was_recently_deleted_iff _ _).mpr ⟨1, by decide, rfl⟩
  ⟨h, (recently_deleted_only_added [6, 7] 7).1 h⟩

/-! ## Theorems: dependence on the entry value of the output argument, and
CLOSE calls after the open stateid is released -/

/-- C26, the code at the failing input: the type and stateid produced by
`nfs41_open_stateid_arg` are not determined by the open state alone.  On the
open state
`recalled_locked_open_state` (a recalled delegation attached, `do_close` set, a
lock stateid of seqid 1) an output argument whose type is DELEG_FILE on entry
comes back unchanged, with type DELEG_FILE and its old stateid, while one whose
type is SPECIAL on entry comes back with type LOCK and the lock stateid: the
test at open.c 248 reads `arg->type`, which the function has not written when
the delegation is not GRANTED. -/
theorem open_stateid_arg_entry_type_leak :
    ∃ r1 r2,
      nfs41_open_stateid_arg recalled_locked_open_state [] stale_deleg_arg = some r1 ∧
      nfs41_open_stateid_arg recalled_locked_open_state [] special_arg = some r2 ∧
      r1.type = stateid_type.STATEID_DELEG_FILE ∧ r1.stateid = stale_deleg_arg.stateid ∧
      r2.type = stateid_type.STATEID_LOCK ∧
      r2.stateid = recalled_locked_open_state.locks.stateid ∧
      (r1.type, r1.stateid) ≠ (r2.type, r2.stateid) :=
  ⟨{ stale_deleg_arg with open_ := some recalled_locked_open_state },
   { stateid := ⟨1, []⟩, type := stateid_type.STATEID_LOCK,
     open_ := some recalled_locked_open_state, delegation := none },
   by decide, by decide, rfl, rfl, rfl, rfl, by decide⟩

/-- C27, the code at the failing input: `handle_close` sends a CLOSE while
`do_close` is clear.  For a delete of
a renamed file (`remove` and `renamed` set) on an open state with `do_close`
set, where the first REMOVE answers `NFS4ERR_FILE_OPEN` and every CLOSE
succeeds, the CLOSE of the renamed branch (open.c 1182) releases the open
stateid and clears `do_close`, and the CLOSE of the `NFS4ERR_FILE_OPEN` branch
(open.c 1199) is then sent for the same stateid although `do_close` is clear at
that moment. -/
theorem handle_close_sends_close_twice :
    (handle_close example_nfs_to_windows_error open_file_state
        { remove := true, renamed := true, srv_open := 5 }
        [NFS4ERR_FILE_OPEN, NFS4_OK] [NFS4_OK, NFS4_OK]).trace =
      [call.pnfs_layout_state_close, call.nfs41_delegation_remove_srvopen,
       call.create_silly_rename,
       call.nfs41_close stateid_type.STATEID_OPEN open_file_state.stateid true NFS4_OK,
       call.nfs41_delegation_return OPEN_DELEGATE_WRITE,
       call.nfs41_remove NFS4ERR_FILE_OPEN,
       call.nfs41_close stateid_type.STATEID_OPEN open_file_state.stateid false NFS4_OK,
       call.nfs41_remove NFS4_OK,
       call.client_state_remove] ∧
    open_file_state.do_close = true := by
  decide

/-! ## Theorems: `handle_open` after a lookup that did not return `ERROR_REPARSE` -/

/-- When the allocation succeeds, the path fits and the first lookup does not
return `ERROR_REPARSE`, `handle_open` is `handle_open_lookup_done` on a context
that holds the created state, the answers of the lookup and the trace of the
lookup. -/
theorem handle_open_lookup_entry (env : open_env) (args : open_upcall_args)
    (state_ref : state_ref_ptr) (last_error : Nat)
    (halloc : env.alloc_error = none)
    (hpath : strlen args.path < env.NFS41_MAX_PATH_LEN)
    (hlookup : env.lookup_status ≠ (ERROR_REPARSE : Nat)) :
    ∃ c : open_ctx,
      handle_open env args state_ref last_error = handle_open_lookup_done env c ∧
      c.status = env.lookup_status ∧ c.args = args ∧ c.last_error = last_error ∧
      c.state_ref = state_ref ∧ c.info = env.lookup_info ∧
      c.trace = [call.nfs41_lookup env.lookup_status] ∧
      c.state.ref_count = 1 ∧ c.state.do_close = false ∧
      c.state.file = env.lookup_file ∧ c.state.parent = env.lookup_parent := by
  obtain ⟨state, hst, hrc, hdc, _⟩ :=
    create_open_state_some env.NFS41_MAX_PATH_LEN args.path args.open_owner_id hpath
  unfold handle_open
  rw [halloc, hst]
  simp only [hlookup, if_false]
  exact ⟨_, rfl, rfl, rfl, rfl, rfl, rfl, rfl, hrc, hdc, rfl, rfl⟩

theorem handle_open_lookup_done_reg (env : open_env) (c : open_ctx)
    (hs : c.status = NO_ERROR) (ht : c.info.type = NF4REG)
    (hf : has_any c.args.create_opts FILE_DIRECTORY_FILE) :
    handle_open_lookup_done env c = handle_open_free c (ERROR_BAD_FILE_TYPE : Nat) := by
  have hnd : ¬ (NF4REG = NF4DIR) := by decide
  simp only [handle_open_lookup_done, hs, ht, hf, hnd, if_true, if_false]

theorem handle_open_lookup_done_dir (env : open_env) (c : open_ctx)
    (hs : c.status = NO_ERROR) (ht : c.info.type = NF4DIR)
    (hf : has_any c.args.create_opts FILE_NON_DIRECTORY_FILE) :
    handle_open_lookup_done env c = handle_open_free c (ERROR_DIRECTORY : Nat) := by
  simp only [handle_open_lookup_done, hs, ht, hf, if_true]

/-- The run `handle_open_free` ends: the deref is appended to the trace, and
with a reference count of 1 the state is freed. -/
theorem handle_open_free_run (c : open_ctx) (status : Int) (hrc : c.state.ref_count = 1) :
    (handle_open_free c status).status = status ∧
    (handle_open_free c status).trace = c.trace ++ [call.nfs41_open_state_deref] ∧
    (handle_open_free c status).freed = true ∧
    (handle_open_free c status).state_ref = c.state_ref ∧
    (handle_open_free c status).args = c.args ∧
    (handle_open_free c status).last_error = c.last_error ∧
    ∃ state, (handle_open_free c status).state = some state ∧ state.ref_count = 0 := by
  refine ⟨rfl, rfl, ?_, rfl, rfl, rfl, _, rfl, ?_⟩
  · simp [handle_open_free, nfs41_open_state_deref, hrc]
  · simp [nfs41_open_state_deref, hrc]

/-- C21: in `handle_open`, when the lookup succeeds: if the server object is a
regular file and `create_opts` has `FILE_DIRECTORY_FILE` the result is
`ERROR_BAD_FILE_TYPE`; if the server object is a directory and `create_opts` has
`FILE_NON_DIRECTORY_FILE` the result is `ERROR_DIRECTORY`; in both cases the
trace is the lookup followed by the deref (no OPEN, CREATE or REMOVE), the state
is freed and `upcall->state_ref` is left as it was. -/
theorem handle_open_type_mismatch (env : open_env) (args : open_upcall_args)
    (state_ref : state_ref_ptr) (last_error : Nat)
    (halloc : env.alloc_error = none)
    (hpath : strlen args.path < env.NFS41_MAX_PATH_LEN)
    (hlookup : env.lookup_status = NO_ERROR) :
    (env.lookup_info.type = NF4REG → has_any args.create_opts FILE_DIRECTORY_FILE →
      (handle_open env args state_ref last_error).status = (ERROR_BAD_FILE_TYPE : Nat)) ∧
    (env.lookup_info.type = NF4DIR → has_any args.create_opts FILE_NON_DIRECTORY_FILE →
      (handle_open env args state_ref last_error).status = (ERROR_DIRECTORY : Nat)) ∧
    ((env.lookup_info.type = NF4REG ∧ has_any args.create_opts FILE_DIRECTORY_FILE) ∨
     (env.lookup_info.type = NF4DIR ∧ has_any args.create_opts FILE_NON_DIRECTORY_FILE) →
      (handle_open env args state_ref last_error).trace
        = [call.nfs41_lookup NO_ERROR, call.nfs41_open_state_deref] ∧
      (∀ x ∈ (handle_open env args state_ref last_error).trace,
        x.is_open_or_create = false ∧ x.is_remove = false) ∧
      (handle_open env args state_ref last_error).freed = true ∧
      (handle_open env args state_ref last_error).state_ref = state_ref ∧
      ∃ state, (handle_open env args state_ref last_error).state = some state ∧
        state.ref_count = 0) := by
  have hne : env.lookup_status ≠ (ERROR_REPARSE : Nat) := by rw [hlookup]; decide
  obtain ⟨c, hc, hst, hargs, _, hsr, hinfo, htr, hrc, _, _, _⟩ :=
    handle_open_lookup_entry env args state_ref last_error halloc hpath hne
  rw [hlookup] at hst htr
  refine ⟨?_, ?_, ?_⟩
  · intro ht hf
    rw [hc, handle_open_lookup_done_reg env c hst (by rw [hinfo]; exact ht)
      (by rw [hargs]; exact hf)]
    rfl
  · intro ht hf
    rw [hc, handle_open_lookup_done_dir env c hst (by rw [hinfo]; exact ht)
      (by rw [hargs]; exact hf)]
    rfl
  · intro h
    have hrun : ∃ status, handle_open env args state_ref last_error
        = handle_open_free c status := by
      rcases h with ⟨ht, hf⟩ | ⟨ht, hf⟩
      · exact ⟨_, by rw [hc, handle_open_lookup_done_reg env c hst (by rw [hinfo]; exact ht)
          (by rw [hargs]; exact hf)]⟩
      · exact ⟨_, by rw [hc, handle_open_lookup_done_dir env c hst (by rw [hinfo]; exact ht)
          (by rw [hargs]; exact hf)]⟩
    obtain ⟨status, hrun⟩ := hrun
    obtain ⟨_, h2, h3, h4, _, _, h7⟩ := handle_open_free_run c status hrc
    rw [hrun, h2, h3, h4, htr, hsr]
    refine ⟨rfl, ?_, rfl, rfl, h7⟩
    intro x hx
    simp only [List.cons_append, List.nil_append, List.mem_cons, List.mem_singleton,
      List.not_mem_nil, or_false] at hx
    rcases hx with rfl | rfl <;> exact ⟨rfl, rfl⟩

/-- Witness of `handle_open_type_mismatch`: the path `/a` is a regular file and
the open asks for a directory. -/
theorem handle_open_type_mismatch_witness :
    (handle_open regular_file_env create_dir_args state_ref_ptr.NULL 0).status
      = (ERROR_BAD_FILE_TYPE : Nat) :=
  (handle_open_type_mismatch regular_file_env create_dir_args state_ref_ptr.NULL 0
    rfl (by decide) rfl).1 rfl (by decide)

/-- C22: in `handle_open`, when disposition is `FILE_CREATE`, `access_mask` is
exactly `FILE_WRITE_ATTRIBUTES | SYNCHRONIZE | DELETE`, `access_mode` is 0,
`create_opts` contains `FILE_OPEN_REPARSE_POINT` and the lookup returns
`ERROR_FILE_NOT_FOUND`, the run returns success; its trace is the lookup
followed by `nfs41_open_state_ref` (no OPEN, no CREATE); the upcall arguments,
`created` among them, are left as they were; and `upcall->state_ref` points to
the state, which has `do_close` clear, the second reference taken and the
superblock of the parent in its file handle. -/
theorem handle_open_symlink_deferral (env : open_env) (args : open_upcall_args)
    (state_ref : state_ref_ptr) (last_error : Nat)
    (halloc : env.alloc_error = none)
    (hpath : strlen args.path < env.NFS41_MAX_PATH_LEN)
    (hlookup : env.lookup_status = (ERROR_FILE_NOT_FOUND : Nat))
    (hdisp : args.disposition = FILE_CREATE)
    (hmask : args.access_mask = FILE_WRITE_ATTRIBUTES ||| SYNCHRONIZE ||| DELETE)
    (hmode : args.access_mode = 0)
    (hopts : has_any args.create_opts FILE_OPEN_REPARSE_POINT) :
    (handle_open env args state_ref last_error).status = NO_ERROR ∧
    (handle_open env args state_ref last_error).trace
      = [call.nfs41_lookup (ERROR_FILE_NOT_FOUND : Nat), call.nfs41_open_state_ref] ∧
    (handle_open env args state_ref last_error).args = args ∧
    (handle_open env args state_ref last_error).freed = false ∧
    ∃ state,
      (handle_open env args state_ref last_error).state_ref = state_ref_ptr.ptr state ∧
      (handle_open env args state_ref last_error).state = some state ∧
      state.do_close = false ∧ state.ref_count = 2 ∧
      state.file.fh.superblock = env.lookup_parent.fh.superblock ∧
      state.parent = env.lookup_parent := by
  have hne : env.lookup_status ≠ (ERROR_REPARSE : Nat) := by rw [hlookup]; decide
  obtain ⟨c, hc, hst, hargs, _, _, _, htr, hrc, hdc, _, hpar⟩ :=
    handle_open_lookup_entry env args state_ref last_error halloc hpath hne
  rw [hlookup] at hst htr
  have h1 : ¬ (((ERROR_FILE_NOT_FOUND : Nat) : Int) = NO_ERROR) := by decide
  have hrun : handle_open env args state_ref last_error
      = handle_open_publish
          { c with state := { c.state with file :=
              { c.state.file with
                fh := { c.state.file.fh with superblock := c.state.parent.fh.superblock } } } }
          NO_ERROR := by
    rw [hc]
    simp only [handle_open_lookup_done, handle_open_dispatch, hst, hargs, hdisp, hmask,
      hmode, hopts, h1, if_true, if_false, and_self, ne_eq, not_true_eq_false]
  rw [hrun]
  refine ⟨rfl, ?_, hargs, rfl, _, rfl, rfl, hdc, ?_, ?_, hpar⟩
  · simp only [handle_open_publish, htr]
    rfl
  · simp [nfs41_open_state_ref, hrc, long_wrap]
  · simp only [nfs41_open_state_ref, hpar]

/-- Witness of `handle_open_symlink_deferral`: the open that
`CreateSymbolicLink()` sends for the absent path `/a`. -/
theorem handle_open_symlink_deferral_witness :
    (handle_open absent_file_parent_env create_symlink_args state_ref_ptr.NULL 0).status
      = NO_ERROR ∧
    (handle_open absent_file_parent_env create_symlink_args state_ref_ptr.NULL 0).trace
      = [call.nfs41_lookup (ERROR_FILE_NOT_FOUND : Nat), call.nfs41_open_state_ref] :=
  have h := handle_open_symlink_deferral absent_file_parent_env create_symlink_args
    state_ref_ptr.NULL 0 rfl (by decide) rfl rfl rfl rfl (by decide)
  ⟨h.1, h.2.1⟩

/-! ## Theorems: the hidden and system check of the data-bearing path -/

/-- After a successful lookup of an object that passes the type checks,
`handle_open_lookup_done` goes on to `handle_open_dispatch` with the type of the
object stored in the state; the only call it may add is `nfs41_symlink_follow`. -/
theorem handle_open_lookup_done_dispatch (env : open_env) (c : open_ctx)
    (hs : c.status = NO_ERROR)
    (hdir : c.info.type = NF4DIR → ¬ has_any c.args.create_opts FILE_NON_DIRECTORY_FILE)
    (hreg : c.info.type = NF4REG → ¬ has_any c.args.create_opts FILE_DIRECTORY_FILE)
    (hlnk : c.info.type = NF4LNK → has_any c.args.create_opts FILE_OPEN_REPARSE_POINT) :
    ∃ c2 : open_ctx,
      handle_open_lookup_done env c = handle_open_dispatch env c2 ∧
      c2.status = c.status ∧ c2.args = c.args ∧ c2.last_error = c.last_error ∧
      c2.state_ref = c.state_ref ∧ c2.state.type = c.info.type ∧
      c2.state.ref_count = c.state.ref_count ∧
      c2.info.hidden = c.info.hidden ∧ c2.info.system = c.info.system ∧
      (c2.trace = c.trace ∨
        c2.trace = c.trace ++ [call.nfs41_symlink_follow env.symlink_follow.1]) := by
  unfold handle_open_lookup_done
  rw [if_pos hs]
  by_cases h1 : c.info.type = NF4DIR
  · rw [if_pos h1, if_neg (hdir h1)]
    exact ⟨_, rfl, rfl, rfl, rfl, rfl, rfl, rfl, rfl, rfl, Or.inl rfl⟩
  · rw [if_neg h1]
    by_cases h2 : c.info.type = NF4REG
    · rw [if_pos h2, if_neg (hreg h2)]
      exact ⟨_, rfl, rfl, rfl, rfl, rfl, rfl, rfl, rfl, rfl, Or.inl rfl⟩
    · rw [if_neg h2]
      by_cases h3 : c.info.type = NF4LNK
      · rw [if_pos h3, if_pos (hlnk h3)]
        by_cases h4 : env.symlink_follow.1 = NO_ERROR ∧ env.symlink_follow.2 = NF4DIR
        · simp only [h4, and_self, if_true]
          exact ⟨_, rfl, rfl, rfl, rfl, rfl, rfl, rfl, rfl, rfl, Or.inr rfl⟩
        · simp only [h4, if_false]
          exact ⟨_, rfl, rfl, rfl, rfl, rfl, rfl, rfl, rfl, rfl, Or.inr rfl⟩
      · rw [if_neg h3]
        exact ⟨_, rfl, rfl, rfl, rfl, rfl, rfl, rfl, rfl, rfl, Or.inl rfl⟩

/-- With one of the three replacing dispositions, no cygwin symlink target and a
state whose type is not a directory, `handle_open_dispatch` takes the
data-bearing path. -/
theorem handle_open_dispatch_data (env : open_env) (c : open_ctx)
    (hdisp : c.args.disposition = FILE_OVERWRITE ∨ c.args.disposition = FILE_OVERWRITE_IF ∨
      c.args.disposition = FILE_SUPERSEDE)
    (hsym : c.args.symlink.len = 0) (htype : c.state.type ≠ NF4DIR) :
    handle_open_dispatch env c = handle_open_data env c := by
  have hcreate : c.args.disposition ≠ FILE_CREATE := by
    rcases hdisp with h | h | h <;> rw [h] <;> decide
  have hattr : open_for_attributes c.state.type c.args.access_mask c.args.disposition c.status
      = false := by
    unfold open_for_attributes
    rw [if_neg htype]
    rcases hdisp with h | h | h <;> simp [h]
  unfold handle_open_dispatch
  rw [if_neg (fun h => hcreate h.1), if_neg (fun h => h hsym), hattr]
  simp

/-- The hidden and system check (open.c 895-902) sends the run to
`out_free_state` with `ERROR_ACCESS_DENIED`. -/
theorem handle_open_data_denied (env : open_env) (c : open_ctx)
    (hs : c.status = 0)
    (hdisp : c.args.disposition = FILE_OVERWRITE ∨ c.args.disposition = FILE_OVERWRITE_IF ∨
      c.args.disposition = FILE_SUPERSEDE)
    (hattr : (c.info.hidden = true ∧ ¬ has_any c.args.file_attrs FILE_ATTRIBUTE_HIDDEN) ∨
      (c.info.system = true ∧ ¬ has_any c.args.file_attrs FILE_ATTRIBUTE_SYSTEM)) :
    handle_open_data env c = handle_open_free c (ERROR_ACCESS_DENIED : Nat) := by
  unfold handle_open_data
  simp only []
  rw [if_pos ⟨⟨hs, hdisp⟩, hattr⟩]

/-- C29: in the data-bearing path of `handle_open` (the lookup succeeds on an
object that is not a directory and passes the type checks, no cygwin symlink
target is given), for disposition `FILE_OVERWRITE`, `FILE_OVERWRITE_IF` or
`FILE_SUPERSEDE` on an object that is hidden while `file_attrs` lacks
`FILE_ATTRIBUTE_HIDDEN`, or system while `file_attrs` lacks
`FILE_ATTRIBUTE_SYSTEM`, the run fails with `ERROR_ACCESS_DENIED`; its trace
holds no REMOVE, CREATE or OPEN and ends with the deref, which frees the state;
`upcall->state_ref` and the upcall arguments are left as they were. -/
theorem handle_open_hidden_system_denied (env : open_env) (args : open_upcall_args)
    (state_ref : state_ref_ptr) (last_error : Nat)
    (halloc : env.alloc_error = none)
    (hpath : strlen args.path < env.NFS41_MAX_PATH_LEN)
    (hlookup : env.lookup_status = NO_ERROR)
    (hdisp : args.disposition = FILE_OVERWRITE ∨ args.disposition = FILE_OVERWRITE_IF ∨
      args.disposition = FILE_SUPERSEDE)
    (hattr : (env.lookup_info.hidden = true ∧
        ¬ has_any args.file_attrs FILE_ATTRIBUTE_HIDDEN) ∨
      (env.lookup_info.system = true ∧ ¬ has_any args.file_attrs FILE_ATTRIBUTE_SYSTEM))
    (hnodir : env.lookup_info.type ≠ NF4DIR)
    (hreg : env.lookup_info.type = NF4REG → ¬ has_any args.create_opts FILE_DIRECTORY_FILE)
    (hlnk : env.lookup_info.type = NF4LNK → has_any args.create_opts FILE_OPEN_REPARSE_POINT)
    (hsym : args.symlink.len = 0) :
    (handle_open env args state_ref last_error).status = (ERROR_ACCESS_DENIED : Nat) ∧
    (∀ x ∈ (handle_open env args state_ref last_error).trace,
      x.is_open_or_create = false ∧ x.is_remove = false) ∧
    (handle_open env args state_ref last_error).trace.getLast?
      = some call.nfs41_open_state_deref ∧
    (handle_open env args state_ref last_error).freed = true ∧
    (handle_open env args state_ref last_error).state_ref = state_ref ∧
    (handle_open env args state_ref last_error).args = args := by
  have hne : env.lookup_status ≠ (ERROR_REPARSE : Nat) := by rw [hlookup]; decide
  obtain ⟨c, hc, hst, hargs, _, hsr, hinfo, htr, hrc, _, _, _⟩ :=
    handle_open_lookup_entry env args state_ref last_error halloc hpath hne
  rw [hlookup] at hst htr
  obtain ⟨c2, hc2, hst2, hargs2, _, hsr2, hty2, hrc2, hhid2, hsys2, htr2⟩ :=
    handle_open_lookup_done_dispatch env c hst
      (fun h => absurd (hinfo ▸ h) hnodir)
      (fun h => by rw [hargs]; exact hreg (hinfo ▸ h))
      (fun h => by rw [hargs]; exact hlnk (hinfo ▸ h))
  have hrun : handle_open env args state_ref last_error
      = handle_open_free c2 (ERROR_ACCESS_DENIED : Nat) := by
    rw [hc, hc2, handle_open_dispatch_data env c2 (by rw [hargs2, hargs]; exact hdisp)
      (by rw [hargs2, hargs]; exact hsym) (by rw [hty2, hinfo]; exact hnodir)]
    refine handle_open_data_denied env c2 (by rw [hst2, hst])
      (by rw [hargs2, hargs]; exact hdisp) ?_
    rw [hhid2, hsys2, hargs2, hargs, hinfo]
    exact hattr
  obtain ⟨_, h2, h3, h4, h5, _, _⟩ :=
    handle_open_free_run c2 (ERROR_ACCESS_DENIED : Nat) (by rw [hrc2, hrc])
  rw [hrun, h2, h3, h4, h5, hsr2, hsr, hargs2, hargs]
  refine ⟨rfl, ?_, by simp, rfl, rfl, rfl⟩
  intro x hx
  rcases htr2 with h | h <;> rw [h, htr] at hx <;>
    simp only [List.cons_append, List.nil_append, List.mem_cons, List.mem_singleton,
      List.not_mem_nil, or_false] at hx
  · rcases hx with rfl | rfl <;> exact ⟨rfl, rfl⟩
  · rcases hx with rfl | rfl | rfl <;> exact ⟨rfl, rfl⟩

/-- Witness of `handle_open_hidden_system_denied`: `FILE_OVERWRITE_IF` without
`FILE_ATTRIBUTE_HIDDEN` on the hidden regular file `/a`. -/
theorem handle_open_hidden_system_denied_witness :
    (handle_open hidden_file_env overwrite_if_args state_ref_ptr.NULL 0).status
      = (ERROR_ACCESS_DENIED : Nat) ∧
    (handle_open hidden_file_env overwrite_if_args state_ref_ptr.NULL 0).freed = true :=
  have h := handle_open_hidden_system_denied hidden_file_env overwrite_if_args
    state_ref_ptr.NULL 0 rfl (by decide) rfl (by decide) (by decide) (by decide)
    (by decide) (by decide) rfl
  ⟨h.1, h.2.2.2.1⟩

/-! ## Theorems: the supersede cycle -/

/-- One pass through `supersede_retry:` of a `FILE_SUPERSEDE` open of an existing
object: the calls it adds to the trace and the status it ends with; the second
component of the result tells that the REMOVE failed. -/
theorem handle_open_cycle_supersede (c : open_ctx) (chm : Nat) (cy : open_cycle)
    (hdisp : c.args.disposition = FILE_SUPERSEDE) :
    ∃ c2 : open_ctx,
      handle_open_cycle c NO_ERROR OPEN4_CREATE chm cy = (c2, decide (cy.remove ≠ 0)) ∧
      c2.args.disposition = c.args.disposition ∧
      c2.args.create_opts = c.args.create_opts ∧ c2.args.ea = c.args.ea ∧
      c2.state_ref = c.state_ref ∧ c2.last_error = c.last_error ∧
      c2.state.share_access = c.state.share_access ∧
      c2.state.share_deny = c.state.share_deny ∧
      c2.state.ref_count = c.state.ref_count ∧
      c2.status = supersede_cycle_status c.args.create_opts cy ∧
      c2.trace = c.trace ++
        supersede_cycle_calls c.args.create_opts chm c.state.share_access
          c.state.share_deny cy ++
        (if ¬ has_any c.args.create_opts FILE_DIRECTORY_FILE ∧
            supersede_cycle_status c.args.create_opts cy = 0
          then [call.client_state_add] else []) := by
  unfold handle_open_cycle
  rw [if_pos ⟨hdisp, rfl⟩]
  unfold supersede_cycle_status supersede_cycle_calls
  by_cases hrm : cy.remove ≠ 0
  · have hd : decide (cy.remove ≠ 0) = true := by simp [hrm]
    rw [if_pos hrm, hd]
    refine ⟨_, rfl, ?_⟩
    by_cases hdir : has_any c.args.create_opts FILE_DIRECTORY_FILE
    · simp [supersede_remove, hdir, hrm]
    · simp [supersede_remove, hdir, hrm]
  · have hrm0 : cy.remove = 0 := not_not.mp hrm
    have hd : decide (cy.remove ≠ 0) = false := by simp [hrm0]
    rw [if_neg hrm, hd]
    refine ⟨_, rfl, ?_⟩
    by_cases hdir : has_any c.args.create_opts FILE_DIRECTORY_FILE
    · simp [supersede_remove, create_or_open, hdir, hrm0]
    · by_cases hdo : cy.delegate_open = 0
      · simp [supersede_remove, create_or_open, open_or_delegate, hdir, hrm0, hdo]
      · by_cases hop : cy.open_ = 0
        · simp [supersede_remove, create_or_open, open_or_delegate, do_open, hdir, hrm0, hdo,
            hop]
        · simp [supersede_remove, create_or_open, open_or_delegate, do_open, hdir, hrm0, hdo,
            hop]

/-- Any number of passes whose REMOVE succeeds and whose CREATE or OPEN returns
`NFS4ERR_EXIST` are run one after the other, each adding the calls of
`supersede_cycle_calls` to the trace. -/
theorem handle_open_retry_exist_loop (env : open_env) (chm : Nat) (pre : List open_cycle) :
    ∀ (c : open_ctx) (rest : List open_cycle),
      c.args.disposition = FILE_SUPERSEDE →
      (∀ x ∈ pre, x.remove = 0 ∧
        supersede_cycle_status c.args.create_opts x = NFS4ERR_EXIST) →
      ∃ c2 : open_ctx,
        handle_open_retry env NO_ERROR OPEN4_CREATE chm (pre ++ rest) c
          = handle_open_retry env NO_ERROR OPEN4_CREATE chm rest c2 ∧
        c2.args.disposition = c.args.disposition ∧
        c2.args.create_opts = c.args.create_opts ∧ c2.args.ea = c.args.ea ∧
        c2.state_ref = c.state_ref ∧ c2.last_error = c.last_error ∧
        c2.state.share_access = c.state.share_access ∧
        c2.state.share_deny = c.state.share_deny ∧
        c2.state.ref_count = c.state.ref_count ∧
        c2.trace = c.trace ++
          pre.flatMap (supersede_cycle_calls c.args.create_opts chm c.state.share_access
            c.state.share_deny) := by
  induction pre with
  | nil =>
    intro c rest _ _
    exact ⟨c, rfl, rfl, rfl, rfl, rfl, rfl, rfl, rfl, rfl, by simp⟩
  | cons cy pre ih =>
    intro c rest hdisp hpre
    obtain ⟨hrm, hst⟩ := hpre cy (List.mem_cons_self _ _)
    obtain ⟨c1, hc1, h1d, h1o, h1e, h1r, h1l, h1a, h1y, h1c, h1s, h1t⟩ :=
      handle_open_cycle_supersede c chm cy hdisp
    have hd : decide (cy.remove ≠ 0) = false := by simp [hrm]
    rw [hd] at hc1
    rw [hst] at h1s
    have hne : c1.status ≠ 0 := by rw [h1s]; decide
    have hstep : handle_open_retry env NO_ERROR OPEN4_CREATE chm (cy :: (pre ++ rest)) c
        = handle_open_retry env NO_ERROR OPEN4_CREATE chm (pre ++ rest) c1 := by
      rw [handle_open_retry]
      simp only [hc1]
      rw [if_neg (by simp), if_pos hne, if_pos ⟨by rw [h1d]; exact hdisp, h1s⟩]
    have hnc : ¬ (¬ has_any c.args.create_opts FILE_DIRECTORY_FILE ∧
        supersede_cycle_status c.args.create_opts cy = 0) := by
      rw [hst]
      exact fun h => absurd h.2 (by decide)
    rw [if_neg hnc, List.append_nil] at h1t
    obtain ⟨c2, hc2, h2d, h2o, h2e, h2r, h2l, h2a, h2y, h2c, h2t⟩ :=
      ih c1 rest (by rw [h1d]; exact hdisp)
        (fun x hx => by rw [h1o]; exact hpre x (List.mem_cons_of_mem _ hx))
    refine ⟨c2, ?_, h2d.trans h1d, h2o.trans h1o, h2e.trans h1e, h2r.trans h1r,
      h2l.trans h1l, h2a.trans h1a, h2y.trans h1y, h2c.trans h1c, ?_⟩
    · rw [List.cons_append, hstep, hc2]
    · rw [h2t, h1t, h1o, h1a, h1y, List.flatMap_cons, List.append_assoc]

/-- The pass that ends the loop at `supersede_retry:`: its REMOVE fails, or its
CREATE or OPEN fails with a status other than `NFS4ERR_EXIST`, or it
succeeds. -/
theorem handle_open_retry_last (env : open_env) (chm : Nat) (cy : open_cycle)
    (rest : List open_cycle) (c : open_ctx)
    (hdisp : c.args.disposition = FILE_SUPERSEDE)
    (hcy : ¬ (cy.remove = 0 ∧ supersede_cycle_status c.args.create_opts cy = NFS4ERR_EXIST)) :
    (cy.remove ≠ 0 →
      (handle_open_retry env NO_ERROR OPEN4_CREATE chm (cy :: rest) c).status = cy.remove ∧
      (handle_open_retry env NO_ERROR OPEN4_CREATE chm (cy :: rest) c).trace
        = c.trace ++
          (if has_any c.args.create_opts FILE_DIRECTORY_FILE then []
            else [call.nfs41_delegation_return OPEN_DELEGATE_WRITE]) ++
          [call.nfs41_remove cy.remove, call.nfs41_open_state_deref] ∧
      (handle_open_retry env NO_ERROR OPEN4_CREATE chm (cy :: rest) c).freed
        = decide (c.state.ref_count - 1 = 0) ∧
      (handle_open_retry env NO_ERROR OPEN4_CREATE chm (cy :: rest) c).state_ref
        = c.state_ref) ∧
    (cy.remove = 0 → supersede_cycle_status c.args.create_opts cy ≠ 0 →
      (handle_open_retry env NO_ERROR OPEN4_CREATE chm (cy :: rest) c).status
        = env.nfs_to_windows_error (supersede_cycle_status c.args.create_opts cy)
            (ERROR_FILE_NOT_FOUND : Nat) ∧
      (handle_open_retry env NO_ERROR OPEN4_CREATE chm (cy :: rest) c).trace
        = c.trace ++
          supersede_cycle_calls c.args.create_opts chm c.state.share_access
            c.state.share_deny cy ++
          [call.nfs41_open_state_deref] ∧
      (handle_open_retry env NO_ERROR OPEN4_CREATE chm (cy :: rest) c).freed
        = decide (c.state.ref_count - 1 = 0) ∧
      (handle_open_retry env NO_ERROR OPEN4_CREATE chm (cy :: rest) c).state_ref
        = c.state_ref) ∧
    (cy.remove = 0 → supersede_cycle_status c.args.create_opts cy = 0 →
      ∃ tail : List call,
        (handle_open_retry env NO_ERROR OPEN4_CREATE chm (cy :: rest) c).trace
          = c.trace ++
            supersede_cycle_calls c.args.create_opts chm c.state.share_access
              c.state.share_deny cy ++ tail ∧
        (∀ x ∈ tail, x = call.client_state_add ∨ x = call.nfs41_ea_set env.ea_set ∨
          x = call.nfs41_open_state_ref) ∧
        tail.getLast? = some call.nfs41_open_state_ref ∧
        (c.args.ea = false →
          (handle_open_retry env NO_ERROR OPEN4_CREATE chm (cy :: rest) c).status = 0)) := by
  obtain ⟨c1, hc1, h1d, h1o, h1e, h1r, _, _, _, h1c, h1s, h1t⟩ :=
    handle_open_cycle_supersede c chm cy hdisp
  refine ⟨fun hrm => ?_, fun hrm hst => ?_, fun hrm hst => ?_⟩
  · have hd : decide (cy.remove ≠ 0) = true := by simp [hrm]
    rw [hd] at hc1
    have hrun : handle_open_retry env NO_ERROR OPEN4_CREATE chm (cy :: rest) c
        = handle_open_free c1 c1.status := by
      rw [handle_open_retry]
      simp only [hc1, if_true]
    have hs : supersede_cycle_status c.args.create_opts cy = cy.remove := by
      simp [supersede_cycle_status, hrm]
    have hnc : ¬ (¬ has_any c.args.create_opts FILE_DIRECTORY_FILE ∧
        supersede_cycle_status c.args.create_opts cy = 0) := by
      rw [hs]
      exact fun h => hrm h.2
    rw [if_neg hnc, List.append_nil] at h1t
    rw [hrun]
    refine ⟨by rw [← hs, ← h1s]; rfl, ?_, ?_, h1r⟩
    · simp only [handle_open_free, h1t, supersede_cycle_calls, hrm, ne_eq, not_false_eq_true,
        if_true, List.append_nil, List.append_assoc, List.cons_append, List.nil_append]
    · simp only [handle_open_free, nfs41_open_state_deref, h1c]
  · have hd : decide (cy.remove ≠ 0) = false := by simp [hrm]
    rw [hd] at hc1
    have hne : c1.status ≠ 0 := by rw [h1s]; exact hst
    have hnex : ¬ (c1.args.disposition = FILE_SUPERSEDE ∧ c1.status = NFS4ERR_EXIST) := by
      rw [h1s]
      exact fun h => hcy ⟨hrm, h.2⟩
    have hrun : handle_open_retry env NO_ERROR OPEN4_CREATE chm (cy :: rest) c
        = handle_open_free c1
            (env.nfs_to_windows_error c1.status (ERROR_FILE_NOT_FOUND : Nat)) := by
      rw [handle_open_retry]
      simp only [hc1]
      rw [if_neg (by simp), if_pos hne, if_neg hnex]
    have hnc : ¬ (¬ has_any c.args.create_opts FILE_DIRECTORY_FILE ∧
        supersede_cycle_status c.args.create_opts cy = 0) := fun h => hst h.2
    rw [if_neg hnc, List.append_nil] at h1t
    rw [hrun]
    refine ⟨by rw [← h1s]; rfl, ?_, ?_, h1r⟩
    · simp only [handle_open_free, h1t]
    · simp only [handle_open_free, nfs41_open_state_deref, h1c]
  · have hd : decide (cy.remove ≠ 0) = false := by simp [hrm]
    rw [hd] at hc1
    have hs0 : c1.status = 0 := by rw [h1s]; exact hst
    have hrun : handle_open_retry env NO_ERROR OPEN4_CREATE chm (cy :: rest) c
        = handle_open_success env c1 NO_ERROR := by
      rw [handle_open_retry]
      simp only [hc1, hs0, ne_eq, not_true_eq_false, if_false]
      simp
    rw [hrun]
    unfold handle_open_success
    simp only []
    by_cases hea : c1.args.ea = true ∧ create_with_ea c1.args.disposition NO_ERROR = true
    · rw [if_pos hea]
      refine ⟨(if ¬ has_any c.args.create_opts FILE_DIRECTORY_FILE ∧
          supersede_cycle_status c.args.create_opts cy = 0
          then [call.client_state_add] else []) ++
          [call.nfs41_ea_set env.ea_set, call.nfs41_open_state_ref], ?_, ?_, ?_, ?_⟩
      · simp only [handle_open_publish, h1t, List.append_assoc, List.cons_append,
          List.nil_append]
      · intro x hx
        rcases List.mem_append.mp hx with h | h
        · split_ifs at h
          · left
            simpa using h
          · simp at h
        · simp only [List.mem_cons, List.mem_singleton, List.not_mem_nil, or_false] at h
          rcases h with h | h
          · exact Or.inr (Or.inl h)
          · exact Or.inr (Or.inr h)
      · simp
      · intro hf
        rw [h1e, hf] at hea
        exact absurd hea.1 (by decide)
    · rw [if_neg hea]
      refine ⟨(if ¬ has_any c.args.create_opts FILE_DIRECTORY_FILE ∧
          supersede_cycle_status c.args.create_opts cy = 0
          then [call.client_state_add] else []) ++ [call.nfs41_open_state_ref], ?_, ?_, ?_, ?_⟩
      · simp only [handle_open_publish, h1t, List.append_assoc]
      · intro x hx
        rcases List.mem_append.mp hx with h | h
        · split_ifs at h
          · left
            simpa using h
          · simp at h
        · exact Or.inr (Or.inr (by simpa using h))
      · simp
      · intro _
        exact hs0

/-- After a successful lookup of an object that passes the type checks,
`handle_open_lookup_done` goes on to `handle_open_dispatch` with the type of the
object stored in the state, after `nfs41_symlink_follow` for a symbolic
link. -/
theorem handle_open_lookup_done_dispatch_state (env : open_env) (c : open_ctx)
    (hs : c.status = NO_ERROR)
    (hdir : c.info.type = NF4DIR → ¬ has_any c.args.create_opts FILE_NON_DIRECTORY_FILE)
    (hreg : c.info.type = NF4REG → ¬ has_any c.args.create_opts FILE_DIRECTORY_FILE)
    (hlnk : c.info.type = NF4LNK → has_any c.args.create_opts FILE_OPEN_REPARSE_POINT) :
    ∃ c2 : open_ctx,
      handle_open_lookup_done env c = handle_open_dispatch env c2 ∧
      c2.status = c.status ∧ c2.args = c.args ∧ c2.last_error = c.last_error ∧
      c2.state_ref = c.state_ref ∧ c2.state = { c.state with type := c.info.type } ∧
      c2.info.hidden = c.info.hidden ∧ c2.info.system = c.info.system ∧
      c2.trace = c.trace ++
        (if c.info.type = NF4LNK then [call.nfs41_symlink_follow env.symlink_follow.1]
          else []) := by
  have h51 : ¬ (NF4LNK = NF4DIR) := by decide
  have h52 : ¬ (NF4LNK = NF4REG) := by decide
  have h21 : ¬ (NF4DIR = NF4LNK) := by decide
  have h12 : ¬ (NF4REG = NF4LNK) := by decide
  unfold handle_open_lookup_done
  rw [if_pos hs]
  by_cases h1 : c.info.type = NF4DIR
  · rw [if_pos h1, if_neg (hdir h1)]
    exact ⟨_, rfl, rfl, rfl, rfl, rfl, rfl, rfl, rfl, by simp [h1]⟩
  · rw [if_neg h1]
    by_cases h2 : c.info.type = NF4REG
    · rw [if_pos h2, if_neg (hreg h2)]
      exact ⟨_, rfl, rfl, rfl, rfl, rfl, rfl, rfl, rfl, by simp [h2]⟩
    · rw [if_neg h2]
      by_cases h3 : c.info.type = NF4LNK
      · rw [if_pos h3, if_pos (hlnk h3)]
        by_cases h4 : env.symlink_follow.1 = NO_ERROR ∧ env.symlink_follow.2 = NF4DIR
        · simp only [h4, and_self, if_true]
          exact ⟨_, rfl, rfl, rfl, rfl, rfl, rfl, rfl, rfl, by simp [h3]⟩
        · simp only [h4, if_false]
          exact ⟨_, rfl, rfl, rfl, rfl, rfl, rfl, rfl, rfl, by simp [h3]⟩
      · rw [if_neg h3]
        exact ⟨_, rfl, rfl, rfl, rfl, rfl, rfl, rfl, rfl, by simp [h3]⟩

/-- For `FILE_SUPERSEDE` share_access and share_deny do not depend on the values
they had on entry. -/
theorem map_access_supersede (access_mask access_mode : Nat) (o1 o2 : allowdeny_out) :
    map_access_2_allowdeny access_mask access_mode FILE_SUPERSEDE o1
      = map_access_2_allowdeny access_mask access_mode FILE_SUPERSEDE o2 := by
  have ha := map_access_allow_eq access_mask access_mode FILE_SUPERSEDE
  have hd := map_access_deny_eq access_mask access_mode FILE_SUPERSEDE
  have hc : FILE_SUPERSEDE ∈ creating_dispositions := by decide
  cases h1 : map_access_2_allowdeny access_mask access_mode FILE_SUPERSEDE o1 with
  | mk a1 d1 =>
    cases h2 : map_access_2_allowdeny access_mask access_mode FILE_SUPERSEDE o2 with
    | mk a2 d2 =>
      have e1 := ha o1
      have e2 := ha o2
      have f1 := hd o1
      have f2 := hd o2
      rw [h1] at e1 f1
      rw [h2] at e2 f2
      simp only [hc, if_true] at e1 e2
      simp only at e1 e2 f1 f2
      rw [e1, e2, f1, f2]

/-- A `FILE_SUPERSEDE` open of an existing object that is not a directory,
passes the type checks and the hidden / system and execute checks, reaches the
label `supersede_retry:` with create = `OPEN4_CREATE`, having made the calls of
`data_path_head`. -/
theorem handle_open_supersede_entry (env : open_env) (args : open_upcall_args)
    (state_ref : state_ref_ptr) (last_error : Nat)
    (halloc : env.alloc_error = none)
    (hpath : strlen args.path < env.NFS41_MAX_PATH_LEN)
    (hlookup : env.lookup_status = NO_ERROR)
    (hdisp : args.disposition = FILE_SUPERSEDE)
    (hnodir : env.lookup_info.type ≠ NF4DIR)
    (hreg : env.lookup_info.type = NF4REG → ¬ has_any args.create_opts FILE_DIRECTORY_FILE)
    (hlnk : env.lookup_info.type = NF4LNK → has_any args.create_opts FILE_OPEN_REPARSE_POINT)
    (hsym : args.symlink.len = 0)
    (hvis : ¬ ((env.lookup_info.hidden = true ∧
          ¬ has_any args.file_attrs FILE_ATTRIBUTE_HIDDEN) ∨
        (env.lookup_info.system = true ∧
          ¬ has_any args.file_attrs FILE_ATTRIBUTE_SYSTEM)))
    (hexec : has_any args.access_mask FILE_EXECUTE ∧ env.lookup_file.fh.len ≠ 0 →
      check_execute_access env.access = 0) :
    ∃ c : open_ctx,
      handle_open env args state_ref last_error
        = handle_open_retry env NO_ERROR OPEN4_CREATE
            (if env.persistent ≠ 0 then GUARDED4 else EXCLUSIVE4_1) env.cycles c ∧
      c.args = args ∧ c.state_ref = state_ref ∧ c.last_error = last_error ∧
      c.state.ref_count = 1 ∧
      c.state.share_access
        = (map_access_2_allowdeny args.access_mask args.access_mode FILE_SUPERSEDE
            ⟨0, 0⟩).allow ∧
      c.state.share_deny
        = (map_access_2_allowdeny args.access_mask args.access_mode FILE_SUPERSEDE
            ⟨0, 0⟩).deny ∧
      c.trace = data_path_head env args := by
  have hne : env.lookup_status ≠ (ERROR_REPARSE : Nat) := by rw [hlookup]; decide
  obtain ⟨c, hc, hst, hargs, hle, hsr, hinfo, htr, hrc, _, hfile, _⟩ :=
    handle_open_lookup_entry env args state_ref last_error halloc hpath hne
  obtain ⟨c2, hc2, hst2, hargs2, hle2, hsr2, hstate2, hhid2, hsys2, htr2⟩ :=
    handle_open_lookup_done_dispatch_state env c (by rw [hst, hlookup])
      (fun h => absurd (hinfo ▸ h) hnodir)
      (fun h => by rw [hargs]; exact hreg (hinfo ▸ h))
      (fun h => by rw [hargs]; exact hlnk (hinfo ▸ h))
  have hargs3 : c2.args = args := hargs2.trans hargs
  have hst3 : c2.status = 0 := by rw [hst2, hst, hlookup]
  have hd2 : c2.args.disposition = FILE_SUPERSEDE := by rw [hargs3]; exact hdisp
  have hdata : handle_open env args state_ref last_error = handle_open_data env c2 := by
    rw [hc, hc2]
    exact handle_open_dispatch_data env c2 (Or.inr (Or.inr hd2))
      (by rw [hargs3]; exact hsym) (by rw [hstate2]; simpa [hinfo] using hnodir)
  have hvis2 : ¬ ((c2.status = 0 ∧ (c2.args.disposition = FILE_OVERWRITE ∨
        c2.args.disposition = FILE_OVERWRITE_IF ∨ c2.args.disposition = FILE_SUPERSEDE)) ∧
      ((c2.info.hidden = true ∧ ¬ has_any c2.args.file_attrs FILE_ATTRIBUTE_HIDDEN) ∨
        (c2.info.system = true ∧ ¬ has_any c2.args.file_attrs FILE_ATTRIBUTE_SYSTEM))) := by
    rw [hhid2, hsys2, hargs3, hinfo]
    exact fun h => hvis h.2
  have hnsup : ¬ ((c2.status = 0 ∧ (c2.args.disposition = FILE_OVERWRITE ∨
        c2.args.disposition = FILE_OVERWRITE_IF ∨ c2.args.disposition = FILE_SUPERSEDE)) ∧
      c2.args.disposition ≠ FILE_SUPERSEDE) := fun h => h.2 hd2
  have hmap : map_disposition_2_nfsopen FILE_SUPERSEDE 0 env.persistent
      { create := 0, createhowmode := 0, last_error := c2.last_error }
      = (NO_ERROR, ⟨OPEN4_CREATE, if env.persistent ≠ 0 then GUARDED4 else EXCLUSIVE4_1,
          c2.last_error⟩) := by
    by_cases hp : env.persistent = 0 <;>
      simp [map_disposition_2_nfsopen, set_createhowmode, hp]
  have hlen : c2.state.file.fh.len = env.lookup_file.fh.len := by
    rw [hstate2, ← hfile]
  rw [hdata]
  unfold handle_open_data
  simp only []
  rw [if_neg hvis2, if_neg hnsup]
  simp only [hd2, hst3, hmap, ne_eq, not_true_eq_false, if_false]
  have hshare : map_access_2_allowdeny c2.args.access_mask c2.args.access_mode FILE_SUPERSEDE
      { allow := c2.state.share_access, deny := c2.state.share_deny }
      = map_access_2_allowdeny args.access_mask args.access_mode FILE_SUPERSEDE ⟨0, 0⟩ := by
    rw [hargs3]
    exact map_access_supersede _ _ _ _
  by_cases hx : has_any c2.args.access_mask FILE_EXECUTE ∧ c2.state.file.fh.len ≠ 0
  · have hx2 : has_any args.access_mask FILE_EXECUTE ∧ env.lookup_file.fh.len ≠ 0 := by
      rw [← hargs3, ← hlen]
      exact hx
    have hok := hexec hx2
    simp only [hx, and_self, if_true, hok, ne_eq, not_true_eq_false, if_false]
    refine ⟨_, rfl, hargs3, hsr2.trans hsr, hle2.trans hle, ?_, ?_, ?_, ?_⟩
    · simp [hstate2, hrc]
    · simp only [hshare]
    · simp only [hshare]
    · simp only [data_path_head, htr2, htr, hinfo, hlookup]
      rw [if_pos hx2]
  · have hx2 : ¬ (has_any args.access_mask FILE_EXECUTE ∧ env.lookup_file.fh.len ≠ 0) := by
      rw [← hargs3, ← hlen]
      exact hx
    rw [if_neg hx]
    refine ⟨_, rfl, hargs3, hsr2.trans hsr, hle2.trans hle, ?_, ?_, ?_, ?_⟩
    · simp [hstate2, hrc]
    · simp only [hshare]
    · simp only [hshare]
    · simp only [data_path_head, htr2, htr, hinfo, hlookup]
      rw [if_neg hx2, List.append_nil]

/-- C23 as stated fails: with `FILE_DIRECTORY_FILE` requested on an existing
symbolic link (opened with `FILE_OPEN_REPARSE_POINT`), the supersede cycle of
`handle_open` sends no delegation return and no OPEN: after the lookup and
`nfs41_symlink_follow` it sends REMOVE and then a CREATE of a directory. -/
theorem supersede_symlink_directory_counterexample :
    symlink_env.lookup_info.type ≠ NF4DIR ∧
    supersede_directory_args.disposition = FILE_SUPERSEDE ∧
    (handle_open symlink_env supersede_directory_args state_ref_ptr.NULL 0).status = 0 ∧
    (handle_open symlink_env supersede_directory_args state_ref_ptr.NULL 0).trace =
      [call.nfs41_lookup 0, call.nfs41_symlink_follow 0, call.nfs41_remove 0,
       call.nfs41_create NF4DIR 0, call.nfs41_open_state_ref] := by
  decide

/-- C23 (amended): for every run of `handle_open` that takes the data-bearing
path with disposition `FILE_SUPERSEDE` on an existing object (the lookup
succeeds on an object that is not a directory and passes the type checks, no
cygwin symlink target is given, the hidden / system check and the execute check
pass), whatever the answers of the collaborators.  After the calls of
`data_path_head` the run makes the passes of the supersede cycle, each with the
calls of `supersede_cycle_calls`: when `create_opts` lacks
`FILE_DIRECTORY_FILE`, the return of the write delegation, the REMOVE,
`nfs41_delegate_open` and, unless that finds a cached delegation, the OPEN with
CREATE; when `create_opts` has `FILE_DIRECTORY_FILE`, the REMOVE and the CREATE
of a directory, with no delegation return and no OPEN.  Every pass whose REMOVE
succeeds and whose OPEN or CREATE returns `NFS4ERR_EXIST` (the passes `pre`) is
followed by another whole pass.  The pass `cy` that follows them ends the run:
if its REMOVE fails the run returns the status of the REMOVE after the deref,
with no OPEN or CREATE in that pass; if its OPEN or CREATE fails otherwise the
run returns the mapped status after the deref; if it succeeds the pass is
followed only by `client_state_add`, `nfs41_ea_set` and the second reference. -/
theorem supersede_cycle_order (env : open_env) (args : open_upcall_args)
    (state_ref : state_ref_ptr) (last_error : Nat)
    (pre : List open_cycle) (cy : open_cycle) (rest : List open_cycle)
    (halloc : env.alloc_error = none)
    (hpath : strlen args.path < env.NFS41_MAX_PATH_LEN)
    (hlookup : env.lookup_status = NO_ERROR)
    (hdisp : args.disposition = FILE_SUPERSEDE)
    (hnodir : env.lookup_info.type ≠ NF4DIR)
    (hreg : env.lookup_info.type = NF4REG → ¬ has_any args.create_opts FILE_DIRECTORY_FILE)
    (hlnk : env.lookup_info.type = NF4LNK → has_any args.create_opts FILE_OPEN_REPARSE_POINT)
    (hsym : args.symlink.len = 0)
    (hvis : ¬ ((env.lookup_info.hidden = true ∧
          ¬ has_any args.file_attrs FILE_ATTRIBUTE_HIDDEN) ∨
        (env.lookup_info.system = true ∧
          ¬ has_any args.file_attrs FILE_ATTRIBUTE_SYSTEM)))
    (hexec : has_any args.access_mask FILE_EXECUTE ∧ env.lookup_file.fh.len ≠ 0 →
      check_execute_access env.access = 0)
    (hcycles : env.cycles = pre ++ cy :: rest)
    (hpre : ∀ x ∈ pre, x.remove = 0 ∧
      supersede_cycle_status args.create_opts x = NFS4ERR_EXIST)
    (hcy : ¬ (cy.remove = 0 ∧
      supersede_cycle_status args.create_opts cy = NFS4ERR_EXIST)) :
    (cy.remove ≠ 0 →
      (handle_open env args state_ref last_error).status = cy.remove ∧
      (handle_open env args state_ref last_error).trace
        = data_path_head env args ++
          pre.flatMap
            (supersede_cycle_calls args.create_opts
              (if env.persistent ≠ 0 then GUARDED4 else EXCLUSIVE4_1)
              (map_access_2_allowdeny args.access_mask args.access_mode FILE_SUPERSEDE
                ⟨0, 0⟩).allow
              (map_access_2_allowdeny args.access_mask args.access_mode FILE_SUPERSEDE
                ⟨0, 0⟩).deny) ++
          (if has_any args.create_opts FILE_DIRECTORY_FILE then []
            else [call.nfs41_delegation_return OPEN_DELEGATE_WRITE]) ++
          [call.nfs41_remove cy.remove, call.nfs41_open_state_deref] ∧
      (handle_open env args state_ref last_error).freed = true ∧
      (handle_open env args state_ref last_error).state_ref = state_ref) ∧
    (cy.remove = 0 → supersede_cycle_status args.create_opts cy ≠ 0 →
      (handle_open env args state_ref last_error).status
        = env.nfs_to_windows_error (supersede_cycle_status args.create_opts cy)
            (ERROR_FILE_NOT_FOUND : Nat) ∧
      (handle_open env args state_ref last_error).trace
        = data_path_head env args ++
          pre.flatMap
            (supersede_cycle_calls args.create_opts
              (if env.persistent ≠ 0 then GUARDED4 else EXCLUSIVE4_1)
              (map_access_2_allowdeny args.access_mask args.access_mode FILE_SUPERSEDE
                ⟨0, 0⟩).allow
              (map_access_2_allowdeny args.access_mask args.access_mode FILE_SUPERSEDE
                ⟨0, 0⟩).deny) ++
          (supersede_cycle_calls args.create_opts
              (if env.persistent ≠ 0 then GUARDED4 else EXCLUSIVE4_1)
              (map_access_2_allowdeny args.access_mask args.access_mode FILE_SUPERSEDE
                ⟨0, 0⟩).allow
              (map_access_2_allowdeny args.access_mask args.access_mode FILE_SUPERSEDE
                ⟨0, 0⟩).deny) cy ++
          [call.nfs41_open_state_deref] ∧
      (handle_open env args state_ref last_error).freed = true ∧
      (handle_open env args state_ref last_error).state_ref = state_ref) ∧
    (cy.remove = 0 → supersede_cycle_status args.create_opts cy = 0 →
      ∃ tail : List call,
        (handle_open env args state_ref last_error).trace
          = data_path_head env args ++
            pre.flatMap
              (supersede_cycle_calls args.create_opts
              (if env.persistent ≠ 0 then GUARDED4 else EXCLUSIVE4_1)
              (map_access_2_allowdeny args.access_mask args.access_mode FILE_SUPERSEDE
                ⟨0, 0⟩).allow
              (map_access_2_allowdeny args.access_mask args.access_mode FILE_SUPERSEDE
                ⟨0, 0⟩).deny) ++
            (supersede_cycle_calls args.create_opts
              (if env.persistent ≠ 0 then GUARDED4 else EXCLUSIVE4_1)
              (map_access_2_allowdeny args.access_mask args.access_mode FILE_SUPERSEDE
                ⟨0, 0⟩).allow
              (map_access_2_allowdeny args.access_mask args.access_mode FILE_SUPERSEDE
                ⟨0, 0⟩).deny) cy ++
            tail ∧
        (∀ x ∈ tail, x = call.client_state_add ∨ x = call.nfs41_ea_set env.ea_set ∨
          x = call.nfs41_open_state_ref) ∧
        tail.getLast? = some call.nfs41_open_state_ref ∧
        (args.ea = false → (handle_open env args state_ref last_error).status = 0)) := by
  obtain ⟨c, hc, hargs, hsr, _, hrc, hsa, hsd, htr⟩ :=
    handle_open_supersede_entry env args state_ref last_error halloc hpath hlookup hdisp
      hnodir hreg hlnk hsym hvis hexec
  have hd : c.args.disposition = FILE_SUPERSEDE := by rw [hargs]; exact hdisp
  obtain ⟨c2, hc2, h2d, h2o, h2e, h2r, _, h2a, h2y, h2c, h2t⟩ :=
    handle_open_retry_exist_loop env (if env.persistent ≠ 0 then GUARDED4 else EXCLUSIVE4_1)
      pre c (cy :: rest) hd (by rw [hargs]; exact hpre)
  have hopts : c2.args.create_opts = args.create_opts := by rw [h2o, hargs]
  obtain ⟨l1, l2, l3⟩ :=
    handle_open_retry_last env (if env.persistent ≠ 0 then GUARDED4 else EXCLUSIVE4_1)
      cy rest c2 (by rw [h2d]; exact hd) (by rw [hopts]; exact hcy)
  simp only [hopts, h2a, h2y, h2c, h2r, h2t, h2e, hargs, hsa, hsd, hrc, htr, hsr]
    at l1 l2 l3
  rw [hc, hcycles, hc2]
  refine ⟨fun h => ?_, fun h1 h2 => ?_, fun h1 h2 => ?_⟩
  · obtain ⟨a1, a2, a3, a4⟩ := l1 h
    exact ⟨a1, by rw [a2], by rw [a3]; rfl, a4⟩
  · obtain ⟨a1, a2, a3, a4⟩ := l2 h1 h2
    exact ⟨a1, a2, by rw [a3]; rfl, a4⟩
  · exact l3 h1 h2

/-- Witness of `supersede_cycle_order`: a `FILE_SUPERSEDE` open of the existing
regular file `/a` whose first OPEN races with another creation and returns
`NFS4ERR_EXIST`; the cycle of delegation return, REMOVE, `nfs41_delegate_open`
and OPEN with CREATE is run twice. -/
theorem supersede_cycle_order_witness :
    ∃ tail : List call,
      (handle_open supersede_race_env supersede_args state_ref_ptr.NULL 0).trace
        = [call.nfs41_lookup 0] ++
          [call.nfs41_delegation_return OPEN_DELEGATE_WRITE, call.nfs41_remove 0,
           call.nfs41_delegate_open 10001,
           call.nfs41_open OPEN4_CREATE EXCLUSIVE4_1 OPEN4_SHARE_ACCESS_WRITE
             OPEN4_SHARE_DENY_BOTH NFS4ERR_EXIST] ++
          [call.nfs41_delegation_return OPEN_DELEGATE_WRITE, call.nfs41_remove 0,
           call.nfs41_delegate_open 10001,
           call.nfs41_open OPEN4_CREATE EXCLUSIVE4_1 OPEN4_SHARE_ACCESS_WRITE
             OPEN4_SHARE_DENY_BOTH 0] ++ tail ∧
      tail.getLast? = some call.nfs41_open_state_ref :=
  have h := (supersede_cycle_order supersede_race_env supersede_args state_ref_ptr.NULL 0
    [{ open_ := NFS4ERR_EXIST }] {} [] rfl (by decide) rfl rfl (by decide) (by decide)
    (by decide) rfl (by decide) (by decide) rfl (by decide) (by decide)).2.2
      (by decide) (by decide)
  h.elim fun tail ht => ⟨tail, ht.1, ht.2.2.1⟩

end Nfs41
